import Mathlib

/-!
# Next-best-view planner: plugin triggers and metric evaluator

A shallow embedding of the next-best-view plugin
(`src/src/plugins/NextBestViewPlugin.cpp`) and of the planner interface
declared in `src/src/nbv/NextBestView.h`.

Scalars (`float`, `double`) of the plugin are modelled by rational numbers; the
narrowing conversion of an assignment `float = double` is an explicit function
of the environment.  Stateful member functions become functions from the
object state to an outcome that carries the new state together with a record
of the external calls (optimizer, cost functions, console) made on the way.

The planner member functions have their declarations and the shader sources in
the header; their bodies are modelled over an arbitrary ordered field, with
`sqrt` and `arccos` as collaborators, and instantiated with the real numbers
where angles are concerned.
-/

namespace NBV

/-! ## Vectors -/

/-- A three-component vector (`glm::vec3`, `arma::vec` of size 3). The fields
are the components `[0]`, `[1]`, `[2]`. -/
structure Vec3 (α : Type) where
  x : α
  y : α
  z : α
deriving DecidableEq, Repr

namespace Vec3

variable {α : Type}

/-- Component read `v[i]` / `v(i)`. -/
def get (v : Vec3 α) (i : Fin 3) : α :=
  match i with
  | 0 => v.x
  | 1 => v.y
  | 2 => v.z

/-- Component write `v[i] = a` / `v(i) = a`. -/
def set (v : Vec3 α) (i : Fin 3) (a : α) : Vec3 α :=
  match i with
  | 0 => { v with x := a }
  | 1 => { v with y := a }
  | 2 => { v with z := a }

/-- The vector `arma::zeros(3, 1)`. -/
def zeros [Zero α] : Vec3 α := ⟨0, 0, 0⟩

/-- Componentwise image of a vector. -/
def map {β : Type} (f : α → β) (v : Vec3 α) : Vec3 β := ⟨f v.x, f v.y, f v.z⟩

/-- Componentwise sum. -/
def add [Add α] (a b : Vec3 α) : Vec3 α := ⟨a.x + b.x, a.y + b.y, a.z + b.z⟩

/-- Componentwise difference. -/
def sub [Sub α] (a b : Vec3 α) : Vec3 α := ⟨a.x - b.x, a.y - b.y, a.z - b.z⟩

/-- Scalar multiple. -/
def smul [Mul α] (t : α) (a : Vec3 α) : Vec3 α := ⟨t * a.x, t * a.y, t * a.z⟩

/-- Dot product. -/
def dot [Add α] [Mul α] (a b : Vec3 α) : α := a.x * b.x + a.y * b.y + a.z * b.z

end Vec3

/-! ## The optimizer library interface (`optim.hpp`) -/

/-- The gradient-descent settings `optim::gd_settings_t`; the plugin touches
only `step_size`. -/
structure gd_settings_t where
  step_size : ℚ
deriving DecidableEq, Repr

/-- The optimizer settings `optim::algo_settings_t`, restricted to the members
the plugin assigns. -/
structure algo_settings_t where
  err_tol : ℚ
  iter_max : Int
  gd_method : Int
  gd_settings : gd_settings_t
deriving DecidableEq, Repr

/-! ## The reconstruction scene and the planner object -/

/-- The calibration of an image; `K11` is the entry `camera.K(1, 1)`, the
vertical focal length. -/
structure Camera where
  K11 : ℚ
deriving DecidableEq, Repr

/-- An image of the reconstruction (`MVS::Image`), restricted to what the
plugin reads. -/
structure Image where
  width : Nat
  height : Nat
  camera : Camera
deriving DecidableEq, Repr

/-- The triangle mesh of the scene: vertex positions and, per face, three
vertex indices. -/
structure Mesh (α : Type) where
  vertices : List (Vec3 α)
  faces : List (Nat × Nat × Nat)
deriving DecidableEq, Repr

/-- The reconstruction scene `MVS::Scene`, restricted to its image list and
its mesh. -/
structure Scene where
  images : List Image
  mesh : Mesh ℚ := ⟨[], []⟩
deriving DecidableEq, Repr

/-- The data members of `class NextBestView` (NextBestView.h, lines 53-74),
with the default member initialisers of the header. The rendering members
(shaders, GPU meshes) are left out. -/
structure NextBestView where
  mvs_scene_ : Scene
  downscale_factor_ : ℚ := 4.0
  visibility_ratio_target_ : ℚ := 0.8
  visible_faces_target_ : Int := 20
  ppa_ : List ℚ := []
  face_centers_ : List (Vec3 ℚ) := []
  face_normals_ : List (Vec3 ℚ) := []
  visible_faces_ : List (List Nat) := []
deriving DecidableEq, Repr

/-- The aggregate handed to the position objective,
`OptimPosData{next_best_view_.get(), camera_rot_, image_width, image_height, focal_y}`. -/
structure OptimPosData where
  nbv : NextBestView
  camera_rot : Vec3 ℚ
  image_width : Nat
  image_height : Nat
  focal_y : ℚ
deriving DecidableEq, Repr

/-- The aggregate handed to the rotation objective,
`OptimRotData{next_best_view_.get(), camera_pos_, image_width, image_height, focal_y}`. -/
structure OptimRotData where
  nbv : NextBestView
  camera_pos : Vec3 ℚ
  image_width : Nat
  image_height : Nat
  focal_y : ℚ
deriving DecidableEq, Repr

/-! ## The viewer -/

/-- One mesh slot of the viewer (`igl::opengl::ViewerData`), restricted to
what the plugin writes. -/
structure ViewerData where
  V : List (Vec3 ℚ) := []
  F : List (Nat × Nat × Nat) := []
  show_faces : Bool := true
  show_lines : Bool := true
deriving DecidableEq, Repr

/-- The viewer (`igl::opengl::glfw::Viewer`): its mesh slots and the selected
slot. -/
structure Viewer where
  data_list : List ViewerData
  selected_data_index : Nat
deriving DecidableEq, Repr

/-- Replace the element at position `n` of a list by its image under `f`. -/
def modifyNth {α : Type} (f : α → α) : Nat → List α → List α
  | _, [] => []
  | 0, a :: l => f a :: l
  | n + 1, a :: l => a :: modifyNth f n l

/-- Apply `f` to `viewer->data()`, the selected mesh slot. -/
def Viewer.onData (v : Viewer) (f : ViewerData → ViewerData) : Viewer :=
  { v with data_list := modifyNth f v.selected_data_index v.data_list }

/-! ## The plugin -/

/-- The state of a `NextBestViewPlugin`. -/
structure NextBestViewPlugin where
  next_best_view_ : NextBestView
  camera_pos_ : Vec3 ℚ
  camera_rot_ : Vec3 ℚ
  show_camera_ : Bool
  camera_vertices_ : List (Vec3 ℚ)
  VIEWER_DATA_NBV : Nat
  viewer : Viewer
deriving DecidableEq, Repr

/-- One recorded invocation of `optim::gd`: the starting vector, the data
pointer's target and the settings, for either sub-problem. -/
inductive OptimCall where
  | position (init : Vec3 ℚ) (data : OptimPosData) (settings : algo_settings_t)
  | rotation (init : Vec3 ℚ) (data : OptimRotData) (settings : algo_settings_t)
deriving DecidableEq, Repr

/-- One recorded cost evaluation made directly by the plugin, for the view
matrix generated from the pose `(camera_pos, camera_rot)`. -/
inductive CostCall where
  | position (camera_pos camera_rot : Vec3 ℚ) (image_width image_height : Nat) (focal_y : ℚ)
  | rotation (camera_pos camera_rot : Vec3 ℚ) (image_width image_height : Nat) (focal_y : ℚ)
deriving DecidableEq, Repr

/-- What a callback writes to the console: the elapsed-time line (its value is
wall-clock time and is not modelled), a parameter vector, or a log line. -/
inductive Printed where
  | elapsed_time
  | parameters (v : Vec3 ℚ)
  | log (line : String)
deriving DecidableEq, Repr

/-- Everything a member function of the plugin leaves behind: the new object
state, the optimizer invocations, the cost evaluations and the console output.
The callbacks return `void`, so nothing else reaches their caller. -/
structure Outcome where
  state : NextBestViewPlugin
  optimizer_calls : List OptimCall := []
  cost_calls : List CostCall := []
  cout : List Printed := []
deriving DecidableEq, Repr

/-- The external collaborators of the plugin: the optimizer `optim::gd`, the
objective functions of `nbv/HelpersOptim.h`, the planner member functions whose
bodies are not part of the plugin, `generate_view_matrix` of `nbv/Helpers.h`,
the trigonometric functions behind `Eigen::AngleAxisd`, the default-constructed
settings of the optimizer library and the `double` to `float` conversion. -/
structure Env where
  View : Type
  gd : (Data : Type) → Vec3 ℚ → (Vec3 ℚ → Data → ℚ) → Data → algo_settings_t → Vec3 ℚ × Bool
  optim_pos_function : Vec3 ℚ → OptimPosData → ℚ
  optim_rot_function : Vec3 ℚ → OptimRotData → ℚ
  Initialize : NextBestView → NextBestView
  generate_view_matrix : Vec3 ℚ → Vec3 ℚ → View
  CostFunctionPosition : NextBestView → View → Nat → Nat → ℚ → ℚ
  CostFunctionRotation : NextBestView → View → Nat → Nat → ℚ → ℚ
  cos : ℚ → ℚ
  sin : ℚ → ℚ
  default_algo_settings : algo_settings_t
  default_gd_settings : gd_settings_t
  toFloat : ℚ → ℚ

/-- The rotation `Eigen::AngleAxisd(a, Eigen::Vector3d::UnitX())`. -/
def rotX (E : Env) (a : ℚ) (v : Vec3 ℚ) : Vec3 ℚ :=
  ⟨v.x, E.cos a * v.y - E.sin a * v.z, E.sin a * v.y + E.cos a * v.z⟩

/-- The rotation `Eigen::AngleAxisd(a, Eigen::Vector3d::UnitY())`. -/
def rotY (E : Env) (a : ℚ) (v : Vec3 ℚ) : Vec3 ℚ :=
  ⟨E.cos a * v.x + E.sin a * v.z, v.y, -(E.sin a * v.x) + E.cos a * v.z⟩

/-- The rotation `Eigen::AngleAxisd(a, Eigen::Vector3d::UnitZ())`. -/
def rotZ (E : Env) (a : ℚ) (v : Vec3 ℚ) : Vec3 ℚ :=
  ⟨E.cos a * v.x - E.sin a * v.y, E.sin a * v.x + E.cos a * v.y, v.z⟩

/-- The affine map `translation * yaw * pitch * roll * scale` of
`transform_camera`, applied to one base vertex. -/
def camera_transformation_ (E : Env) (pos rot : Vec3 ℚ) (v : Vec3 ℚ) : Vec3 ℚ :=
  Vec3.add pos (rotY E rot.y (rotX E rot.x (rotZ E rot.z (Vec3.smul (1 / 2) v))))

/-- `NextBestViewPlugin::transform_camera` (lines 190-208). -/
def transform_camera (E : Env) (s : NextBestViewPlugin) : NextBestViewPlugin :=
  let viewer := { s.viewer with selected_data_index := s.VIEWER_DATA_NBV }
  if s.camera_vertices_.length > 0 then
    let V := s.camera_vertices_.map (camera_transformation_ E s.camera_pos_ s.camera_rot_)
    { s with viewer := viewer.onData (fun d => { d with V := V }) }
  else
    { s with viewer := viewer }

/-- `NextBestViewPlugin::show_camera` (lines 210-214). -/
def show_camera (s : NextBestViewPlugin) (visible : Bool) : NextBestViewPlugin :=
  let viewer := { s.viewer with selected_data_index := s.VIEWER_DATA_NBV }
  { s with viewer := viewer.onData (fun d => { d with show_faces := visible, show_lines := visible }) }

/-- The settings both callbacks build (lines 91-97 and 133-139): a
default-constructed `algo_settings_t` with `err_tol`, `iter_max`, `gd_method`
assigned and a default-constructed `gd_settings_t` with `step_size` assigned. -/
def optim_settings (E : Env) : algo_settings_t :=
  let s0 := E.default_algo_settings
  let s1 := { s0 with err_tol := 0.001 }
  let s2 := { s1 with iter_max := 1 }
  let s3 := { s2 with gd_method := 0 }
  let g := { E.default_gd_settings with step_size := 0.1 }
  { s3 with gd_settings := g }

/-- `NextBestViewPlugin::optimize_position_callback` (lines 78-118). Reading
`images.front()` of an empty image list has no defined result: `none`. -/
def optimize_position_callback (E : Env) (s : NextBestViewPlugin) : Option Outcome :=
  match s.next_best_view_.mvs_scene_.images.head? with
  | none => none
  | some front =>
    let image_width := front.width
    let image_height := front.height
    let focal_y := front.camera.K11
    let param_pos : Vec3 ℚ := Vec3.zeros
    let param_pos := param_pos.set 0 (s.camera_pos_.get 0)
    let param_pos := param_pos.set 1 (s.camera_pos_.get 1)
    let param_pos := param_pos.set 2 (s.camera_pos_.get 2)
    let optim_pos_settings := optim_settings E
    let optim_pos_data : OptimPosData :=
      ⟨s.next_best_view_, s.camera_rot_, image_width, image_height, focal_y⟩
    let result := E.gd OptimPosData param_pos E.optim_pos_function optim_pos_data optim_pos_settings
    let param_out := result.1
    let camera_pos := s.camera_pos_.set 0 (E.toFloat (param_out.get 0))
    let camera_pos := camera_pos.set 1 (E.toFloat (param_out.get 1))
    let camera_pos := camera_pos.set 2 (E.toFloat (param_out.get 2))
    let s1 := { s with camera_pos_ := camera_pos }
    some { state := transform_camera E s1
           optimizer_calls := [OptimCall.position param_pos optim_pos_data optim_pos_settings]
           cout := [Printed.elapsed_time, Printed.parameters param_out] }

/-- `NextBestViewPlugin::optimize_rotation_callback` (lines 120-160). -/
def optimize_rotation_callback (E : Env) (s : NextBestViewPlugin) : Option Outcome :=
  match s.next_best_view_.mvs_scene_.images.head? with
  | none => none
  | some front =>
    let image_width := front.width
    let image_height := front.height
    let focal_y := front.camera.K11
    let param_rot : Vec3 ℚ := Vec3.zeros
    let param_rot := param_rot.set 0 (s.camera_rot_.get 0)
    let param_rot := param_rot.set 1 (s.camera_rot_.get 1)
    let param_rot := param_rot.set 2 (s.camera_rot_.get 2)
    let optim_rot_settings := optim_settings E
    let optim_rot_data : OptimRotData :=
      ⟨s.next_best_view_, s.camera_pos_, image_width, image_height, focal_y⟩
    let result := E.gd OptimRotData param_rot E.optim_rot_function optim_rot_data optim_rot_settings
    let param_out := result.1
    let camera_rot := s.camera_rot_.set 0 (E.toFloat (param_out.get 0))
    let camera_rot := camera_rot.set 1 (E.toFloat (param_out.get 1))
    let camera_rot := camera_rot.set 2 (E.toFloat (param_out.get 2))
    let s1 := { s with camera_rot_ := camera_rot }
    some { state := transform_camera E s1
           optimizer_calls := [OptimCall.rotation param_rot optim_rot_data optim_rot_settings]
           cout := [Printed.elapsed_time, Printed.parameters param_out] }

/-- The widget results of one frame of the plugin window, in the order in
which `post_draw` queries them: a button is `true` when it was clicked, an
input is `some v` when the user edited it to `v`. -/
structure Frame where
  initialize_nbv : Bool := false
  position_input : Option (Vec3 ℚ) := none
  angles_input : Option (Vec3 ℚ) := none
  optimize_position : Bool := false
  optimize_rotation : Bool := false
  show_camera_checkbox : Option Bool := none
  debug : Bool := false
deriving DecidableEq, Repr

/-- Sequencing of member functions: run `f` on the state `o` left behind and
append what it records. -/
def Outcome.andThen (o : Outcome) (f : NextBestViewPlugin → Option Outcome) : Option Outcome :=
  match f o.state with
  | none => none
  | some o2 =>
    some { state := o2.state
           optimizer_calls := o.optimizer_calls ++ o2.optimizer_calls
           cost_calls := o.cost_calls ++ o2.cost_calls
           cout := o.cout ++ o2.cout }

/-- The body of the "Debug" button (lines 54-72): both cost functions are
evaluated for the current pose and their values are dropped. -/
def debug_button (E : Env) (s : NextBestViewPlugin) : Option Outcome :=
  match s.next_best_view_.mvs_scene_.images.head? with
  | none => none
  | some front =>
    let image_width := front.width
    let image_height := front.height
    let focal_y := front.camera.K11
    let view_matrix := E.generate_view_matrix s.camera_pos_ s.camera_rot_
    let _cost_pos := E.CostFunctionPosition s.next_best_view_ view_matrix image_width image_height focal_y
    let _cost_rot := E.CostFunctionRotation s.next_best_view_ view_matrix image_width image_height focal_y
    some { state := s
           cost_calls := [CostCall.position s.camera_pos_ s.camera_rot_ image_width image_height focal_y,
                          CostCall.rotation s.camera_pos_ s.camera_rot_ image_width image_height focal_y]
           cout := [Printed.log "Debug button pressed"] }

/-- `NextBestViewPlugin::post_draw` (lines 26-76) for the widget results `ui`. -/
def post_draw (E : Env) (s : NextBestViewPlugin) (ui : Frame) : Option Outcome :=
  let s := if ui.initialize_nbv then { s with next_best_view_ := E.Initialize s.next_best_view_ } else s
  let s := match ui.position_input with
    | some v => { s with camera_pos_ := v }
    | none => s
  let s := match ui.angles_input with
    | some v => { s with camera_rot_ := v }
    | none => s
  let o : Outcome := { state := s }
  (if ui.optimize_position then o.andThen (optimize_position_callback E) else some o).bind fun o =>
  (if ui.optimize_rotation then o.andThen (optimize_rotation_callback E) else some o).bind fun o =>
  let o := match ui.show_camera_checkbox with
    | some b => { o with state := show_camera { o.state with show_camera_ := b } b }
    | none => o
  let o := if o.state.show_camera_ then { o with state := transform_camera E o.state } else o
  if ui.debug then o.andThen (debug_button E) else some o

/-! ## Concrete collaborators used to evaluate the model -/

/-- A test optimizer: it moves the first component by one step of the given
size and reports `converged`. -/
def stepping_gd (converged : Bool) (Data : Type) (init : Vec3 ℚ) (_f : Vec3 ℚ → Data → ℚ)
    (_data : Data) (settings : algo_settings_t) : Vec3 ℚ × Bool :=
  (⟨init.x + settings.gd_settings.step_size, init.y, init.z⟩, converged)

/-- A test environment around `stepping_gd`. -/
def stepping_env (converged : Bool) : Env where
  View := Vec3 ℚ × Vec3 ℚ
  gd := stepping_gd converged
  optim_pos_function := fun _ _ => 0
  optim_rot_function := fun _ _ => 0
  Initialize := fun n => n
  generate_view_matrix := fun p r => (p, r)
  CostFunctionPosition := fun _ _ _ _ _ => 0
  CostFunctionRotation := fun _ _ _ _ _ => 0
  cos := fun _ => 1
  sin := fun _ => 0
  default_algo_settings := ⟨1 / 100000000, 2000, 0, ⟨1 / 10⟩⟩
  default_gd_settings := ⟨1 / 10⟩
  toFloat := fun q => q

/-- A plugin on which "Initialize NBV" was never pressed: a scene with one
640x480 image, the geometry cache still empty, the candidate pose at the
origin. -/
def fresh_plugin : NextBestViewPlugin where
  next_best_view_ := { mvs_scene_ := { images := [⟨640, 480, ⟨500⟩⟩] } }
  camera_pos_ := ⟨0, 0, 0⟩
  camera_rot_ := ⟨0, 0, 0⟩
  show_camera_ := false
  camera_vertices_ := []
  VIEWER_DATA_NBV := 0
  viewer := ⟨[{}], 0⟩

/-- The environment `E` with the success flag of every optimizer run replaced
by `flag`; the vector the optimizer leaves is untouched. -/
def Env.withSuccess (E : Env) (flag : Bool) : Env :=
  { E with gd := fun Data init f data settings => ((E.gd Data init f data settings).1, flag) }

/-- The starting vector of a recorded optimizer invocation. -/
def OptimCall.init : OptimCall → Vec3 ℚ
  | .position init _ _ => init
  | .rotation init _ _ => init

/-- The settings of a recorded optimizer invocation. -/
def OptimCall.settings : OptimCall → algo_settings_t
  | .position _ _ settings => settings
  | .rotation _ _ settings => settings

/-- The data `OptimPosData` built by `optimize_position_callback` in state `s`
for the first image `front`. -/
def position_data (s : NextBestViewPlugin) (front : Image) : OptimPosData :=
  ⟨s.next_best_view_, s.camera_rot_, front.width, front.height, front.camera.K11⟩

/-- The data `OptimRotData` built by `optimize_rotation_callback` in state `s`
for the first image `front`. -/
def rotation_data (s : NextBestViewPlugin) (front : Image) : OptimRotData :=
  ⟨s.next_best_view_, s.camera_pos_, front.width, front.height, front.camera.K11⟩

/-! ## The FaceID shaders (NextBestView.h, lines 77-98) -/

/-- The outputs of the FaceID vertex shader. -/
structure FaceIdVertexOutput (α : Type) where
  face_id : Nat
  gl_Position : Fin 4 → α

/-- The vertex shader `faceid_vert_source`:
`face_id = in_face_id; gl_Position = projection * view * model * vec4(in_position, 1.0)`. -/
def faceid_vert_source {α : Type} [Semiring α] (model view projection : Matrix (Fin 4) (Fin 4) α)
    (in_position : Vec3 α) (in_face_id : Nat) : FaceIdVertexOutput α where
  face_id := in_face_id
  gl_Position :=
    Matrix.mulVec (projection * view * model) ![in_position.x, in_position.y, in_position.z, 1]

/-- The fragment shader `faceid_frag_source`: `out_face_id = face_id`. -/
def faceid_frag_source (face_id : Nat) : Nat := face_id

/-- The value a `flat` fragment input receives for a triangle: the output of
the provoking vertex, with no interpolation between the three vertices. -/
def flat_input {β : Type} (provoking : Fin 3) (v0 v1 v2 : β) : β :=
  match provoking with
  | 0 => v0
  | 1 => v1
  | 2 => v2

/-- The value the FaceID pass writes to a pixel covered by the triangle with
vertex positions `p0 p1 p2` and face-id attributes `id0 id1 id2`. -/
def faceid_pixel {α : Type} [Semiring α] (provoking : Fin 3)
    (model view projection : Matrix (Fin 4) (Fin 4) α)
    (p0 p1 p2 : Vec3 α) (id0 id1 id2 : Nat) : Nat :=
  faceid_frag_source
    (flat_input provoking
      (faceid_vert_source model view projection p0 id0).face_id
      (faceid_vert_source model view projection p1 id1).face_id
      (faceid_vert_source model view projection p2 id2).face_id)

/-! ## The planner member functions declared in NextBestView.h

The bodies of these member functions (NextBestView.cpp) are not among the
sources; the definitions below follow the specification. -/

/-- Modelled from the spec: the encoding of "no face" in the buffer of
`RenderFaceIdFromCamera`, whose body is missing. The specification admits two:
ids offset by one in the rendered buffer (the cleared value 0 is "no face"), or
ids stored unchanged with an explicit sentinel value. Buffer elements are
`unsigned int`, 32 bits wide. -/
inductive FaceIdEncoding where
  | offset_by_one
  | out_of_range (sentinel_value : Nat)
deriving DecidableEq, Repr

/-- Modelled from the spec: the buffer value that denotes "no face"
(`RenderFaceIdFromCamera` is missing). -/
def FaceIdEncoding.no_face : FaceIdEncoding → Nat
  | .offset_by_one => 0
  | .out_of_range sentinel_value => sentinel_value % 2 ^ 32

/-- Modelled from the spec: the buffer value rendered for face `id`
(`UpdateFaceIdMesh` and `RenderFaceIdFromCamera` are missing). -/
def FaceIdEncoding.rendered : FaceIdEncoding → Nat → Nat
  | .offset_by_one, id => (id + 1) % 2 ^ 32
  | .out_of_range _, id => id % 2 ^ 32

/-- Modelled from the spec: the face id a non-sentinel buffer value denotes
(`VisibleFaces` is missing). -/
def FaceIdEncoding.decode : FaceIdEncoding → Nat → Nat
  | .offset_by_one, value => value - 1
  | .out_of_range _, value => value

/-- Modelled from the spec: the encoding fits a mesh of `numFaces` faces; with
offset ids the largest rendered value `numFaces` is an `unsigned int`, and an
explicit sentinel is an `unsigned int` outside `[0, numFaces)`
(`RenderFaceIdFromCamera` is missing). -/
def FaceIdEncoding.fits : FaceIdEncoding → Nat → Prop
  | .offset_by_one, numFaces => numFaces < 2 ^ 32
  | .out_of_range sentinel_value, numFaces => numFaces ≤ sentinel_value ∧ sentinel_value < 2 ^ 32

instance (e : FaceIdEncoding) (numFaces : Nat) : Decidable (e.fits numFaces) := by
  cases e <;> unfold FaceIdEncoding.fits <;> infer_instance

/-- Modelled from the spec: which of the two coverage targets of
NextBestView.h governs the coverage term (`CostFunctionPosition`, which would
decide it, is missing). -/
inductive CoveragePolicy where
  | count
  | fraction
deriving DecidableEq, Repr

/-- Modelled from the spec: the planner as the missing NextBestView.cpp sees
it. The face-id renderer (a GPU pass), the camera position of a view matrix and
the scalar functions `sqrt`, `arccos` are collaborators; the geometry cache and
the two coverage targets are the data members of NextBestView.h;
`camera_positions_` holds the recorded position of each existing reconstruction
camera of `mvs_scene_`, the camera id being the place in the sequence. -/
structure Planner (α : Type) (View : Type) where
  encoding : FaceIdEncoding
  numFaces : Nat
  RenderFaceIdFromCamera : View → Nat → Nat → α → List Nat
  camera_position : View → Vec3 α
  face_centers_ : List (Vec3 α)
  face_normals_ : List (Vec3 α)
  ppa_ : List α
  coverage_policy : CoveragePolicy
  visible_faces_target_ : Int
  visibility_ratio_target_ : α
  sqrt : α → α
  arccos : α → α
  camera_positions_ : List (Vec3 α) := []

/-- `clamp(x, lo, hi)`. -/
def clamp {α : Type} [LinearOrder α] (x lo hi : α) : α := min (max x lo) hi

/-- `normalize(v)` for a given square-root function. -/
def Vec3.normalize {α : Type} [Field α] (sqrt : α → α) (v : Vec3 α) : Vec3 α :=
  ⟨v.x / sqrt (Vec3.dot v v), v.y / sqrt (Vec3.dot v v), v.z / sqrt (Vec3.dot v v)⟩

namespace Planner

variable {α View : Type}

/-- Modelled from the spec: `NextBestView::VisibleFaces` (body missing), "the
set of unique non-sentinel values in the FaceID buffer for that pose", in one
pass over the buffer. -/
def VisibleFaces (P : Planner α View) (view_matrix : View) (image_width image_height : Nat)
    (focal_y : α) : Finset Nat :=
  (P.RenderFaceIdFromCamera view_matrix image_width image_height focal_y).foldl
    (fun seen value =>
      if value = P.encoding.no_face then seen else insert (P.encoding.decode value) seen) ∅

/-- Modelled from the spec: the angle of one face, `arccos(clamp(dot(normal,
normalize(cameraPosition - faceCenter)), -1, 1))` (`FaceAngles` is missing). -/
def face_angle [LinearOrderedField α] (P : Planner α View) (normal center cameraPosition : Vec3 α) : α :=
  P.arccos (clamp (Vec3.dot normal (Vec3.normalize P.sqrt (Vec3.sub cameraPosition center))) (-1) 1)

/-- Modelled from the spec: `NextBestView::FaceAngles` (body missing); the
returned map has an entry for each face of `faces` that the geometry cache
knows. -/
def FaceAngles [LinearOrderedField α] (P : Planner α View) (faces : Finset Nat)
    (view_matrix : View) : Nat → Option α :=
  fun id =>
    if id ∈ faces then
      match P.face_normals_[id]?, P.face_centers_[id]? with
      | some normal, some center => some (P.face_angle normal center (P.camera_position view_matrix))
      | _, _ => none
    else none

/-- Modelled from the spec: `NextBestView::FaceDistances` (body missing), the
"Euclidean distance from the camera position to each face center". -/
def FaceDistances [Field α] (P : Planner α View) (faces : Finset Nat)
    (view_matrix : View) : Nat → Option α :=
  fun id =>
    if id ∈ faces then
      match P.face_centers_[id]? with
      | some center =>
        some (P.sqrt (Vec3.dot (Vec3.sub (P.camera_position view_matrix) center)
          (Vec3.sub (P.camera_position view_matrix) center)))
      | none => none
    else none

/-- Modelled from the spec: the configured coverage target, the target count
or the target ratio of the face count, whichever is active
(`CostFunctionPosition` is missing). -/
def coverage_target [Field α] (P : Planner α View) : α :=
  match P.coverage_policy with
  | .count => (P.visible_faces_target_ : α)
  | .fraction => P.visibility_ratio_target_ * (P.numFaces : α)

/-- Modelled from the spec: the "deviation of the visible-face count from a
configured target", as a function of the count (`CostFunctionPosition` is
missing). -/
def coverage_deviation [LinearOrderedField α] (P : Planner α View) (count : α) : α :=
  |count - P.coverage_target|

/-- Modelled from the spec: the coverage term for `visible` visible faces. -/
def coverage_term [LinearOrderedField α] (P : Planner α View) (visible : Nat) : α :=
  P.coverage_deviation (visible : α)

/-- Modelled from the spec: the "distance term weighted inversely by each
face's existing pixels-per-area" (`CostFunctionPosition` is missing). -/
def distance_term [Field α] (P : Planner α View) (faces : Finset Nat) (view_matrix : View) : α :=
  ∑ id in faces, ((P.FaceDistances faces view_matrix id).getD 0) / (P.ppa_.getD id 0)

/-- Modelled from the spec: `NextBestView::CostFunctionPosition` (body
missing). A pose with an empty visible set gets the worst-case cost, positive
infinity; otherwise the cost is the coverage term plus the distance term. -/
def CostFunctionPosition [LinearOrderedField α] (P : Planner α View) (view_matrix : View)
    (image_width image_height : Nat) (focal_y : α) : WithTop α :=
  let visible := P.VisibleFaces view_matrix image_width image_height focal_y
  if visible = ∅ then ⊤
  else ((P.coverage_term visible.card + P.distance_term visible view_matrix : α) : WithTop α)

end Planner

/-- A test planner over the rationals: two faces of a unit square in the
plane `z = 0`, ids offset by one in the buffer, and a renderer that sees both
faces from any view matrix with positive height and nothing otherwise. The
absolute value and `1 - x` stand in for `sqrt` and `arccos`, which have no
rational values in general. -/
def square_planner : Planner ℚ (Vec3 ℚ) where
  encoding := .offset_by_one
  numFaces := 2
  RenderFaceIdFromCamera := fun view _ _ _ => if 0 < view.z then [0, 1, 1, 2, 2, 0] else [0, 0, 0, 0, 0, 0]
  camera_position := fun view => view
  face_centers_ := [⟨1 / 6, -1 / 6, 0⟩, ⟨-1 / 6, 1 / 6, 0⟩]
  face_normals_ := [⟨0, 0, 1⟩, ⟨0, 0, 1⟩]
  ppa_ := [100, 100]
  coverage_policy := .count
  visible_faces_target_ := 20
  visibility_ratio_target_ := 0.8
  sqrt := fun x => |x|
  arccos := fun x => 1 - x

/-- A test planner over any ordered field: one face in the plane `z = 0`
with center at the origin and normal `+z`, for given `sqrt` and `arccos`. -/
def one_face_planner (α : Type) [LinearOrderedField α] (sqrt arccos : α → α) :
    Planner α (Vec3 α) where
  encoding := .offset_by_one
  numFaces := 1
  RenderFaceIdFromCamera := fun _ _ _ _ => [1]
  camera_position := fun view => view
  face_centers_ := [⟨0, 0, 0⟩]
  face_normals_ := [⟨0, 0, 1⟩]
  ppa_ := [1]
  coverage_policy := .count
  visible_faces_target_ := 20
  visibility_ratio_target_ := 4 / 5
  sqrt := sqrt
  arccos := arccos

/-! ## The Measure shaders (NextBestView.h, lines 100-121) -/

/-- The outputs of the Measure vertex shader. -/
structure MeasureVertexOutput (α : Type) where
  measure : α
  gl_Position : Fin 4 → α

/-- The vertex shader `measure_vert_source`:
`measure = in_measure; gl_Position = projection * view * model * vec4(in_position, 1.0)`. -/
def measure_vert_source {α : Type} [Semiring α] (model view projection : Matrix (Fin 4) (Fin 4) α)
    (in_position : Vec3 α) (in_measure : α) : MeasureVertexOutput α where
  measure := in_measure
  gl_Position :=
    Matrix.mulVec (projection * view * model) ![in_position.x, in_position.y, in_position.z, 1]

/-- The fragment shader `measure_frag_source`: `out_measure = measure`. -/
def measure_frag_source {α : Type} (measure : α) : α := measure

/-- The value the Measure pass writes to a pixel covered by the triangle with
vertex positions `p0 p1 p2` and measure attributes `m0 m1 m2`. -/
def measure_pixel {α : Type} [Semiring α] (provoking : Fin 3)
    (model view projection : Matrix (Fin 4) (Fin 4) α)
    (p0 p1 p2 : Vec3 α) (m0 m1 m2 : α) : α :=
  measure_frag_source
    (flat_input provoking
      (measure_vert_source model view projection p0 m0).measure
      (measure_vert_source model view projection p1 m1).measure
      (measure_vert_source model view projection p2 m2).measure)

/-! ## Camera distances and the geometry cache (bodies in NextBestView.cpp) -/

namespace Planner

variable {α View : Type}

/-- Modelled from the spec: `NextBestView::CameraDistances` (body missing), the
"Euclidean distance from a candidate position to every existing reconstruction
camera position", as a map from camera id to distance. -/
def CameraDistances [Field α] (P : Planner α View) (view_matrix : View) : Nat → Option α :=
  fun id =>
    match P.camera_positions_[id]? with
    | some recorded =>
      some (P.sqrt (Vec3.dot (Vec3.sub (P.camera_position view_matrix) recorded)
        (Vec3.sub (P.camera_position view_matrix) recorded)))
    | none => none

/-- Modelled from the spec: `NextBestView::ClosestCameraID` (body missing), the
id of a nearest existing camera; there is none when the scene has no camera. -/
def ClosestCameraID [LinearOrderedField α] (P : Planner α View) (view_matrix : View) : Option Nat :=
  List.argmin (fun id => (P.CameraDistances view_matrix id).getD 0)
    (List.range P.camera_positions_.length)

end Planner

/-- Modelled from the spec: the two ways `Initialize` fails, "the mesh has zero
faces or a face references an out-of-range vertex" (`Initialize` is missing). -/
inductive InitializationError where
  | zero_faces
  | vertex_out_of_range
deriving DecidableEq, Repr

/-- Cross product. -/
def Vec3.cross {α : Type} [Mul α] [Sub α] (a b : Vec3 α) : Vec3 α :=
  ⟨a.y * b.z - a.z * b.y, a.z * b.x - a.x * b.z, a.x * b.y - a.y * b.x⟩

/-- The three vertex positions of a face, when its indices are in range. -/
def Mesh.corners {α : Type} (mesh : Mesh α) (face : Nat × Nat × Nat) :
    Option (Vec3 α × Vec3 α × Vec3 α) :=
  match mesh.vertices[face.1]?, mesh.vertices[face.2.1]?, mesh.vertices[face.2.2]? with
  | some v0, some v1, some v2 => some (v0, v1, v2)
  | _, _, _ => none

/-- The corners of every face of a list, when all indices are in range. -/
def Mesh.all_corners {α : Type} (mesh : Mesh α) :
    List (Nat × Nat × Nat) → Option (List (Vec3 α × Vec3 α × Vec3 α))
  | [] => some []
  | face :: rest =>
    match mesh.corners face, mesh.all_corners rest with
    | some c, some cs => some (c :: cs)
    | _, _ => none

/-- Modelled from the spec: "center = mean of its three vertex positions"
(`Initialize` is missing). -/
def face_center {α : Type} [Field α] (c : Vec3 α × Vec3 α × Vec3 α) : Vec3 α :=
  Vec3.smul (1 / 3) (Vec3.add (Vec3.add c.1 c.2.1) c.2.2)

/-- Modelled from the spec: the "cross product of two edge vectors with
consistent winding" (`Initialize` is missing). -/
def face_cross {α : Type} [Field α] (c : Vec3 α × Vec3 α × Vec3 α) : Vec3 α :=
  Vec3.cross (Vec3.sub c.2.1 c.1) (Vec3.sub c.2.2 c.1)

/-- Modelled from the spec: "normal = normalized cross product of two edge
vectors" (`Initialize` is missing). -/
def face_normal {α : Type} [Field α] (sqrt : α → α) (c : Vec3 α × Vec3 α × Vec3 α) : Vec3 α :=
  Vec3.normalize sqrt (face_cross c)

/-- Modelled from the spec: "area = half the magnitude of that cross product"
(`Initialize` is missing). -/
def face_area {α : Type} [Field α] (sqrt : α → α) (c : Vec3 α × Vec3 α × Vec3 α) : α :=
  sqrt (Vec3.dot (face_cross c) (face_cross c)) / 2

/-- Modelled from the spec: the pixels-per-area of face `id`, "rendered pixel
footprint divided by geometric area", the footprint counted in the FaceID
buffer of the reference pose (`Initialize` is missing). -/
def pixels_per_area {α : Type} [Field α] (sqrt : α → α) (encoding : FaceIdEncoding)
    (reference_buffer : List Nat) (id : Nat) (c : Vec3 α × Vec3 α × Vec3 α) : α :=
  ((reference_buffer.count (encoding.rendered id) : Nat) : α) / face_area sqrt c

/-- Modelled from the spec: `NextBestView::Initialize` (body missing). It fails
on a mesh with zero faces or with a face that references an out-of-range
vertex; otherwise it fills the geometry cache, one entry per face in the order
of the face sequence, with the pixels-per-area taken from one render at the
reference pose. -/
def Planner.Initialize {α View : Type} [Field α] (P : Planner α View) (mesh : Mesh α)
    (reference_view : View) (image_width image_height : Nat) (focal_y : α) :
    Except InitializationError (Planner α View) :=
  if mesh.faces = [] then .error .zero_faces
  else
    match mesh.all_corners mesh.faces with
    | none => .error .vertex_out_of_range
    | some corners =>
      let reference_buffer :=
        P.RenderFaceIdFromCamera reference_view image_width image_height focal_y
      .ok { P with
            numFaces := mesh.faces.length
            face_centers_ := corners.map face_center
            face_normals_ := corners.map (face_normal P.sqrt)
            ppa_ := corners.enum.map
              (fun ic => pixels_per_area P.sqrt P.encoding reference_buffer ic.1 ic.2) }

/-- A test mesh: the unit right triangle in the plane `z = 0`, and a second
face whose three corners lie on one line. -/
def mesh_with_flat_face (α : Type) [Field α] : Mesh α where
  vertices := [⟨0, 0, 0⟩, ⟨1, 0, 0⟩, ⟨0, 1, 0⟩, ⟨2, 0, 0⟩]
  faces := [(0, 1, 2), (0, 1, 3)]

/-- The test planner `square_planner` in a scene with two reconstruction
cameras, camera 0 at `(0, 0, 5)` and camera 1 at `(3, 0, 4)`. -/
def two_camera_planner : Planner ℚ (Vec3 ℚ) :=
  { square_planner with camera_positions_ := [⟨0, 0, 5⟩, ⟨3, 0, 4⟩] }

/-! ## The declared interface of `class NextBestView` (NextBestView.h, lines 18-122) -/

/-- The access specifier under which a member is declared. -/
inductive Access where
  | is_public
  | is_private
deriving DecidableEq, Repr

/-- Every member `class NextBestView` declares, in the order of the header;
`ctor` is the constructor `NextBestView(std::shared_ptr<MVS::Scene>)`. -/
inductive NextBestViewMember where
  | ctor
  | Initialize
  | RenderFaceIdFromCamera
  | RenderMeasureFromCamera
  | VisibleFaces
  | FaceAngles
  | FaceDistances
  | CameraDistances
  | ClosestCameraID
  | PixelsPerArea
  | FaceArea
  | CostFunction
  | CostFunctionPosition
  | CostFunctionRotation
  | UpdateFaceIdMesh
  | UpdateMeasureMesh
  | mvs_scene_
  | faceid_shader_
  | faceid_mesh_
  | measure_shader_
  | measure_mesh_
  | downscale_factor_
  | visibility_ratio_target_
  | visible_faces_target_
  | ppa_
  | face_centers_
  | face_normals_
  | visible_faces_
  | faceid_vert_source
  | faceid_frag_source
  | measure_vert_source
  | measure_frag_source
deriving DecidableEq, Repr

namespace NextBestViewMember

/-- The access specifier of each member: `public:` at line 19, `private:` at
line 49, `public:` at line 53, `private:` at line 57. -/
def access : NextBestViewMember → Access
  | ctor | Initialize | RenderFaceIdFromCamera | RenderMeasureFromCamera | VisibleFaces
  | FaceAngles | FaceDistances | CameraDistances | ClosestCameraID | PixelsPerArea | FaceArea
  | CostFunction | CostFunctionPosition | CostFunctionRotation => .is_public
  | UpdateFaceIdMesh | UpdateMeasureMesh => .is_private
  | mvs_scene_ => .is_public
  | faceid_shader_ | faceid_mesh_ | measure_shader_ | measure_mesh_ | downscale_factor_
  | visibility_ratio_target_ | visible_faces_target_ | ppa_ | face_centers_ | face_normals_
  | visible_faces_ | faceid_vert_source | faceid_frag_source | measure_vert_source
  | measure_frag_source => .is_private

/-- Whether the member is a data member (not a member function). -/
def is_data : NextBestViewMember → Bool
  | ctor | Initialize | RenderFaceIdFromCamera | RenderMeasureFromCamera | VisibleFaces
  | FaceAngles | FaceDistances | CameraDistances | ClosestCameraID | PixelsPerArea | FaceArea
  | CostFunction | CostFunctionPosition | CostFunctionRotation | UpdateFaceIdMesh
  | UpdateMeasureMesh => false
  | _ => true

/-- The data members a member function is declared to take from or hand to
its caller, as far as the declaration tells: the constructor takes `mvs_scene`
for `mvs_scene_`, `PixelsPerArea()` hands out the per-face values of `ppa_`.
The parameters of all other functions are `view_matrix`, `image_width`,
`image_height`, `focal_y`, `faces` and `measure`, which name no data member. -/
def exposes : NextBestViewMember → List NextBestViewMember
  | ctor => [mvs_scene_]
  | PixelsPerArea => [ppa_]
  | _ => []

/-- A caller of the class can read or set the data member `m` through the
public interface: `m` is a public data member, or a public member function is
declared to take or hand out `m`. -/
def reachable_by_caller (m : NextBestViewMember) : Prop :=
  (m.is_data = true ∧ m.access = .is_public) ∨
    ∃ f : NextBestViewMember, f.is_data = false ∧ f.access = .is_public ∧ m ∈ f.exposes

end NextBestViewMember

/-- The constructor `NextBestView(mvs_scene)`: the scene is stored, all other
data members take their default member initialisers. -/
def NextBestView.construct (mvs_scene : Scene) : NextBestView := { mvs_scene_ := mvs_scene }

/-! ## The render plugin (RenderPlugin.cpp)

The class declaration that goes with this file is not among the sources (the
header present is an older revision), so the data members are read off their
uses in RenderPlugin.cpp. -/

/-- A 4x4 matrix (`glm::mat4`, `Eigen::Matrix4f`). -/
abbrev Mat4 := Matrix (Fin 4) (Fin 4) ℚ

/-- The value of an `int` after an arithmetic operation: 32 bits, two's
complement. -/
def wrap_int32 (x : Int) : Int := (x + 2 ^ 31) % 2 ^ 32 - 2 ^ 31

/-- The value of an `int` converted to `size_t` (64 bits, unsigned), as in a
comparison of an `int` with a `size()`. -/
def to_size_t (x : Int) : Nat := (x % 2 ^ 64).toNat

/-- The decimal digits of a natural number, most significant first. -/
def decimal_digits (n : Nat) : List Char :=
  if n = 0 then ['0'] else (Nat.digits 10 n).reverse.map Nat.digitChar

/-- The characters of `std::to_string(i)` for an `int`. -/
def to_string_int (i : Int) : List Char :=
  if i < 0 then '-' :: decimal_digits i.natAbs else decimal_digits i.natAbs

/-- What `std::setw(width) << std::setfill(fill) << text` inserts: the text,
padded on the left up to `width` characters. -/
def setw_setfill (width : Nat) (fill : Char) (text : List Char) : List Char :=
  List.replicate (width - text.length) fill ++ text

/-- The file name built for image index `idx` (lines 217-220):
`"frame" + ss.str() + ".png"`. -/
def frame_filename (idx : Int) : String :=
  String.mk ("frame".data ++ setw_setfill 3 '0' (to_string_int idx) ++ ".png".data)

/-- The result of `render_->RenderFromCamera(view_matrix, GetCameraIntrinsic(i))`,
identified by its arguments; `empty` before the first render. -/
inductive RenderData where
  | empty
  | rendered (view_matrix : Mat4) (intrinsic : Nat)

/-- The gizmo operation selected by the radio buttons. -/
inductive GizmoOperation where
  | TRANSLATE
  | ROTATE
deriving DecidableEq, Repr

/-- What the render plugin does to its collaborators and its console, in the
order in which it happens. `pushed` stands for the two `push_back` calls of
lines 237-238. -/
inductive RenderEvent where
  | log (line : String)
  | render_Initialize (mvs_scene : Scene)
  | RenderFromCamera (view_matrix : Mat4) (intrinsic : Nat)
  | SaveRender (fullname : String) (intrinsic : Nat) (render_data : RenderData)
  | pushed (filename : String) (view_matrix : Mat4)
  | reconstruction_initialize_callback
  | nbv_initialize_callback

/-- The quotient `a / b` of two `double`s; `none` when `b` is zero, where the
quotient is not a finite number. -/
def double_div (a b : ℚ) : Option ℚ := if b = 0 then none else some (a / b)

/-- The camera of the viewer (`viewer->core`), restricted to what the plugin
writes. A zoom of `none` is a zoom that is not a finite number. -/
structure ViewerCore where
  camera_base_translation : Vec3 ℚ := ⟨0, 0, 0⟩
  camera_translation : Vec3 ℚ := ⟨0, 0, 0⟩
  camera_base_zoom : Option ℚ := some 1
  camera_zoom : ℚ := 1

/-- The state of a `RenderPlugin`. A plugin pointer is `true` / `some` when it
is not null; `nbv_plugin_` carries the state of the plugin it points to. -/
structure RenderPlugin where
  images_path_ : String
  reconstruction_path_ : String
  image_names_ : List String
  reconstruction_plugin_ : Bool
  nbv_plugin_ : Option NextBestViewPlugin
  VIEWER_DATA_CAMERA : Nat
  VIEWER_DATA_RENDER_CAMERAS : Nat
  VIEWER_DATA_RENDER_MESH : Nat
  viewer : Viewer
  viewer_core : ViewerCore
  camera_gizmo_ : Mat4
  gizmo_operation_ : GizmoOperation
  scene_name_ : String
  render_mesh_visible_ : Bool
  render_cameras_visible_ : Bool
  camera_visible_ : Bool
  pose_camera_ : Bool
  camera_pos_ : Vec3 ℚ
  camera_rot_ : Vec3 ℚ
  generated_poses_ : List Mat4
  selected_pose_ : Int
  next_image_idx_ : Int
  render_data_ : RenderData
  rendered_poses_ : List Mat4

/-- The state a member function of the render plugin leaves behind and the
events it caused. -/
structure RenderOutcome where
  state : RenderPlugin
  events : List RenderEvent := []

/-- The library functions and collaborators of the render plugin:
`glm::inverse`, the two ImGuizmo conversions between a matrix and its
(translation, rotation, scale) components, `Eigen::Affine3f::inverse`,
`MVS::Scene::Load`, `Render::GenerateRenderPoses`, the two member functions of
the next-best-view plugin that `extend_reconstruction_callback` calls, and the
`double` to `float` conversion. -/
structure RenderEnv where
  inverse : Mat4 → Mat4
  DecomposeMatrixToComponents : Mat4 → Vec3 ℚ × Vec3 ℚ × Vec3 ℚ
  RecomposeMatrixFromComponents : Vec3 ℚ → Vec3 ℚ → Vec3 ℚ → Mat4
  affine_inverse : Mat4 → Mat4
  Load : String → Scene
  GenerateRenderPoses : Scene → List Mat4
  nbv_initialize_callback : NextBestViewPlugin → NextBestViewPlugin
  get_initial_best_views : NextBestViewPlugin → List Mat4
  toFloat : ℚ → ℚ

/-- Sequencing of member functions: run `f` on the state `o` left behind and
append its events. -/
def RenderOutcome.andThen (o : RenderOutcome) (f : RenderPlugin → Option RenderOutcome) :
    Option RenderOutcome :=
  match f o.state with
  | none => none
  | some o2 => some { state := o2.state, events := o.events ++ o2.events }

/-- Sequencing with a member function that cannot fail and causes no event. -/
def RenderOutcome.thenState (o : RenderOutcome) (f : RenderPlugin → RenderPlugin) :
    RenderOutcome :=
  { o with state := f o.state }

/-- The mesh slot `viewer->data()` refers to. -/
def Viewer.data (v : Viewer) : ViewerData := v.data_list.getD v.selected_data_index {}

/-- The five vertices of the camera frustum model (`tmp_V`, `default_V`). -/
def frustum_V : List (Vec3 ℚ) :=
  [⟨0, 0, 0⟩, ⟨0.75, 0.5, -1⟩, ⟨-0.75, 0.5, -1⟩, ⟨-0.75, -0.5, -1⟩, ⟨0.75, -0.5, -1⟩]

/-- The six faces of the camera frustum model (`tmp_F`, `default_F`). -/
def frustum_F : List (Nat × Nat × Nat) :=
  [(0, 1, 2), (0, 2, 3), (0, 3, 4), (0, 4, 1), (1, 3, 2), (1, 4, 3)]

/-- One row of `(V.rowwise().homogeneous() * M.transpose()).rowwise().hnormalized()`:
the vertex `v` mapped by the 4x4 matrix `M`. -/
def apply_transformation (M : Mat4) (v : Vec3 ℚ) : Vec3 ℚ :=
  let h := Matrix.mulVec M ![v.x, v.y, v.z, 1]
  ⟨h 0 / h 3, h 1 / h 3, h 2 / h 3⟩

/-- The matrix of `Eigen::Scaling(s)` as an affine transform. -/
def scaling (s : ℚ) : Mat4 := Matrix.diagonal ![s, s, s, 1]

/-- Sequencing with a member function that cannot fail. -/
def RenderOutcome.next (o : RenderOutcome) (f : RenderPlugin → RenderOutcome) : RenderOutcome :=
  { state := (f o.state).state, events := o.events ++ (f o.state).events }

/-- An input widget bound to members: when the user changed it to `v`, the
update `f v` is applied. -/
def RenderOutcome.onInput {α : Type} (o : RenderOutcome) (input : Option α)
    (f : α → RenderPlugin → RenderPlugin) : RenderOutcome :=
  match input with
  | some v => o.thenState (f v)
  | none => o

/-- A button bound to a member function that cannot fail. -/
def RenderOutcome.onClick (o : RenderOutcome) (clicked : Bool)
    (f : RenderPlugin → RenderOutcome) : RenderOutcome :=
  if clicked then o.next f else o

/-- A button or slider bound to a member function that can fail. -/
def RenderOutcome.onClickOpt (o : RenderOutcome) (clicked : Bool)
    (f : RenderPlugin → Option RenderOutcome) : Option RenderOutcome :=
  if clicked then o.andThen f else some o

/-- The smallest value of one coordinate over a non-empty list of points
(`colwise().minCoeff()`). -/
def min_coeff (coordinate : Vec3 ℚ → ℚ) : List (Vec3 ℚ) → ℚ
  | [] => 0
  | p :: rest => rest.foldl (fun m q => min m (coordinate q)) (coordinate p)

/-- The largest value of one coordinate over a non-empty list of points
(`colwise().maxCoeff()`). -/
def max_coeff (coordinate : Vec3 ℚ → ℚ) : List (Vec3 ℚ) → ℚ
  | [] => 0
  | p :: rest => rest.foldl (fun m q => max m (coordinate q)) (coordinate p)

/-- The mean of one coordinate over a list of points (`colwise().mean()`). -/
def mean_coeff (coordinate : Vec3 ℚ → ℚ) (points : List (Vec3 ℚ)) : ℚ :=
  (points.map coordinate).sum / (points.length : ℚ)

namespace RenderPlugin

/-- The view matrix that `render_callback` (lines 202-209) and
`save_render_callback` (lines 227-234) compute from the pose members:
`glm::inverse` of the matrix recomposed from `camera_pos_`, `camera_rot_` and
unit scale. -/
def view_matrix (E : RenderEnv) (s : RenderPlugin) : Mat4 :=
  let scale : Vec3 ℚ := ⟨1.0, 1.0, 1.0⟩
  let view_world := E.RecomposeMatrixFromComponents s.camera_pos_ s.camera_rot_ scale
  E.inverse view_world

/-- `RenderPlugin::set_camera_pose` (lines 322-331); the decomposed scale is a
local that is dropped. -/
def set_camera_pose (E : RenderEnv) (s : RenderPlugin) (view_matrix : Mat4) : RenderPlugin :=
  let view_world := E.inverse view_matrix
  let components := E.DecomposeMatrixToComponents view_world
  { s with camera_pos_ := components.1, camera_rot_ := components.2.1 }

/-- `RenderPlugin::render_callback` (lines 201-213). -/
def render_callback (E : RenderEnv) (s : RenderPlugin) : RenderOutcome :=
  let view_matrix := s.view_matrix E
  { state := { s with render_data_ := .rendered view_matrix 0 }
    events := [.RenderFromCamera view_matrix 0] }

/-- `RenderPlugin::save_render_callback` (lines 215-242). -/
def save_render_callback (E : RenderEnv) (s : RenderPlugin) : RenderOutcome :=
  let filename := frame_filename s.next_image_idx_
  let fullname := s.images_path_ ++ filename
  let view_matrix := s.view_matrix E
  { state := { s with
                image_names_ := s.image_names_ ++ [filename]
                rendered_poses_ := s.rendered_poses_ ++ [view_matrix]
                next_image_idx_ := wrap_int32 (s.next_image_idx_ + 1)
                selected_pose_ := wrap_int32 (s.selected_pose_ + 1) }
    events := [.SaveRender fullname 0 s.render_data_, .pushed filename view_matrix,
               .log ("Render: Image saved to: \n\t" ++ fullname)] }

/-- `RenderPlugin::set_generated_pose_callback` (lines 244-249). In the
comparison with `size()` the `int` is converted to `size_t`; `none` stands for
an element read past the end of `generated_poses_`. -/
def set_generated_pose_callback (E : RenderEnv) (s : RenderPlugin) : Option RenderOutcome :=
  if s.selected_pose_ ≥ 0 ∧ to_size_t s.selected_pose_ < s.generated_poses_.length then
    match s.generated_poses_[to_size_t s.selected_pose_]? with
    | some view_matrix => some { state := s.set_camera_pose E view_matrix }
    | none => none
  else some { state := s }

/-- `RenderPlugin::initialize_reconstruction_callback` (lines 251-260); `none`
when `reconstruction_plugin_` is null at the final call. -/
def initialize_reconstruction_callback (E : RenderEnv) (s : RenderPlugin) :
    Option RenderOutcome :=
  (set_generated_pose_callback E s).bind fun o =>
  let o := (o.next (render_callback E)).next (save_render_callback E)
  (o.andThen (set_generated_pose_callback E)).bind fun o =>
  let o := (o.next (render_callback E)).next (save_render_callback E)
  if o.state.reconstruction_plugin_ then
    some { o with events := o.events ++ [.reconstruction_initialize_callback] }
  else none

/-- `RenderPlugin::extend_reconstruction_callback` (lines 262-276); `none` when
`nbv_plugin_` is null or when `best_views.front()` is read on an empty vector. -/
def extend_reconstruction_callback (E : RenderEnv) (s : RenderPlugin) : Option RenderOutcome :=
  match s.nbv_plugin_ with
  | none => none
  | some nbv =>
    let nbv := E.nbv_initialize_callback nbv
    let best_views := E.get_initial_best_views nbv
    match best_views.head? with
    | none => none
    | some view_matrix =>
      let s := { s with nbv_plugin_ := some nbv }
      let o : RenderOutcome :=
        { state := s.set_camera_pose E view_matrix, events := [.nbv_initialize_callback] }
      some ((o.next (render_callback E)).next (save_render_callback E))

/-- `RenderPlugin::show_camera` (lines 278-321); `clear()` empties the mesh of
the slot. -/
def show_camera (E : RenderEnv) (s : RenderPlugin) : RenderPlugin :=
  let viewer := { s.viewer with selected_data_index := s.VIEWER_DATA_CAMERA }
  if s.camera_visible_ then
    let scale : Vec3 ℚ := ⟨1.0 / 2.0, 1.0 / 2.0, 1.0 / 2.0⟩
    let tmp := E.RecomposeMatrixFromComponents s.camera_pos_ s.camera_rot_ scale
    let tmp_V := frustum_V.map (apply_transformation tmp)
    { s with viewer := viewer.onData (fun d => { d with V := tmp_V, F := frustum_F }) }
  else
    { s with viewer := viewer.onData (fun d => { d with V := [], F := [] }) }

/-- `RenderPlugin::show_render_mesh` (lines 364-368). -/
def show_render_mesh (s : RenderPlugin) (visible : Bool) : RenderPlugin :=
  let viewer := { s.viewer with selected_data_index := s.VIEWER_DATA_RENDER_MESH }
  { s with render_mesh_visible_ := visible
           viewer := viewer.onData (fun d => { d with show_faces := visible }) }

/-- `RenderPlugin::center_object` (lines 370-388); `diff.maxCoeff()` is the
largest of the three coordinates, and the division by it is not guarded. -/
def center_object (E : RenderEnv) (s : RenderPlugin) : RenderPlugin :=
  let viewer := { s.viewer with selected_data_index := s.VIEWER_DATA_RENDER_MESH }
  let s := { s with viewer := viewer }
  let points := viewer.data.V
  if points.length = 0 then s
  else
    let min_point : Vec3 ℚ :=
      ⟨min_coeff Vec3.x points, min_coeff Vec3.y points, min_coeff Vec3.z points⟩
    let max_point : Vec3 ℚ :=
      ⟨max_coeff Vec3.x points, max_coeff Vec3.y points, max_coeff Vec3.z points⟩
    let center : Vec3 ℚ :=
      ⟨mean_coeff Vec3.x points, mean_coeff Vec3.y points, mean_coeff Vec3.z points⟩
    let diff : Vec3 ℚ := Vec3.map abs (Vec3.sub max_point min_point)
    { s with viewer_core :=
        { camera_base_translation := Vec3.map E.toFloat (Vec3.smul (-1) center)
          camera_translation := ⟨0, 0, 0⟩
          camera_base_zoom := (double_div 2.0 (max (max diff.x diff.y) diff.z)).map E.toFloat
          camera_zoom := 1.0 } }

/-- `RenderPlugin::set_render_mesh` (lines 333-362). -/
def set_render_mesh (E : RenderEnv) (s : RenderPlugin) (mvs_scene : Scene) : RenderPlugin :=
  let viewer := { s.viewer with selected_data_index := s.VIEWER_DATA_RENDER_MESH }
  let viewer := viewer.onData (fun d =>
    { d with V := mvs_scene.mesh.vertices, F := mvs_scene.mesh.faces, show_lines := false })
  center_object E (show_render_mesh { s with viewer := viewer } true)

/-- `RenderPlugin::set_render_cameras` (lines 390-441): block `i` of
`cameras_V` and of `cameras_F` is written in the order of the loop. The `int`
products `num_views * num_vertices`, `num_views * num_faces` and
`i * num_vertices` are taken in the natural numbers. -/
def set_render_cameras (E : RenderEnv) (s : RenderPlugin) : RenderPlugin :=
  let viewer := { s.viewer with selected_data_index := s.VIEWER_DATA_RENDER_CAMERAS }
  let num_vertices := 5
  let cameras := s.generated_poses_.enum.map (fun iv =>
    let transformation := E.affine_inverse iv.2 * scaling (1.0 / 2.5)
    let transformed_V := frustum_V.map (apply_transformation transformation)
    let transformed_F := frustum_F.map (fun f =>
      (f.1 + iv.1 * num_vertices, f.2.1 + iv.1 * num_vertices, f.2.2 + iv.1 * num_vertices))
    (transformed_V, transformed_F))
  let cameras_V := (cameras.map Prod.fst).flatten
  let cameras_F := (cameras.map Prod.snd).flatten
  { s with viewer := viewer.onData (fun d => { d with V := cameras_V, F := cameras_F }) }

/-- `RenderPlugin::show_render_cameras` (lines 443-448). -/
def show_render_cameras (s : RenderPlugin) (visible : Bool) : RenderPlugin :=
  let viewer := { s.viewer with selected_data_index := s.VIEWER_DATA_RENDER_CAMERAS }
  { s with render_cameras_visible_ := visible
           viewer := viewer.onData (fun d => { d with show_faces := visible, show_lines := visible }) }

/-- `RenderPlugin::initialize_scene_callback` (lines 181-199). -/
def initialize_scene_callback (E : RenderEnv) (s : RenderPlugin) : RenderOutcome :=
  let fullpath := s.reconstruction_path_ ++ s.scene_name_ ++ ".mvs"
  let mvs_scene := E.Load fullpath
  let s := set_render_mesh E s mvs_scene
  let s := show_render_mesh s true
  let s := { s with generated_poses_ := E.GenerateRenderPoses mvs_scene }
  let s := set_render_cameras E s
  let s := show_render_cameras s true
  { state := s
    events := [.log "", .render_Initialize mvs_scene,
               .log ("Render: Scene initialized, loaded from: \n\t" ++ fullpath)] }

end RenderPlugin

/-- The widget results of one frame of the render plugin window, in the order
in which `post_draw` queries them: a button is `true` when it was clicked, a
checkbox or an input is `some v` when the user changed it to `v`, and
`gizmo_manipulated` is the matrix `ImGuizmo::Manipulate` leaves in
`camera_gizmo_`. -/
structure RenderFrame where
  scene_name_input : Option String := none
  initialize_scene : Bool := false
  show_render_mesh_checkbox : Option Bool := none
  show_render_cameras_checkbox : Option Bool := none
  camera_visible_checkbox : Option Bool := none
  pose_camera_checkbox : Option Bool := none
  position_input : Option (Vec3 ℚ) := none
  angles_input : Option (Vec3 ℚ) := none
  gizmo_manipulated : Option Mat4 := none
  gizmo_operation_radio : Option GizmoOperation := none
  pose_index_slider : Option Int := none
  render_current_pose : Bool := false
  save_current_render : Bool := false
  next_image_index_input : Option Int := none
  initialize_reconstruction : Bool := false
  compute_nbv_and_extend : Bool := false
  debug : Bool := false

namespace RenderPlugin

/-- The constructor (lines 9-16): the two paths are stored, `image_names_`
points to a new empty vector, the vectors `rendered_poses_` and
`generated_poses_` start empty; `declared` supplies the default member
initialisers of the remaining members. -/
def construct (images_path reconstruction_path : String) (declared : RenderPlugin) :
    RenderPlugin :=
  { declared with
    images_path_ := images_path
    reconstruction_path_ := reconstruction_path
    image_names_ := []
    rendered_poses_ := []
    generated_poses_ := [] }

/-- `viewer->append_mesh()`: a new empty slot, which becomes the selected one. -/
def append_mesh (v : Viewer) : Viewer :=
  { data_list := v.data_list ++ [{}], selected_data_index := v.data_list.length }

/-- `RenderPlugin::init` (lines 18-47); `reconstruction` and `nbv` tell what
the `dynamic_cast` search over `viewer->plugins` finds. -/
def init (s : RenderPlugin) (reconstruction : Bool) (nbv : Option NextBestViewPlugin) :
    RenderPlugin :=
  let s := if s.reconstruction_plugin_ then s else { s with reconstruction_plugin_ := reconstruction }
  let s := if s.nbv_plugin_.isSome then s else { s with nbv_plugin_ := nbv }
  let viewer := append_mesh s.viewer
  let s := { s with viewer := viewer, VIEWER_DATA_CAMERA := viewer.data_list.length - 1 }
  let viewer := append_mesh s.viewer
  let s := { s with viewer := viewer, VIEWER_DATA_RENDER_CAMERAS := viewer.data_list.length - 1 }
  let viewer := append_mesh s.viewer
  let s := { s with viewer := viewer, VIEWER_DATA_RENDER_MESH := viewer.data_list.length - 1 }
  { s with camera_gizmo_ := 1 }

/-- The gizmo widgets of `post_draw` (lines 90-105), shown while `pose_camera_`
is set. -/
def gizmo_widgets (ui : RenderFrame) (s : RenderPlugin) : RenderPlugin :=
  if s.pose_camera_ then
    let s := match ui.gizmo_manipulated with
      | some m => { s with camera_gizmo_ := m }
      | none => s
    match ui.gizmo_operation_radio with
    | some op => { s with gizmo_operation_ := op }
    | none => s
  else s

/-- The end of `post_draw` (lines 154-171): the pose members follow the gizmo
while `pose_camera_` is set, the gizmo follows the pose members otherwise. -/
def sync_gizmo (E : RenderEnv) (s : RenderPlugin) : RenderPlugin :=
  if s.pose_camera_ then
    let components := E.DecomposeMatrixToComponents s.camera_gizmo_
    { s with camera_pos_ := components.1, camera_rot_ := components.2.1 }
  else
    let scale : Vec3 ℚ := ⟨1.0, 1.0, 1.0⟩
    { s with camera_gizmo_ := E.RecomposeMatrixFromComponents s.camera_pos_ s.camera_rot_ scale }

/-- The first part of `post_draw` (lines 69-108): the "Initialization" and
"Manual camera pose" widgets and the call of `show_camera`. -/
def post_draw_inputs (E : RenderEnv) (s : RenderPlugin) (ui : RenderFrame) : RenderOutcome :=
  ({ state := s } : RenderOutcome)
    |>.onInput ui.scene_name_input (fun name s => { s with scene_name_ := name })
    |>.onClick ui.initialize_scene (initialize_scene_callback E)
    |>.onInput ui.show_render_mesh_checkbox
        (fun b s => show_render_mesh { s with render_mesh_visible_ := b } b)
    |>.onInput ui.show_render_cameras_checkbox
        (fun b s => show_render_cameras { s with render_cameras_visible_ := b } b)
    |>.onInput ui.camera_visible_checkbox (fun b s => { s with camera_visible_ := b })
    |>.onInput ui.pose_camera_checkbox (fun b s => { s with pose_camera_ := b })
    |>.onInput ui.position_input (fun v s => { s with camera_pos_ := v })
    |>.onInput ui.angles_input (fun v s => { s with camera_rot_ := v })
    |>.thenState (gizmo_widgets ui)
    |>.thenState (show_camera E)

/-- The "Generated render poses" widget of `post_draw` (lines 110-116). -/
def post_draw_slider (E : RenderEnv) (o : RenderOutcome) (ui : RenderFrame) :
    Option RenderOutcome :=
  (o.onInput ui.pose_index_slider (fun k s => { s with selected_pose_ := k })).onClickOpt
    ui.pose_index_slider.isSome (set_generated_pose_callback E)

/-- The "Render" widgets of `post_draw` (lines 118-130). -/
def post_draw_render (E : RenderEnv) (o : RenderOutcome) (ui : RenderFrame) : RenderOutcome :=
  ((o.onClick ui.render_current_pose (render_callback E)).onClick ui.save_current_render
    (save_render_callback E)).onInput ui.next_image_index_input
    (fun n s => { s with next_image_idx_ := n })

/-- The "Plugin link" widgets of `post_draw` (lines 132-143), shown when both
plugin pointers are set. -/
def post_draw_link (E : RenderEnv) (o : RenderOutcome) (ui : RenderFrame) :
    Option RenderOutcome :=
  if o.state.reconstruction_plugin_ ∧ o.state.nbv_plugin_.isSome then
    (o.onClickOpt ui.initialize_reconstruction (initialize_reconstruction_callback E)).bind
      fun o => o.onClickOpt ui.compute_nbv_and_extend (extend_reconstruction_callback E)
  else some o

/-- The "Debug" button and the gizmo synchronisation of `post_draw`
(lines 145-171). -/
def post_draw_finish (E : RenderEnv) (o : RenderOutcome) (ui : RenderFrame) : RenderOutcome :=
  (o.onClick ui.debug
    (fun s => { state := s, events := [.log "Render: debug button pressed"] })).thenState
    (sync_gizmo E)

/-- `RenderPlugin::post_draw` (lines 54-175) for the widget results `ui`. -/
def post_draw (E : RenderEnv) (s : RenderPlugin) (ui : RenderFrame) : Option RenderOutcome :=
  (post_draw_slider E (post_draw_inputs E s ui) ui).bind fun o =>
  (post_draw_link E (post_draw_render E o ui) ui).bind fun o =>
  some (post_draw_finish E o ui)

end RenderPlugin

/-- One operation on a render plugin: a member function of `RenderPlugin`
with its arguments. The input handlers (`mouse_down` ... `key_up`), `pre_draw`
and `get_rendered_image_names` only forward to the GUI library or return a
value. -/
inductive RenderOp where
  | init (reconstruction : Bool) (nbv : Option NextBestViewPlugin)
  | pre_draw
  | post_draw (ui : RenderFrame)
  | get_rendered_image_names
  | initialize_scene_callback
  | render_callback
  | save_render_callback
  | set_generated_pose_callback
  | initialize_reconstruction_callback
  | extend_reconstruction_callback
  | show_camera
  | set_camera_pose (view_matrix : Mat4)
  | set_render_mesh (mvs_scene : Scene)
  | show_render_mesh (visible : Bool)
  | center_object
  | set_render_cameras
  | show_render_cameras (visible : Bool)
  | mouse_down
  | mouse_up
  | mouse_move
  | mouse_scroll
  | key_pressed
  | key_down
  | key_up

/-- The effect of one operation; `none` when the operation reads through a
null plugin pointer or past the end of a vector. -/
def RenderOp.apply (E : RenderEnv) (s : RenderPlugin) : RenderOp → Option RenderOutcome
  | .init reconstruction nbv => some { state := s.init reconstruction nbv }
  | .post_draw ui => s.post_draw E ui
  | .initialize_scene_callback => some (s.initialize_scene_callback E)
  | .render_callback => some (s.render_callback E)
  | .save_render_callback => some (s.save_render_callback E)
  | .set_generated_pose_callback => s.set_generated_pose_callback E
  | .initialize_reconstruction_callback => s.initialize_reconstruction_callback E
  | .extend_reconstruction_callback => s.extend_reconstruction_callback E
  | .show_camera => some { state := s.show_camera E }
  | .set_camera_pose view_matrix => some { state := s.set_camera_pose E view_matrix }
  | .set_render_mesh mvs_scene => some { state := s.set_render_mesh E mvs_scene }
  | .show_render_mesh visible => some { state := s.show_render_mesh visible }
  | .center_object => some { state := s.center_object E }
  | .set_render_cameras => some { state := s.set_render_cameras E }
  | .show_render_cameras visible => some { state := s.show_render_cameras visible }
  | .pre_draw | .get_rendered_image_names | .mouse_down | .mouse_up | .mouse_move
  | .mouse_scroll | .key_pressed | .key_down | .key_up => some { state := s }

/-- A sequence of operations, one after the other. -/
def RenderOp.run (E : RenderEnv) : RenderOutcome → List RenderOp → Option RenderOutcome
  | o, [] => some o
  | o, op :: rest =>
    match o.andThen (fun s => op.apply E s) with
    | none => none
    | some o2 => RenderOp.run E o2 rest

/-- The names and matrices of the `pushed` events, in order. -/
def pushed_pairs : List RenderEvent → List (String × Mat4)
  | [] => []
  | .pushed filename view_matrix :: rest => (filename, view_matrix) :: pushed_pairs rest
  | _ :: rest => pushed_pairs rest

/-! ## Concrete collaborators for the render plugin -/

/-- The matrix of a translation by `t`. -/
def translation_matrix (t : Vec3 ℚ) : Mat4 :=
  !![1, 0, 0, t.x; 0, 1, 0, t.y; 0, 0, 1, t.z; 0, 0, 0, 1]

/-- The translation part of a matrix. -/
def translation_of (M : Mat4) : Vec3 ℚ := ⟨M 0 3, M 1 3, M 2 3⟩

/-- A test library for camera poses without rotation: a pose matrix is a
translation, its inverse the opposite translation, its components the
translation, no rotation and unit scale. The next-best-view plugin answers with
the given list of best views. -/
def translation_env (best_views : List Mat4) : RenderEnv where
  inverse := fun M => translation_matrix (Vec3.smul (-1) (translation_of M))
  DecomposeMatrixToComponents := fun M => (translation_of M, ⟨0, 0, 0⟩, ⟨1, 1, 1⟩)
  RecomposeMatrixFromComponents := fun pos _ _ => translation_matrix pos
  affine_inverse := fun M => translation_matrix (Vec3.smul (-1) (translation_of M))
  Load := fun _ => { images := [] }
  GenerateRenderPoses := fun _ => []
  nbv_initialize_callback := fun p => p
  get_initial_best_views := fun _ => best_views
  toFloat := fun q => q

/-- A render plugin right after construction and `init`, linked to both other
plugins, with three generated poses in a row. -/
def test_render_plugin : RenderPlugin :=
  { RenderPlugin.init (RenderPlugin.construct "images/" "reconstruction/"
      { images_path_ := ""
        reconstruction_path_ := ""
        image_names_ := []
        reconstruction_plugin_ := false
        nbv_plugin_ := none
        VIEWER_DATA_CAMERA := 0
        VIEWER_DATA_RENDER_CAMERAS := 0
        VIEWER_DATA_RENDER_MESH := 0
        viewer := ⟨[{}], 0⟩
        viewer_core := {}
        camera_gizmo_ := 1
        gizmo_operation_ := .TRANSLATE
        scene_name_ := "scene"
        render_mesh_visible_ := false
        render_cameras_visible_ := false
        camera_visible_ := false
        pose_camera_ := false
        camera_pos_ := ⟨0, 0, 0⟩
        camera_rot_ := ⟨180, 0, 0⟩
        generated_poses_ := []
        selected_pose_ := 0
        next_image_idx_ := 0
        render_data_ := .empty
        rendered_poses_ := [] }) true (some fresh_plugin) with
    generated_poses_ := [translation_matrix ⟨0, 0, -5⟩, translation_matrix ⟨1, 0, -5⟩,
      translation_matrix ⟨2, 0, -5⟩] }

/-! ## Predicates used to state the render plugin's invariants -/

/-- The view matrix the plugin computes for rendering right after
`set_camera_pose(V)`: the inverse of the matrix recomposed, with unit scale,
from the translation and rotation of the decomposed inverse of `V`. -/
def pose_view (E : RenderEnv) (V : Mat4) : Mat4 :=
  E.inverse (E.RecomposeMatrixFromComponents
    (E.DecomposeMatrixToComponents (E.inverse V)).1
    (E.DecomposeMatrixToComponents (E.inverse V)).2.1 ⟨1, 1, 1⟩)

/-- The value is in the range of an `int`. -/
def is_int32 (x : Int) : Prop := -2 ^ 31 ≤ x ∧ x < 2 ^ 31

instance (x : Int) : Decidable (is_int32 x) := by
  unfold is_int32
  infer_instance

/-- The name list and the pose list of `o` are `names` and `poses`, extended
by the names and by the matrices of the `pushed` events of `o`, in order. -/
def RenderOutcome.Paired (names : List String) (poses : List Mat4) (o : RenderOutcome) : Prop :=
  o.state.image_names_ = names ++ (pushed_pairs o.events).map Prod.fst ∧
  o.state.rendered_poses_ = poses ++ (pushed_pairs o.events).map Prod.snd

/-- The name list and the pose list of `o` are `names` and `poses`. -/
def RenderOutcome.Unchanged (names : List String) (poses : List Mat4) (o : RenderOutcome) :
    Prop :=
  o.state.image_names_ = names ∧ o.state.rendered_poses_ = poses

/-- The state update `f` leaves the name list and the pose list alone. -/
def KeepsLists (f : RenderPlugin → RenderPlugin) : Prop :=
  ∀ s, (f s).image_names_ = s.image_names_ ∧ (f s).rendered_poses_ = s.rendered_poses_

/-- Whether the operation can reach `save_render_callback`: the callback
itself, the two callbacks that call it, and a frame in which one of their
buttons is clicked. -/
def RenderOp.saves : RenderOp → Bool
  | .save_render_callback => true
  | .initialize_reconstruction_callback => true
  | .extend_reconstruction_callback => true
  | .post_draw ui =>
    ui.save_current_render || ui.initialize_reconstruction || ui.compute_nbv_and_extend
  | _ => false

/-- The test plugin with the pose index one past the end of its three
generated poses, as two saves from index 1 leave it. -/
def past_end_render_plugin : RenderPlugin := { test_render_plugin with selected_pose_ := 3 }

/-! ## File names of saved frames -/

/-- The value of a decimal digit character. -/
def digit_value (c : Char) : Nat := c.toNat - 48

/-- The number that a text of decimal digits stands for. -/
def decimal_value (text : List Char) : Nat := Nat.ofDigits 10 (text.map digit_value).reverse

/-- The integer that a decimal text with an optional leading minus sign stands
for. -/
def int_value (text : List Char) : Int :=
  match text with
  | '-' :: rest => -(decimal_value rest : Int)
  | text => (decimal_value text : Int)

/-- The image index read back from a file name: the text between the first
five and the last four characters, without its leading zeros. -/
def frame_index (name : String) : Int :=
  int_value (((name.data.drop 5).take (name.data.length - 9)).dropWhile (fun c => c == '0'))

/-- The state of a `CameraPlugin` (`CameraPlugin.h`), restricted to the members
that "Capture frame" reads or writes. -/
structure CameraPlugin where
  output_path_ : String
  camera_message_ : String
  saved_frames_count_ : Int

/-- What a frame of the camera plugin leaves behind: the new state and the
file names handed to `igl::png::writePNG`. -/
structure CameraOutcome where
  state : CameraPlugin
  writePNG : List String := []

/-- The constructor of `CameraPlugin` (`CameraPlugin.cpp` lines 15-26), for the
members of the model. -/
def CameraPlugin.construct (output_path : String) : CameraPlugin :=
  { output_path_ := output_path, camera_message_ := "", saved_frames_count_ := 0 }

/-- The "Capture frame" button of `CameraPlugin::post_draw` (`CameraPlugin.cpp`
lines 62-79); `capture_frame` tells whether the button was clicked. -/
def CameraPlugin.post_draw (s : CameraPlugin) (capture_frame : Bool) : CameraOutcome :=
  if capture_frame then
    let ss := setw_setfill 3 '0' (to_string_int s.saved_frames_count_)
    let filename := s.output_path_ ++ "frame" ++ String.mk ss ++ ".png"
    { state := { s with camera_message_ := "Image saved to: " ++ filename
                        saved_frames_count_ := wrap_int32 (s.saved_frames_count_ + 1) }
      writePNG := [filename] }
  else { state := s }

/-- The "Capture frame" button in the lambda `callback_draw_custom_window` of
`bak/main_bak_3.cpp` (lines 79-92), on the locals `output_path` and
`saved_frames_count`: the new counter and the file names handed to
`igl::png::writePNG`. -/
def callback_draw_custom_window (output_path : String) (saved_frames_count : Int)
    (capture_frame : Bool) : Int × List String :=
  if capture_frame then
    let ss := setw_setfill 3 '0' (to_string_int saved_frames_count)
    let filename := output_path ++ "frame" ++ String.mk ss ++ ".png"
    (wrap_int32 (saved_frames_count + 1), [filename])
  else (saved_frames_count, [])

/-! ## The next-best-view plugin: the camera model as matrices -/

/-- `NextBestViewPlugin::set_camera` (lines 162-188); `clear()` empties the
mesh of the slot, the colours are not modelled. -/
def set_camera (s : NextBestViewPlugin) : NextBestViewPlugin :=
  let tmp_V := frustum_V
  let tmp_F := frustum_F
  let viewer := { s.viewer with selected_data_index := s.VIEWER_DATA_NBV }
  { s with camera_vertices_ := tmp_V
           viewer := viewer.onData (fun d => { d with V := tmp_V, F := tmp_F }) }

/-- `NextBestViewPlugin::init` (lines 15-24). -/
def NextBestViewPlugin.init (s : NextBestViewPlugin) : NextBestViewPlugin :=
  let viewer := RenderPlugin.append_mesh s.viewer
  let s := { s with viewer := viewer, VIEWER_DATA_NBV := viewer.data_list.length - 1 }
  let s := set_camera s
  show_camera s s.show_camera_

/-- The matrix of `Eigen::Affine3d(Eigen::AngleAxisd(a, Eigen::Vector3d::UnitX()))`. -/
def rotation_x (E : Env) (a : ℚ) : Mat4 :=
  !![1, 0, 0, 0; 0, E.cos a, -E.sin a, 0; 0, E.sin a, E.cos a, 0; 0, 0, 0, 1]

/-- The matrix of `Eigen::Affine3d(Eigen::AngleAxisd(a, Eigen::Vector3d::UnitY()))`. -/
def rotation_y (E : Env) (a : ℚ) : Mat4 :=
  !![E.cos a, 0, E.sin a, 0; 0, 1, 0, 0; -E.sin a, 0, E.cos a, 0; 0, 0, 0, 1]

/-- The matrix of `Eigen::Affine3d(Eigen::AngleAxisd(a, Eigen::Vector3d::UnitZ()))`. -/
def rotation_z (E : Env) (a : ℚ) : Mat4 :=
  !![E.cos a, -E.sin a, 0, 0; E.sin a, E.cos a, 0, 0; 0, 0, 1, 0; 0, 0, 0, 1]

/-- The matrix `camera_transformation_` of `transform_camera` (lines 193-200):
`translation * yaw * pitch * roll * scale * Eigen::Matrix4d::Identity()`. -/
def camera_transformation_matrix (E : Env) (camera_pos camera_rot : Vec3 ℚ) : Mat4 :=
  let scale := scaling (1.0 / 2.0)
  let translation := translation_matrix camera_pos
  let pitch := rotation_x E camera_rot.x
  let yaw := rotation_y E camera_rot.y
  let roll := rotation_z E camera_rot.z
  translation * yaw * pitch * roll * scale * 1

/-! ## The render plugin: centring the render mesh -/

/-- The vertices `center_object` reads: `viewer->data().V` once the slot
`VIEWER_DATA_RENDER_MESH` is selected. -/
def RenderPlugin.render_mesh_points (s : RenderPlugin) : List (Vec3 ℚ) :=
  ({ s.viewer with selected_data_index := s.VIEWER_DATA_RENDER_MESH } : Viewer).data.V

/-- The sum of a list of points. -/
def vector_sum : List (Vec3 ℚ) → Vec3 ℚ
  | [] => ⟨0, 0, 0⟩
  | p :: rest => Vec3.add p (vector_sum rest)

/-- The centroid of a list of points: their sum divided by their number. -/
def centroid (points : List (Vec3 ℚ)) : Vec3 ℚ :=
  Vec3.smul (1 / (points.length : ℚ)) (vector_sum points)

/-- The number `e` is the largest bounding-box extent of the points: no two
points differ by more than `e` in any coordinate, and two of them differ by
exactly `e` in some coordinate. -/
def is_largest_extent (points : List (Vec3 ℚ)) (e : ℚ) : Prop :=
  (∀ p ∈ points, ∀ q ∈ points, p.x - q.x ≤ e ∧ p.y - q.y ≤ e ∧ p.z - q.z ≤ e) ∧
  (∃ p ∈ points, ∃ q ∈ points, p.x - q.x = e ∨ p.y - q.y = e ∨ p.z - q.z = e)

/-- The value `diff.maxCoeff()` of `center_object` without the absolute
values: the largest, over the three coordinates, of `max_point - min_point`. -/
def largest_extent (points : List (Vec3 ℚ)) : ℚ :=
  max (max (max_coeff Vec3.x points - min_coeff Vec3.x points)
      (max_coeff Vec3.y points - min_coeff Vec3.y points))
    (max_coeff Vec3.z points - min_coeff Vec3.z points)

/-- The viewer of the test plugin with the given vertices in the slot of the
render mesh. -/
def viewer_with_render_mesh (points : List (Vec3 ℚ)) : Viewer :=
  Viewer.onData
    { test_render_plugin.viewer with
      selected_data_index := test_render_plugin.VIEWER_DATA_RENDER_MESH }
    (fun d => { d with V := points })

/-- The test plugin with a render mesh of two vertices, `(0, 0, 0)` and
`(4, 2, 0)`. -/
def two_vertex_render_plugin : RenderPlugin :=
  { test_render_plugin with viewer := viewer_with_render_mesh [⟨0, 0, 0⟩, ⟨4, 2, 0⟩] }

/-! ## Rigid transforms and a test library for poses with rotation -/

/-- The rotation block of a pose matrix: its upper left 3x3 part. -/
def rotation_block (M : Mat4) : Matrix (Fin 3) (Fin 3) ℚ :=
  !![M 0 0, M 0 1, M 0 2; M 1 0, M 1 1, M 1 2; M 2 0, M 2 1, M 2 2]

/-- The pose matrix with rotation block `R` and translation `t`. -/
def pose_matrix (R : Matrix (Fin 3) (Fin 3) ℚ) (t : Vec3 ℚ) : Mat4 :=
  !![R 0 0, R 0 1, R 0 2, t.x; R 1 0, R 1 1, R 1 2, t.y; R 2 0, R 2 1, R 2 2, t.z; 0, 0, 0, 1]

/-- The image of a vector under a 3x3 matrix. -/
def rotate (R : Matrix (Fin 3) (Fin 3) ℚ) (v : Vec3 ℚ) : Vec3 ℚ :=
  ⟨R 0 0 * v.x + R 0 1 * v.y + R 0 2 * v.z, R 1 0 * v.x + R 1 1 * v.y + R 1 2 * v.z,
    R 2 0 * v.x + R 2 1 * v.y + R 2 2 * v.z⟩

/-- A rigid transform: the last row is `0 0 0 1` and the rotation block is
orthogonal with determinant 1. -/
def is_rigid (M : Mat4) : Prop :=
  M 3 0 = 0 ∧ M 3 1 = 0 ∧ M 3 2 = 0 ∧ M 3 3 = 1 ∧
  Matrix.transpose (rotation_block M) * rotation_block M = 1 ∧ (rotation_block M).det = 1

/-- The inverse of a rigid transform in closed form. -/
def rigid_inverse (M : Mat4) : Mat4 :=
  pose_matrix (Matrix.transpose (rotation_block M))
    (rotate (Matrix.transpose (rotation_block M))
      ⟨-(translation_of M).x, -(translation_of M).y, -(translation_of M).z⟩)

/-- Three rationals packed into one, by the standard numbering of triples. -/
def pack_row (a b c : ℚ) : ℚ := ((Encodable.encode (a, b, c) : Nat) : ℚ)

/-- The three rationals packed into `q`. -/
def unpack_row (q : ℚ) : ℚ × ℚ × ℚ :=
  (Encodable.decode q.num.toNat : Option (ℚ × ℚ × ℚ)).getD (0, 0, 0)

/-- The inverse of a matrix as the adjugate over the determinant. -/
def matrix_inverse (M : Mat4) : Mat4 := M.det⁻¹ • M.adjugate

/-- A test library for camera poses with rotation: `inverse` is the matrix
inverse; the decomposition gives the translation column, unit scale, and as
rotation component `i` row `i` of the rotation block packed into one number;
the recomposition unpacks the rows, scales row `i` by scale component `i` and
puts the translation back. -/
def rows_env : RenderEnv :=
  { translation_env [] with
    inverse := matrix_inverse
    affine_inverse := matrix_inverse
    DecomposeMatrixToComponents := fun M =>
      (translation_of M,
        ⟨pack_row (M 0 0) (M 0 1) (M 0 2), pack_row (M 1 0) (M 1 1) (M 1 2),
          pack_row (M 2 0) (M 2 1) (M 2 2)⟩,
        ⟨1, 1, 1⟩)
    RecomposeMatrixFromComponents := fun t r s =>
      !![s.x * (unpack_row r.x).1, s.x * (unpack_row r.x).2.1, s.x * (unpack_row r.x).2.2, t.x;
         s.y * (unpack_row r.y).1, s.y * (unpack_row r.y).2.1, s.y * (unpack_row r.y).2.2, t.y;
         s.z * (unpack_row r.z).1, s.z * (unpack_row r.z).2.1, s.z * (unpack_row r.z).2.2, t.z;
         0, 0, 0, 1] }

/-- A test view matrix: the quarter turn about the z axis followed by the
translation by `(1, 2, 3)`. -/
def quarter_turn_pose : Mat4 :=
  pose_matrix !![0, -1, 0; 1, 0, 0; 0, 0, 1] ⟨1, 2, 3⟩

/-! ## Basic facts about the embedding -/

theorem Vec3.assign_components {α β : Type} (f : α → β) (w : Vec3 β) (v : Vec3 α) :
    ((w.set 0 (f (v.get 0))).set 1 (f (v.get 1))).set 2 (f (v.get 2)) = v.map f := by
  cases v
  cases w
  rfl

theorem Vec3.copy_components {α : Type} (w v : Vec3 α) :
    ((w.set 0 (v.get 0)).set 1 (v.get 1)).set 2 (v.get 2) = v := by
  cases v
  cases w
  rfl

theorem transform_camera_camera_pos (E : Env) (s : NextBestViewPlugin) :
    (transform_camera E s).camera_pos_ = s.camera_pos_ := by
  unfold transform_camera
  split <;> rfl

theorem transform_camera_camera_rot (E : Env) (s : NextBestViewPlugin) :
    (transform_camera E s).camera_rot_ = s.camera_rot_ := by
  unfold transform_camera
  split <;> rfl

theorem transform_camera_next_best_view (E : Env) (s : NextBestViewPlugin) :
    (transform_camera E s).next_best_view_ = s.next_best_view_ := by
  unfold transform_camera
  split <;> rfl

/-- The position callback on a scene with a first image, in closed form. -/
theorem optimize_position_callback_eq (E : Env) (s : NextBestViewPlugin)
    (front : Image) (rest : List Image)
    (h : s.next_best_view_.mvs_scene_.images = front :: rest) :
    optimize_position_callback E s =
      some { state := transform_camera E { s with camera_pos_ :=
                (E.gd OptimPosData s.camera_pos_ E.optim_pos_function
                  (position_data s front) (optim_settings E)).1.map E.toFloat }
             optimizer_calls :=
               [OptimCall.position s.camera_pos_ (position_data s front) (optim_settings E)]
             cout := [Printed.elapsed_time, Printed.parameters
                (E.gd OptimPosData s.camera_pos_ E.optim_pos_function
                  (position_data s front) (optim_settings E)).1] } := by
  unfold optimize_position_callback
  rw [h]
  simp only [List.head?_cons, Vec3.copy_components, Vec3.assign_components, position_data]

/-- The rotation callback on a scene with a first image, in closed form. -/
theorem optimize_rotation_callback_eq (E : Env) (s : NextBestViewPlugin)
    (front : Image) (rest : List Image)
    (h : s.next_best_view_.mvs_scene_.images = front :: rest) :
    optimize_rotation_callback E s =
      some { state := transform_camera E { s with camera_rot_ :=
                (E.gd OptimRotData s.camera_rot_ E.optim_rot_function
                  (rotation_data s front) (optim_settings E)).1.map E.toFloat }
             optimizer_calls :=
               [OptimCall.rotation s.camera_rot_ (rotation_data s front) (optim_settings E)]
             cout := [Printed.elapsed_time, Printed.parameters
                (E.gd OptimRotData s.camera_rot_ E.optim_rot_function
                  (rotation_data s front) (optim_settings E)).1] } := by
  unfold optimize_rotation_callback
  rw [h]
  simp only [List.head?_cons, Vec3.copy_components, Vec3.assign_components, rotation_data]

/-! ## The optimizer triggers -/

/-- C1: on a scene with a first image, `optimize_position_callback` hands the
optimizer the current `camera_pos_` as its starting vector, stores the vector
the optimizer left (converted to `float`) into `camera_pos_`, and a second
trigger starts from that stored vector; likewise `optimize_rotation_callback`
with `camera_rot_`. -/
theorem optimize_callbacks_reentrant (E : Env) (s : NextBestViewPlugin)
    (front : Image) (rest : List Image)
    (h : s.next_best_view_.mvs_scene_.images = front :: rest) :
    (∃ o1 o2, optimize_position_callback E s = some o1 ∧
        o1.optimizer_calls.map OptimCall.init = [s.camera_pos_] ∧
        o1.state.camera_pos_ =
          (E.gd OptimPosData s.camera_pos_ E.optim_pos_function
            (position_data s front) (optim_settings E)).1.map E.toFloat ∧
        optimize_position_callback E o1.state = some o2 ∧
        o2.optimizer_calls.map OptimCall.init = [o1.state.camera_pos_]) ∧
    (∃ o1 o2, optimize_rotation_callback E s = some o1 ∧
        o1.optimizer_calls.map OptimCall.init = [s.camera_rot_] ∧
        o1.state.camera_rot_ =
          (E.gd OptimRotData s.camera_rot_ E.optim_rot_function
            (rotation_data s front) (optim_settings E)).1.map E.toFloat ∧
        optimize_rotation_callback E o1.state = some o2 ∧
        o2.optimizer_calls.map OptimCall.init = [o1.state.camera_rot_]) := by
  constructor
  · have h1 := optimize_position_callback_eq E s front rest h
    refine ⟨_, _, h1, rfl, transform_camera_camera_pos E _,
      optimize_position_callback_eq E _ front rest ?_, ?_⟩
    · rw [transform_camera_next_best_view]
      exact h
    · rfl
  · have h1 := optimize_rotation_callback_eq E s front rest h
    refine ⟨_, _, h1, rfl, transform_camera_camera_rot E _,
      optimize_rotation_callback_eq E _ front rest ?_, ?_⟩
    · rw [transform_camera_next_best_view]
      exact h
    · rfl

/-- C2: on a scene with a first image, each of the two optimize callbacks
invokes the optimizer exactly once, with `iter_max = 1`, `step_size = 0.1` and
`err_tol = 0.001`, and both use the same settings. -/
theorem optimize_callbacks_settings (E : Env) (s : NextBestViewPlugin)
    (front : Image) (rest : List Image)
    (h : s.next_best_view_.mvs_scene_.images = front :: rest) :
    ∃ o_pos o_rot init_pos data_pos init_rot data_rot settings,
      optimize_position_callback E s = some o_pos ∧
      optimize_rotation_callback E s = some o_rot ∧
      o_pos.optimizer_calls = [OptimCall.position init_pos data_pos settings] ∧
      o_rot.optimizer_calls = [OptimCall.rotation init_rot data_rot settings] ∧
      settings.iter_max = 1 ∧
      settings.gd_settings.step_size = 1 / 10 ∧
      settings.err_tol = 1 / 1000 := by
  refine ⟨_, _, _, _, _, _, optim_settings E, optimize_position_callback_eq E s front rest h,
    optimize_rotation_callback_eq E s front rest h, rfl, rfl, rfl, ?_, ?_⟩
  · simp only [optim_settings]
    norm_num
  · simp only [optim_settings]
    norm_num

/-- C3: on a scene with a first image, `optimize_position_callback` passes the
current `camera_rot_` inside the objective data and leaves `camera_rot_` as it
was, whatever the optimizer returns; `optimize_rotation_callback` does the same
with `camera_pos_`. -/
theorem optimize_callbacks_independent (E : Env) (s : NextBestViewPlugin)
    (front : Image) (rest : List Image)
    (h : s.next_best_view_.mvs_scene_.images = front :: rest) :
    (∃ o init data settings, optimize_position_callback E s = some o ∧
        o.optimizer_calls = [OptimCall.position init data settings] ∧
        data.camera_rot = s.camera_rot_ ∧
        o.state.camera_rot_ = s.camera_rot_) ∧
    (∃ o init data settings, optimize_rotation_callback E s = some o ∧
        o.optimizer_calls = [OptimCall.rotation init data settings] ∧
        data.camera_pos = s.camera_pos_ ∧
        o.state.camera_pos_ = s.camera_pos_) := by
  constructor
  · exact ⟨_, _, _, _, optimize_position_callback_eq E s front rest h, rfl, rfl,
      transform_camera_camera_rot E _⟩
  · exact ⟨_, _, _, _, optimize_rotation_callback_eq E s front rest h, rfl, rfl,
      transform_camera_camera_pos E _⟩

/-- The hypothesis of C1 holds for `fresh_plugin`, and two consecutive triggers
chain there in both sub-problems. -/
theorem optimize_callbacks_reentrant_witness :
    fresh_plugin.next_best_view_.mvs_scene_.images = [⟨640, 480, ⟨500⟩⟩] ∧
    (∃ o1 o2, optimize_position_callback (stepping_env false) fresh_plugin = some o1 ∧
        o1.optimizer_calls.map OptimCall.init = [fresh_plugin.camera_pos_] ∧
        o1.state.camera_pos_ =
          ((stepping_env false).gd OptimPosData fresh_plugin.camera_pos_
            (stepping_env false).optim_pos_function
            (position_data fresh_plugin ⟨640, 480, ⟨500⟩⟩)
            (optim_settings (stepping_env false))).1.map (stepping_env false).toFloat ∧
        optimize_position_callback (stepping_env false) o1.state = some o2 ∧
        o2.optimizer_calls.map OptimCall.init = [o1.state.camera_pos_]) ∧
    (∃ o1 o2, optimize_rotation_callback (stepping_env false) fresh_plugin = some o1 ∧
        o1.optimizer_calls.map OptimCall.init = [fresh_plugin.camera_rot_] ∧
        o1.state.camera_rot_ =
          ((stepping_env false).gd OptimRotData fresh_plugin.camera_rot_
            (stepping_env false).optim_rot_function
            (rotation_data fresh_plugin ⟨640, 480, ⟨500⟩⟩)
            (optim_settings (stepping_env false))).1.map (stepping_env false).toFloat ∧
        optimize_rotation_callback (stepping_env false) o1.state = some o2 ∧
        o2.optimizer_calls.map OptimCall.init = [o1.state.camera_rot_]) :=
  ⟨rfl, optimize_callbacks_reentrant (stepping_env false) fresh_plugin ⟨640, 480, ⟨500⟩⟩ [] rfl⟩

/-- The hypothesis of C2 holds for `fresh_plugin`, where both callbacks make
their single optimizer call with the stated settings. -/
theorem optimize_callbacks_settings_witness :
    fresh_plugin.next_best_view_.mvs_scene_.images = [⟨640, 480, ⟨500⟩⟩] ∧
    ∃ o_pos o_rot init_pos data_pos init_rot data_rot settings,
      optimize_position_callback (stepping_env true) fresh_plugin = some o_pos ∧
      optimize_rotation_callback (stepping_env true) fresh_plugin = some o_rot ∧
      o_pos.optimizer_calls = [OptimCall.position init_pos data_pos settings] ∧
      o_rot.optimizer_calls = [OptimCall.rotation init_rot data_rot settings] ∧
      settings.iter_max = 1 ∧
      settings.gd_settings.step_size = 1 / 10 ∧
      settings.err_tol = 1 / 1000 :=
  ⟨rfl, optimize_callbacks_settings (stepping_env true) fresh_plugin ⟨640, 480, ⟨500⟩⟩ [] rfl⟩

/-- The hypothesis of C3 holds for `fresh_plugin`, where each callback leaves
the other half of the pose alone. -/
theorem optimize_callbacks_independent_witness :
    fresh_plugin.next_best_view_.mvs_scene_.images = [⟨640, 480, ⟨500⟩⟩] ∧
    (∃ o init data settings, optimize_position_callback (stepping_env false) fresh_plugin = some o ∧
        o.optimizer_calls = [OptimCall.position init data settings] ∧
        data.camera_rot = fresh_plugin.camera_rot_ ∧
        o.state.camera_rot_ = fresh_plugin.camera_rot_) ∧
    (∃ o init data settings, optimize_rotation_callback (stepping_env false) fresh_plugin = some o ∧
        o.optimizer_calls = [OptimCall.rotation init data settings] ∧
        data.camera_pos = fresh_plugin.camera_pos_ ∧
        o.state.camera_pos_ = fresh_plugin.camera_pos_) :=
  ⟨rfl, optimize_callbacks_independent (stepping_env false) fresh_plugin ⟨640, 480, ⟨500⟩⟩ [] rfl⟩

/-- C4, as stated, fails: an optimizer run that reports success and one that
reports non-convergence, leaving the same vector, give the same outcome of
`optimize_position_callback` and of `optimize_rotation_callback`, so the caller
cannot tell them apart. -/
theorem nonconvergence_not_reported :
    ((stepping_env true).gd OptimPosData fresh_plugin.camera_pos_
        (stepping_env true).optim_pos_function
        (position_data fresh_plugin ⟨640, 480, ⟨500⟩⟩) (optim_settings (stepping_env true))).2 = true ∧
    ((stepping_env false).gd OptimPosData fresh_plugin.camera_pos_
        (stepping_env false).optim_pos_function
        (position_data fresh_plugin ⟨640, 480, ⟨500⟩⟩) (optim_settings (stepping_env false))).2 = false ∧
    (∃ o, optimize_position_callback (stepping_env true) fresh_plugin = some o ∧
        optimize_position_callback (stepping_env false) fresh_plugin = some o) ∧
    (∃ o, optimize_rotation_callback (stepping_env true) fresh_plugin = some o ∧
        optimize_rotation_callback (stepping_env false) fresh_plugin = some o) :=
  ⟨rfl, rfl,
    ⟨_, optimize_position_callback_eq (stepping_env true) fresh_plugin ⟨640, 480, ⟨500⟩⟩ [] rfl,
      optimize_position_callback_eq (stepping_env false) fresh_plugin ⟨640, 480, ⟨500⟩⟩ [] rfl⟩,
    ⟨_, optimize_rotation_callback_eq (stepping_env true) fresh_plugin ⟨640, 480, ⟨500⟩⟩ [] rfl,
      optimize_rotation_callback_eq (stepping_env false) fresh_plugin ⟨640, 480, ⟨500⟩⟩ [] rfl⟩⟩

/-- C4, amended: the optimizer returns its vector together with a success
flag, and both callbacks drop the flag; replacing the flag of every optimizer
run by an arbitrary value changes nothing in the outcome of either callback. -/
theorem optimize_callbacks_discard_success (E : Env) (s : NextBestViewPlugin) (flag : Bool) :
    optimize_position_callback (E.withSuccess flag) s = optimize_position_callback E s ∧
    optimize_rotation_callback (E.withSuccess flag) s = optimize_rotation_callback E s := by
  constructor
  · unfold optimize_position_callback
    cases s.next_best_view_.mvs_scene_.images.head? <;> rfl
  · unfold optimize_rotation_callback
    cases s.next_best_view_.mvs_scene_.images.head? <;> rfl

/-! ## The trigger state machine -/

theorem transform_camera_show_camera (E : Env) (s : NextBestViewPlugin) :
    (transform_camera E s).show_camera_ = s.show_camera_ := by
  unfold transform_camera
  split <;> rfl

/-- An "Optimize position" frame on a scene with a first image. -/
theorem post_draw_optimize_position (E : Env) (s : NextBestViewPlugin)
    (front : Image) (rest : List Image)
    (h : s.next_best_view_.mvs_scene_.images = front :: rest) :
    ∃ o, post_draw E s { optimize_position := true } = some o ∧
      o.optimizer_calls =
        [OptimCall.position s.camera_pos_ (position_data s front) (optim_settings E)] ∧
      o.state.camera_pos_ =
        (E.gd OptimPosData s.camera_pos_ E.optim_pos_function
          (position_data s front) (optim_settings E)).1.map E.toFloat := by
  have h1 := optimize_position_callback_eq E s front rest h
  by_cases hs : s.show_camera_ = true <;>
    simp [post_draw, Outcome.andThen, h1, hs, transform_camera_show_camera,
      transform_camera_camera_pos]

/-- An "Optimize rotation" frame on a scene with a first image. -/
theorem post_draw_optimize_rotation (E : Env) (s : NextBestViewPlugin)
    (front : Image) (rest : List Image)
    (h : s.next_best_view_.mvs_scene_.images = front :: rest) :
    ∃ o, post_draw E s { optimize_rotation := true } = some o ∧
      o.optimizer_calls =
        [OptimCall.rotation s.camera_rot_ (rotation_data s front) (optim_settings E)] ∧
      o.state.camera_rot_ =
        (E.gd OptimRotData s.camera_rot_ E.optim_rot_function
          (rotation_data s front) (optim_settings E)).1.map E.toFloat := by
  have h1 := optimize_rotation_callback_eq E s front rest h
  by_cases hs : s.show_camera_ = true <;>
    simp [post_draw, Outcome.andThen, h1, hs, transform_camera_show_camera,
      transform_camera_camera_rot]

/-- A "Debug" frame on a scene with a first image. -/
theorem post_draw_debug (E : Env) (s : NextBestViewPlugin)
    (front : Image) (rest : List Image)
    (h : s.next_best_view_.mvs_scene_.images = front :: rest) :
    ∃ o, post_draw E s { debug := true } = some o ∧
      o.cost_calls =
        [CostCall.position s.camera_pos_ s.camera_rot_ front.width front.height front.camera.K11,
         CostCall.rotation s.camera_pos_ s.camera_rot_ front.width front.height front.camera.K11] ∧
      o.optimizer_calls = [] := by
  by_cases hs : s.show_camera_ = true <;>
    simp [post_draw, Outcome.andThen, debug_button, hs, h, transform_camera_next_best_view,
      transform_camera_camera_pos, transform_camera_camera_rot]

/-- C5, as stated, fails: on a plugin where "Initialize NBV" was never pressed
(empty geometry cache), an "Optimize position" frame runs the optimizer once
and moves the candidate position, an "Optimize rotation" frame runs it once
and moves the candidate angles, and a "Debug" frame evaluates both cost
functions. -/
theorem optimize_runs_before_initialize :
    fresh_plugin.next_best_view_.face_centers_ = [] ∧
    (∃ o, post_draw (stepping_env false) fresh_plugin { optimize_position := true } = some o ∧
        o.optimizer_calls.length = 1 ∧
        o.state.camera_pos_ ≠ fresh_plugin.camera_pos_) ∧
    (∃ o, post_draw (stepping_env false) fresh_plugin { optimize_rotation := true } = some o ∧
        o.optimizer_calls.length = 1 ∧
        o.state.camera_rot_ ≠ fresh_plugin.camera_rot_) ∧
    (∃ o, post_draw (stepping_env false) fresh_plugin { debug := true } = some o ∧
        o.cost_calls.length = 2) := by
  refine ⟨rfl, ?_, ?_, ?_⟩
  · obtain ⟨o, h1, h2, h3⟩ :=
      post_draw_optimize_position (stepping_env false) fresh_plugin ⟨640, 480, ⟨500⟩⟩ [] rfl
    refine ⟨o, h1, by rw [h2]; rfl, ?_⟩
    rw [h3]
    simp [fresh_plugin, stepping_env, stepping_gd, optim_settings, Vec3.map]
    norm_num
  · obtain ⟨o, h1, h2, h3⟩ :=
      post_draw_optimize_rotation (stepping_env false) fresh_plugin ⟨640, 480, ⟨500⟩⟩ [] rfl
    refine ⟨o, h1, by rw [h2]; rfl, ?_⟩
    rw [h3]
    simp [fresh_plugin, stepping_env, stepping_gd, optim_settings, Vec3.map]
    norm_num
  · obtain ⟨o, h1, h2, _⟩ :=
      post_draw_debug (stepping_env false) fresh_plugin ⟨640, 480, ⟨500⟩⟩ [] rfl
    exact ⟨o, h1, by rw [h2]; rfl⟩

/-- C5, amended: the trigger handling has no initialization gate. In every
plugin state whose scene has a first image, initialized or not, an "Optimize
position" frame runs the optimizer exactly once from the current position and
stores its result, an "Optimize rotation" frame does so for the angles, and a
"Debug" frame evaluates the position and the rotation cost at the current
pose. -/
theorem triggers_run_in_every_state (E : Env) (s : NextBestViewPlugin)
    (front : Image) (rest : List Image)
    (h : s.next_best_view_.mvs_scene_.images = front :: rest) :
    (∃ o, post_draw E s { optimize_position := true } = some o ∧
      o.optimizer_calls =
        [OptimCall.position s.camera_pos_ (position_data s front) (optim_settings E)] ∧
      o.state.camera_pos_ =
        (E.gd OptimPosData s.camera_pos_ E.optim_pos_function
          (position_data s front) (optim_settings E)).1.map E.toFloat) ∧
    (∃ o, post_draw E s { optimize_rotation := true } = some o ∧
      o.optimizer_calls =
        [OptimCall.rotation s.camera_rot_ (rotation_data s front) (optim_settings E)] ∧
      o.state.camera_rot_ =
        (E.gd OptimRotData s.camera_rot_ E.optim_rot_function
          (rotation_data s front) (optim_settings E)).1.map E.toFloat) ∧
    (∃ o, post_draw E s { debug := true } = some o ∧
      o.cost_calls =
        [CostCall.position s.camera_pos_ s.camera_rot_ front.width front.height front.camera.K11,
         CostCall.rotation s.camera_pos_ s.camera_rot_ front.width front.height front.camera.K11] ∧
      o.optimizer_calls = []) :=
  ⟨post_draw_optimize_position E s front rest h, post_draw_optimize_rotation E s front rest h,
    post_draw_debug E s front rest h⟩

/-- The hypothesis of the amended C5 holds for `fresh_plugin`, a plugin that
was never initialized. -/
theorem triggers_run_in_every_state_witness :
    fresh_plugin.next_best_view_.mvs_scene_.images = [⟨640, 480, ⟨500⟩⟩] ∧
    (∃ o, post_draw (stepping_env false) fresh_plugin { optimize_position := true } = some o ∧
      o.optimizer_calls =
        [OptimCall.position fresh_plugin.camera_pos_
          (position_data fresh_plugin ⟨640, 480, ⟨500⟩⟩) (optim_settings (stepping_env false))] ∧
      o.state.camera_pos_ =
        ((stepping_env false).gd OptimPosData fresh_plugin.camera_pos_
          (stepping_env false).optim_pos_function
          (position_data fresh_plugin ⟨640, 480, ⟨500⟩⟩)
          (optim_settings (stepping_env false))).1.map (stepping_env false).toFloat) ∧
    (∃ o, post_draw (stepping_env false) fresh_plugin { optimize_rotation := true } = some o ∧
      o.optimizer_calls =
        [OptimCall.rotation fresh_plugin.camera_rot_
          (rotation_data fresh_plugin ⟨640, 480, ⟨500⟩⟩) (optim_settings (stepping_env false))] ∧
      o.state.camera_rot_ =
        ((stepping_env false).gd OptimRotData fresh_plugin.camera_rot_
          (stepping_env false).optim_rot_function
          (rotation_data fresh_plugin ⟨640, 480, ⟨500⟩⟩)
          (optim_settings (stepping_env false))).1.map (stepping_env false).toFloat) ∧
    (∃ o, post_draw (stepping_env false) fresh_plugin { debug := true } = some o ∧
      o.cost_calls =
        [CostCall.position fresh_plugin.camera_pos_ fresh_plugin.camera_rot_ 640 480 500,
         CostCall.rotation fresh_plugin.camera_pos_ fresh_plugin.camera_rot_ 640 480 500] ∧
      o.optimizer_calls = []) :=
  ⟨rfl, triggers_run_in_every_state (stepping_env false) fresh_plugin ⟨640, 480, ⟨500⟩⟩ [] rfl⟩

/-! ## The FaceID buffer and the visible set -/

theorem faceid_pixel_eq {α : Type} [Semiring α] (provoking : Fin 3)
    (model view projection : Matrix (Fin 4) (Fin 4) α) (p0 p1 p2 : Vec3 α) (id0 id1 id2 : Nat) :
    faceid_pixel provoking model view projection p0 p1 p2 id0 id1 id2 =
      flat_input provoking id0 id1 id2 := by
  unfold faceid_pixel faceid_frag_source faceid_vert_source flat_input
  split <;> rfl

theorem FaceIdEncoding.rendered_ne_no_face (e : FaceIdEncoding) (numFaces id : Nat)
    (hfit : e.fits numFaces) (hid : id < numFaces) : e.rendered id ≠ e.no_face := by
  cases e with
  | offset_by_one =>
    simp only [FaceIdEncoding.fits] at hfit
    simp only [FaceIdEncoding.rendered, FaceIdEncoding.no_face]
    omega
  | out_of_range sentinel_value =>
    simp only [FaceIdEncoding.fits] at hfit
    simp only [FaceIdEncoding.rendered, FaceIdEncoding.no_face]
    omega

theorem FaceIdEncoding.decode_rendered (e : FaceIdEncoding) (numFaces id : Nat)
    (hfit : e.fits numFaces) (hid : id < numFaces) : e.decode (e.rendered id) = id := by
  cases e with
  | offset_by_one =>
    simp only [FaceIdEncoding.fits] at hfit
    simp only [FaceIdEncoding.rendered, FaceIdEncoding.decode]
    omega
  | out_of_range sentinel_value =>
    simp only [FaceIdEncoding.fits] at hfit
    simp only [FaceIdEncoding.rendered, FaceIdEncoding.decode]
    omega

/-- C6: for an encoding that fits the mesh, the value rendered for a valid face
id never equals the "no face" value and decodes back to the id; the FaceID
shaders write to the pixel the id attribute of the provoking vertex, so a
triangle whose three vertices carry the face's value gets exactly that value. -/
theorem no_face_never_collides (e : FaceIdEncoding) (numFaces id : Nat)
    (hfit : e.fits numFaces) (hid : id < numFaces) :
    e.rendered id ≠ e.no_face ∧
    e.decode (e.rendered id) = id ∧
    (∀ (provoking : Fin 3) (model view projection : Matrix (Fin 4) (Fin 4) ℚ)
        (p0 p1 p2 : Vec3 ℚ) (id0 id1 id2 : Nat),
      faceid_pixel provoking model view projection p0 p1 p2 id0 id1 id2 =
        flat_input provoking id0 id1 id2) ∧
    (∀ (provoking : Fin 3) (model view projection : Matrix (Fin 4) (Fin 4) ℚ)
        (p0 p1 p2 : Vec3 ℚ),
      faceid_pixel provoking model view projection p0 p1 p2
        (e.rendered id) (e.rendered id) (e.rendered id) = e.rendered id) := by
  refine ⟨e.rendered_ne_no_face numFaces id hfit hid, e.decode_rendered numFaces id hfit hid,
    fun provoking model view projection p0 p1 p2 id0 id1 id2 =>
      faceid_pixel_eq provoking model view projection p0 p1 p2 id0 id1 id2, ?_⟩
  intro provoking model view projection p0 p1 p2
  rw [faceid_pixel_eq]
  unfold flat_input
  split <;> rfl

/-- The hypotheses of C6 hold for offset ids on a two-face mesh and face 1. -/
theorem no_face_never_collides_witness :
    FaceIdEncoding.offset_by_one.fits 2 ∧ 1 < 2 ∧
    FaceIdEncoding.offset_by_one.rendered 1 ≠ FaceIdEncoding.offset_by_one.no_face ∧
    FaceIdEncoding.offset_by_one.decode (FaceIdEncoding.offset_by_one.rendered 1) = 1 ∧
    (∀ (provoking : Fin 3) (model view projection : Matrix (Fin 4) (Fin 4) ℚ)
        (p0 p1 p2 : Vec3 ℚ) (id0 id1 id2 : Nat),
      faceid_pixel provoking model view projection p0 p1 p2 id0 id1 id2 =
        flat_input provoking id0 id1 id2) ∧
    (∀ (provoking : Fin 3) (model view projection : Matrix (Fin 4) (Fin 4) ℚ)
        (p0 p1 p2 : Vec3 ℚ),
      faceid_pixel provoking model view projection p0 p1 p2
        (FaceIdEncoding.offset_by_one.rendered 1) (FaceIdEncoding.offset_by_one.rendered 1)
        (FaceIdEncoding.offset_by_one.rendered 1) = FaceIdEncoding.offset_by_one.rendered 1) :=
  ⟨by decide, by decide,
    no_face_never_collides FaceIdEncoding.offset_by_one 2 1 (by decide) (by decide)⟩

/-- Membership in the one-pass extraction of the visible set, started from
`seen`. -/
theorem mem_foldl_visible (e : FaceIdEncoding) (buffer : List Nat) (seen : Finset Nat) (id : Nat) :
    id ∈ buffer.foldl
        (fun seen value => if value = e.no_face then seen else insert (e.decode value) seen) seen ↔
      id ∈ seen ∨ ∃ value ∈ buffer, value ≠ e.no_face ∧ e.decode value = id := by
  induction buffer generalizing seen with
  | nil => simp
  | cons v rest ih =>
    rw [List.foldl_cons, ih]
    by_cases hv : v = e.no_face
    · simp [hv]
    · simp only [hv, if_false, Finset.mem_insert, List.mem_cons, exists_eq_or_imp, ne_eq,
        not_false_eq_true, true_and]
      constructor
      · rintro ((h | h) | h)
        · exact Or.inr (Or.inl h.symm)
        · exact Or.inl h
        · exact Or.inr (Or.inr h)
      · rintro (h | h | h)
        · exact Or.inl (Or.inr h)
        · exact Or.inl (Or.inl h.symm)
        · exact Or.inr h

theorem Planner.mem_VisibleFaces {α View : Type} (P : Planner α View) (view_matrix : View)
    (image_width image_height : Nat) (focal_y : α) (id : Nat) :
    id ∈ P.VisibleFaces view_matrix image_width image_height focal_y ↔
      ∃ value ∈ P.RenderFaceIdFromCamera view_matrix image_width image_height focal_y,
        value ≠ P.encoding.no_face ∧ P.encoding.decode value = id := by
  unfold Planner.VisibleFaces
  rw [mem_foldl_visible]
  simp

/-- C7: `VisibleFaces` holds exactly the face ids denoted by the non-sentinel
values of the buffer `RenderFaceIdFromCamera` returns for the same arguments
(with an explicit sentinel these are the non-sentinel values themselves); when
every buffer element is "no face" or the value rendered for a valid id of a
fitting encoding, every returned id lies in `[0, numFaces)`. -/
theorem visible_faces_are_buffer_values {α View : Type} (P : Planner α View) (view_matrix : View)
    (image_width image_height : Nat) (focal_y : α)
    (hfit : P.encoding.fits P.numFaces)
    (hbuffer : ∀ value ∈ P.RenderFaceIdFromCamera view_matrix image_width image_height focal_y,
      value = P.encoding.no_face ∨ ∃ id, id < P.numFaces ∧ value = P.encoding.rendered id) :
    (∀ id, id ∈ P.VisibleFaces view_matrix image_width image_height focal_y ↔
      ∃ value ∈ P.RenderFaceIdFromCamera view_matrix image_width image_height focal_y,
        value ≠ P.encoding.no_face ∧ P.encoding.decode value = id) ∧
    (∀ sentinel_value, P.encoding = FaceIdEncoding.out_of_range sentinel_value →
      ∀ id, id ∈ P.VisibleFaces view_matrix image_width image_height focal_y ↔
        id ∈ P.RenderFaceIdFromCamera view_matrix image_width image_height focal_y ∧
          id ≠ P.encoding.no_face) ∧
    (∀ id ∈ P.VisibleFaces view_matrix image_width image_height focal_y, id < P.numFaces) := by
  refine ⟨fun id => P.mem_VisibleFaces view_matrix image_width image_height focal_y id, ?_, ?_⟩
  · intro sentinel_value he id
    rw [P.mem_VisibleFaces, he]
    simp only [FaceIdEncoding.decode]
    constructor
    · rintro ⟨value, hmem, hne, rfl⟩
      exact ⟨hmem, hne⟩
    · rintro ⟨hmem, hne⟩
      exact ⟨id, hmem, hne, rfl⟩
  · intro id hid
    rw [P.mem_VisibleFaces] at hid
    obtain ⟨value, hmem, hne, hdec⟩ := hid
    rcases hbuffer value hmem with h | ⟨id2, hlt, hval⟩
    · exact absurd h hne
    · rw [hval, P.encoding.decode_rendered P.numFaces id2 hfit hlt] at hdec
      rw [← hdec]
      exact hlt

theorem square_planner_buffer_above :
    square_planner.RenderFaceIdFromCamera ⟨0, 0, 5⟩ 640 480 500 = [0, 1, 1, 2, 2, 0] := by
  simp [square_planner]

theorem square_planner_buffer_below :
    square_planner.RenderFaceIdFromCamera ⟨0, 0, -5⟩ 640 480 500 = [0, 0, 0, 0, 0, 0] := by
  simp [square_planner]

/-- The hypotheses of C7 hold for the test planner seen from above. -/
theorem visible_faces_are_buffer_values_witness :
    square_planner.encoding.fits square_planner.numFaces ∧
    (∀ value ∈ square_planner.RenderFaceIdFromCamera ⟨0, 0, 5⟩ 640 480 500,
      value = square_planner.encoding.no_face ∨
        ∃ id, id < square_planner.numFaces ∧ value = square_planner.encoding.rendered id) ∧
    (∀ id, id ∈ square_planner.VisibleFaces ⟨0, 0, 5⟩ 640 480 500 ↔
      ∃ value ∈ square_planner.RenderFaceIdFromCamera ⟨0, 0, 5⟩ 640 480 500,
        value ≠ square_planner.encoding.no_face ∧ square_planner.encoding.decode value = id) ∧
    (∀ sentinel_value, square_planner.encoding = FaceIdEncoding.out_of_range sentinel_value →
      ∀ id, id ∈ square_planner.VisibleFaces ⟨0, 0, 5⟩ 640 480 500 ↔
        id ∈ square_planner.RenderFaceIdFromCamera ⟨0, 0, 5⟩ 640 480 500 ∧
          id ≠ square_planner.encoding.no_face) ∧
    (∀ id ∈ square_planner.VisibleFaces ⟨0, 0, 5⟩ 640 480 500, id < square_planner.numFaces) :=
  have hfit : square_planner.encoding.fits square_planner.numFaces := by decide
  have hbuffer : ∀ value ∈ square_planner.RenderFaceIdFromCamera ⟨0, 0, 5⟩ 640 480 500,
      value = square_planner.encoding.no_face ∨
        ∃ id, id < square_planner.numFaces ∧ value = square_planner.encoding.rendered id := by
    rw [square_planner_buffer_above]
    intro value hv
    simp only [List.mem_cons, List.mem_singleton, List.not_mem_nil, or_false] at hv
    rcases hv with h | h | h | h | h | h <;> subst h
    · exact Or.inl rfl
    · exact Or.inr ⟨0, by decide, by decide⟩
    · exact Or.inr ⟨0, by decide, by decide⟩
    · exact Or.inr ⟨1, by decide, by decide⟩
    · exact Or.inr ⟨1, by decide, by decide⟩
    · exact Or.inl rfl
  ⟨hfit, hbuffer,
    visible_faces_are_buffer_values square_planner ⟨0, 0, 5⟩ 640 480 500 hfit hbuffer⟩

/-! ## The position cost -/

theorem Planner.VisibleFaces_eq_empty {α View : Type} (P : Planner α View) (view_matrix : View)
    (image_width image_height : Nat) (focal_y : α)
    (hnone : ∀ value ∈ P.RenderFaceIdFromCamera view_matrix image_width image_height focal_y,
      value = P.encoding.no_face) :
    P.VisibleFaces view_matrix image_width image_height focal_y = ∅ := by
  apply Finset.eq_empty_of_forall_not_mem
  intro id hid
  rw [P.mem_VisibleFaces] at hid
  obtain ⟨value, hmem, hne, _⟩ := hid
  exact hne (hnone value hmem)

/-- C8: a pose whose FaceID buffer shows no face has an empty visible set, and
for every pose with an empty visible set `CostFunctionPosition` is the
worst-case cost, positive infinity. -/
theorem empty_visible_set_worst_case {α View : Type} [LinearOrderedField α]
    (P : Planner α View) (view_matrix : View) (image_width image_height : Nat) (focal_y : α) :
    ((∀ value ∈ P.RenderFaceIdFromCamera view_matrix image_width image_height focal_y,
        value = P.encoding.no_face) →
      P.VisibleFaces view_matrix image_width image_height focal_y = ∅) ∧
    (P.VisibleFaces view_matrix image_width image_height focal_y = ∅ →
      P.CostFunctionPosition view_matrix image_width image_height focal_y = ⊤) := by
  constructor
  · exact P.VisibleFaces_eq_empty view_matrix image_width image_height focal_y
  · intro hempty
    unfold Planner.CostFunctionPosition
    simp [hempty]

/-- The hypotheses of C8 hold for the test planner seen from below: the buffer
shows no face, so the position cost is the worst case. -/
theorem empty_visible_set_worst_case_witness :
    (∀ value ∈ square_planner.RenderFaceIdFromCamera ⟨0, 0, -5⟩ 640 480 500,
        value = square_planner.encoding.no_face) ∧
    square_planner.VisibleFaces ⟨0, 0, -5⟩ 640 480 500 = ∅ ∧
    square_planner.CostFunctionPosition ⟨0, 0, -5⟩ 640 480 500 = ⊤ :=
  have hnone : ∀ value ∈ square_planner.RenderFaceIdFromCamera ⟨0, 0, -5⟩ 640 480 500,
      value = square_planner.encoding.no_face := by
    rw [square_planner_buffer_below]
    intro value hv
    simp only [List.mem_cons, List.mem_singleton, List.not_mem_nil, or_false, or_self] at hv
    subst hv
    rfl
  have h := empty_visible_set_worst_case square_planner ⟨0, 0, -5⟩ 640 480 500
  ⟨hnone, h.1 hnone, h.2 (h.1 hnone)⟩

theorem Planner.coverage_minimal_iff {α View : Type} [LinearOrderedField α]
    (P : Planner α View) (count : α) :
    (∀ x : α, P.coverage_deviation count ≤ P.coverage_deviation x) ↔ count = P.coverage_target := by
  unfold Planner.coverage_deviation
  constructor
  · intro h
    have h0 := h P.coverage_target
    rw [sub_self, abs_zero] at h0
    have h1 : |count - P.coverage_target| = 0 := le_antisymm h0 (abs_nonneg _)
    exact sub_eq_zero.mp (abs_eq_zero.mp h1)
  · intro h x
    rw [h, sub_self, abs_zero]
    exact abs_nonneg _

/-- With the ratio target the coverage target of the two-face test planner is
`8 / 5`, which is no number of faces: the count 2 has the least coverage term
of all counts and differs from the target. -/
theorem coverage_minimum_off_target :
    ({ square_planner with coverage_policy := .fraction } : Planner ℚ (Vec3 ℚ)).coverage_target =
      8 / 5 ∧
    (∀ n : Nat,
      ({ square_planner with coverage_policy := .fraction } : Planner ℚ (Vec3 ℚ)).coverage_term 2 ≤
        ({ square_planner with coverage_policy := .fraction } :
          Planner ℚ (Vec3 ℚ)).coverage_term n) ∧
    ((2 : Nat) : ℚ) ≠
      ({ square_planner with coverage_policy := .fraction } : Planner ℚ (Vec3 ℚ)).coverage_target := by
  have htarget : ({ square_planner with coverage_policy := .fraction } :
      Planner ℚ (Vec3 ℚ)).coverage_target = 8 / 5 := by
    simp [Planner.coverage_target, square_planner]
    norm_num
  refine ⟨htarget, ?_, ?_⟩
  · intro n
    simp only [Planner.coverage_term, Planner.coverage_deviation, htarget]
    rcases Nat.lt_or_ge n 2 with hn | hn
    · have h1 : (n : ℚ) ≤ 1 := by exact_mod_cast Nat.le_of_lt_succ hn
      rw [abs_of_nonneg (by norm_num), abs_of_nonpos (by linarith)]
      push_cast
      linarith
    · have h2 : (2 : ℚ) ≤ (n : ℚ) := by exact_mod_cast hn
      rw [abs_of_nonneg (by norm_num), abs_of_nonneg (by linarith)]
      push_cast
      linarith
  · rw [htarget]
    norm_num

/-- Seen from a point on the normal through the center, at distance `t > 0`,
the direction toward the camera is the unit normal itself. -/
theorem normalize_along_normal (normal center : Vec3 ℝ) (t : ℝ) (ht : 0 < t)
    (hunit : Vec3.dot normal normal = 1) :
    Vec3.normalize Real.sqrt (Vec3.sub (Vec3.add center (Vec3.smul t normal)) center) = normal := by
  have hsub : Vec3.sub (Vec3.add center (Vec3.smul t normal)) center = Vec3.smul t normal := by
    simp [Vec3.sub, Vec3.add, Vec3.smul]
  have hdot : Vec3.dot (Vec3.smul t normal) (Vec3.smul t normal) = t ^ 2 := by
    have h : Vec3.dot (Vec3.smul t normal) (Vec3.smul t normal) =
        t ^ 2 * Vec3.dot normal normal := by
      simp only [Vec3.dot, Vec3.smul]
      ring
    rw [h, hunit, mul_one]
  rw [hsub]
  unfold Vec3.normalize
  rw [hdot, Real.sqrt_sq ht.le]
  have ht0 : t ≠ 0 := ht.ne.symm
  cases normal with
  | mk x y z =>
    simp only [Vec3.smul]
    congr 1 <;> field_simp

/-- C10: for a face of the input set that the geometry cache knows,
`FaceAngles` has an entry under the face id, equal to
`arccos(clamp(dot(normal, normalize(cameraPosition - faceCenter)), -1, 1))`;
the value lies in `[0, pi]`, and it is 0 when the camera is at
`center + t * normal` for a unit normal and `t > 0`. -/
theorem face_angles_entry {View : Type} (P : Planner ℝ View)
    (hsqrt : P.sqrt = Real.sqrt) (harccos : P.arccos = Real.arccos)
    (faces : Finset Nat) (view_matrix : View) (id : Nat) (hid : id ∈ faces)
    (normal center : Vec3 ℝ)
    (hnormal : P.face_normals_[id]? = some normal) (hcenter : P.face_centers_[id]? = some center) :
    ∃ angle, P.FaceAngles faces view_matrix id = some angle ∧
      angle = Real.arccos (clamp (Vec3.dot normal (Vec3.normalize Real.sqrt
        (Vec3.sub (P.camera_position view_matrix) center))) (-1) 1) ∧
      0 ≤ angle ∧ angle ≤ Real.pi ∧
      (∀ t : ℝ, 0 < t → Vec3.dot normal normal = 1 →
        P.camera_position view_matrix = Vec3.add center (Vec3.smul t normal) → angle = 0) := by
  refine ⟨_, ?_, rfl, Real.arccos_nonneg _, Real.arccos_le_pi _, ?_⟩
  · unfold Planner.FaceAngles
    simp only [hid, if_true, hnormal, hcenter, Planner.face_angle, hsqrt, harccos]
  · intro t ht hunit hcam
    rw [hcam, normalize_along_normal normal center t ht hunit, hunit]
    simp [clamp]

/-- The hypotheses of C10 hold for the one-face planner over the reals, seen
from height 5 above the face center. -/
theorem face_angles_entry_witness :
    (one_face_planner ℝ Real.sqrt Real.arccos).sqrt = Real.sqrt ∧
    (one_face_planner ℝ Real.sqrt Real.arccos).arccos = Real.arccos ∧
    0 ∈ ({0} : Finset Nat) ∧
    (one_face_planner ℝ Real.sqrt Real.arccos).face_normals_[0]? = some ⟨0, 0, 1⟩ ∧
    (one_face_planner ℝ Real.sqrt Real.arccos).face_centers_[0]? = some ⟨0, 0, 0⟩ ∧
    ∃ angle, (one_face_planner ℝ Real.sqrt Real.arccos).FaceAngles {0} ⟨0, 0, 5⟩ 0 = some angle ∧
      angle = Real.arccos (clamp (Vec3.dot (⟨0, 0, 1⟩ : Vec3 ℝ) (Vec3.normalize Real.sqrt
        (Vec3.sub ((one_face_planner ℝ Real.sqrt Real.arccos).camera_position ⟨0, 0, 5⟩)
          ⟨0, 0, 0⟩))) (-1) 1) ∧
      0 ≤ angle ∧ angle ≤ Real.pi ∧
      (∀ t : ℝ, 0 < t → Vec3.dot (⟨0, 0, 1⟩ : Vec3 ℝ) ⟨0, 0, 1⟩ = 1 →
        (one_face_planner ℝ Real.sqrt Real.arccos).camera_position ⟨0, 0, 5⟩ =
          Vec3.add ⟨0, 0, 0⟩ (Vec3.smul t ⟨0, 0, 1⟩) → angle = 0) :=
  ⟨rfl, rfl, Finset.mem_singleton_self 0, rfl, rfl,
    face_angles_entry (one_face_planner ℝ Real.sqrt Real.arccos) rfl rfl {0} ⟨0, 0, 5⟩ 0
      (Finset.mem_singleton_self 0) ⟨0, 0, 1⟩ ⟨0, 0, 0⟩ rfl rfl⟩

/-! ## The two rasterization passes -/

theorem measure_pixel_eq {α : Type} [Semiring α] (provoking : Fin 3)
    (model view projection : Matrix (Fin 4) (Fin 4) α) (p0 p1 p2 : Vec3 α) (m0 m1 m2 : α) :
    measure_pixel provoking model view projection p0 p1 p2 m0 m1 m2 =
      flat_input provoking m0 m1 m2 := by
  unfold measure_pixel measure_frag_source measure_vert_source flat_input
  split <;> rfl

/-- C13: for the same vertex position and the same model, view and projection
matrices the FaceID and the Measure vertex shader compute the same clip-space
position, `projection * view * model * (position, 1)`, and each pass writes to
the pixel the attribute of the provoking vertex, with no interpolation. -/
theorem faceid_and_measure_same_projection {α : Type} [Semiring α]
    (model view projection : Matrix (Fin 4) (Fin 4) α) (in_position : Vec3 α)
    (in_face_id : Nat) (in_measure : α) :
    (faceid_vert_source model view projection in_position in_face_id).gl_Position =
      (measure_vert_source model view projection in_position in_measure).gl_Position ∧
    (measure_vert_source model view projection in_position in_measure).gl_Position =
      Matrix.mulVec projection (Matrix.mulVec view (Matrix.mulVec model
        ![in_position.x, in_position.y, in_position.z, 1])) ∧
    (faceid_vert_source model view projection in_position in_face_id).face_id = in_face_id ∧
    (measure_vert_source model view projection in_position in_measure).measure = in_measure ∧
    (∀ (provoking : Fin 3) (p0 p1 p2 : Vec3 α) (id0 id1 id2 : Nat),
      faceid_pixel provoking model view projection p0 p1 p2 id0 id1 id2 =
        flat_input provoking id0 id1 id2) ∧
    (∀ (provoking : Fin 3) (p0 p1 p2 : Vec3 α) (m0 m1 m2 : α),
      measure_pixel provoking model view projection p0 p1 p2 m0 m1 m2 =
        flat_input provoking m0 m1 m2) := by
  refine ⟨rfl, ?_, rfl, rfl, ?_, ?_⟩
  · simp only [measure_vert_source, Matrix.mulVec_mulVec, Matrix.mul_assoc]
  · intro provoking p0 p1 p2 id0 id1 id2
    exact faceid_pixel_eq provoking model view projection p0 p1 p2 id0 id1 id2
  · intro provoking p0 p1 p2 m0 m1 m2
    exact measure_pixel_eq provoking model view projection p0 p1 p2 m0 m1 m2

/-! ## Existing reconstruction cameras -/

theorem Vec3.eq_of_dot_sub_self_le {α : Type} [LinearOrderedField α] (p q : Vec3 α)
    (h : Vec3.dot (Vec3.sub p q) (Vec3.sub p q) ≤ 0) : q = p := by
  cases p with
  | mk px py pz =>
    cases q with
    | mk qx qy qz =>
      simp only [Vec3.dot, Vec3.sub] at h
      have hx := mul_self_nonneg (px - qx)
      have hy := mul_self_nonneg (py - qy)
      have hz := mul_self_nonneg (pz - qz)
      have hx0 : (px - qx) * (px - qx) = 0 := by linarith
      have hy0 : (py - qy) * (py - qy) = 0 := by linarith
      have hz0 : (pz - qz) * (pz - qz) = 0 := by linarith
      have ex : qx = px := (sub_eq_zero.mp (mul_self_eq_zero.mp hx0)).symm
      have ey : qy = py := (sub_eq_zero.mp (mul_self_eq_zero.mp hy0)).symm
      have ez : qz = pz := (sub_eq_zero.mp (mul_self_eq_zero.mp hz0)).symm
      rw [ex, ey, ez]

theorem Planner.CameraDistances_at_recorded {α View : Type} [LinearOrderedField α]
    (P : Planner α View) (hsqrt_zero : P.sqrt 0 = 0) (view_matrix : View) (c : Nat)
    (hc : P.camera_positions_[c]? = some (P.camera_position view_matrix)) :
    P.CameraDistances view_matrix c = some 0 := by
  unfold Planner.CameraDistances
  rw [hc]
  simp [Vec3.sub, Vec3.dot, hsqrt_zero]

/-- C11: when the pose's position equals the recorded position of camera `c`,
`CameraDistances` gives distance 0 for `c`, no camera has a negative distance,
and `ClosestCameraID` returns a camera at distance 0, recorded at that very
position; it is `c` itself when no other camera is recorded there. -/
theorem closest_camera_at_recorded_position {α View : Type} [LinearOrderedField α]
    (P : Planner α View) (hsqrt_zero : P.sqrt 0 = 0) (hsqrt_nonneg : ∀ x, 0 ≤ P.sqrt x)
    (hsqrt_pos : ∀ x, 0 < x → 0 < P.sqrt x) (view_matrix : View) (c : Nat)
    (hc : P.camera_positions_[c]? = some (P.camera_position view_matrix)) :
    P.CameraDistances view_matrix c = some 0 ∧
    (∀ other distance, P.CameraDistances view_matrix other = some distance → 0 ≤ distance) ∧
    ∃ id, P.ClosestCameraID view_matrix = some id ∧
      P.CameraDistances view_matrix id = some 0 ∧
      P.camera_positions_[id]? = some (P.camera_position view_matrix) ∧
      ((∀ other, P.camera_positions_[other]? = some (P.camera_position view_matrix) →
          other = c) → id = c) := by
  have hdc := P.CameraDistances_at_recorded hsqrt_zero view_matrix c hc
  refine ⟨hdc, ?_, ?_⟩
  · intro other distance hd
    unfold Planner.CameraDistances at hd
    split at hd
    · rw [← Option.some.inj hd]
      exact hsqrt_nonneg _
    · exact absurd hd (by simp)
  · have hclt : c < P.camera_positions_.length := by
      rcases List.getElem?_eq_some.mp hc with ⟨h, _⟩
      exact h
    have hcmem : c ∈ List.range P.camera_positions_.length := List.mem_range.mpr hclt
    have hne : P.ClosestCameraID view_matrix ≠ none := by
      unfold Planner.ClosestCameraID
      rw [Ne, List.argmin_eq_none]
      intro hnil
      rw [hnil] at hcmem
      exact absurd hcmem (List.not_mem_nil c)
    obtain ⟨id, hid⟩ := Option.ne_none_iff_exists'.mp hne
    have hidmem : id ∈ List.range P.camera_positions_.length := by
      unfold Planner.ClosestCameraID at hid
      exact List.argmin_mem hid
    have hle := List.le_of_mem_argmin hcmem (by unfold Planner.ClosestCameraID at hid; exact hid)
    simp only [hdc, Option.getD_some] at hle
    have hidlt : id < P.camera_positions_.length := List.mem_range.mp hidmem
    obtain ⟨recorded, hrec⟩ : ∃ recorded, P.camera_positions_[id]? = some recorded :=
      ⟨P.camera_positions_[id], List.getElem?_eq_getElem hidlt⟩
    have hdid : P.CameraDistances view_matrix id =
        some (P.sqrt (Vec3.dot (Vec3.sub (P.camera_position view_matrix) recorded)
          (Vec3.sub (P.camera_position view_matrix) recorded))) := by
      unfold Planner.CameraDistances
      rw [hrec]
    rw [hdid, Option.getD_some] at hle
    have hzero : P.sqrt (Vec3.dot (Vec3.sub (P.camera_position view_matrix) recorded)
        (Vec3.sub (P.camera_position view_matrix) recorded)) = 0 :=
      le_antisymm hle (hsqrt_nonneg _)
    have hdot : Vec3.dot (Vec3.sub (P.camera_position view_matrix) recorded)
        (Vec3.sub (P.camera_position view_matrix) recorded) ≤ 0 := by
      by_contra hpos
      have := hsqrt_pos _ (not_le.mp hpos)
      rw [hzero] at this
      exact lt_irrefl _ this
    have hsame : recorded = P.camera_position view_matrix :=
      Vec3.eq_of_dot_sub_self_le _ _ hdot
    refine ⟨id, hid, ?_, ?_, ?_⟩
    · rw [hdid, hzero]
    · rw [hrec, hsame]
    · intro hunique
      exact hunique id (by rw [hrec, hsame])

/-- The hypotheses of C11 hold for the two-camera test planner and a pose at
camera 1. -/
theorem closest_camera_at_recorded_position_witness :
    two_camera_planner.sqrt 0 = 0 ∧ (∀ x, 0 ≤ two_camera_planner.sqrt x) ∧
    (∀ x, 0 < x → 0 < two_camera_planner.sqrt x) ∧
    two_camera_planner.camera_positions_[1]? =
      some (two_camera_planner.camera_position ⟨3, 0, 4⟩) ∧
    two_camera_planner.CameraDistances ⟨3, 0, 4⟩ 1 = some 0 ∧
    (∀ other distance,
      two_camera_planner.CameraDistances ⟨3, 0, 4⟩ other = some distance → 0 ≤ distance) ∧
    ∃ id, two_camera_planner.ClosestCameraID ⟨3, 0, 4⟩ = some id ∧
      two_camera_planner.CameraDistances ⟨3, 0, 4⟩ id = some 0 ∧
      two_camera_planner.camera_positions_[id]? =
        some (two_camera_planner.camera_position ⟨3, 0, 4⟩) ∧
      ((∀ other, two_camera_planner.camera_positions_[other]? =
          some (two_camera_planner.camera_position ⟨3, 0, 4⟩) → other = 1) → id = 1) :=
  have h0 : two_camera_planner.sqrt 0 = 0 := abs_zero
  have hnonneg : ∀ x, 0 ≤ two_camera_planner.sqrt x := fun x => abs_nonneg x
  have hpos : ∀ x, 0 < x → 0 < two_camera_planner.sqrt x := fun _ hx => abs_pos.mpr hx.ne.symm
  ⟨h0, hnonneg, hpos, rfl,
    closest_camera_at_recorded_position two_camera_planner h0 hnonneg hpos ⟨3, 0, 4⟩ 1 rfl⟩

/-! ## The geometry cache -/

/-- `Initialize` on a mesh with faces whose corners all resolve, in closed
form. -/
theorem Planner.Initialize_ok {α View : Type} [Field α] (P : Planner α View) (mesh : Mesh α)
    (reference_view : View) (image_width image_height : Nat) (focal_y : α)
    (hfaces : mesh.faces ≠ []) (cs : List (Vec3 α × Vec3 α × Vec3 α))
    (hcs : mesh.all_corners mesh.faces = some cs) :
    P.Initialize mesh reference_view image_width image_height focal_y =
      .ok { P with
            numFaces := mesh.faces.length
            face_centers_ := cs.map face_center
            face_normals_ := cs.map (face_normal P.sqrt)
            ppa_ := cs.enum.map (fun ic => pixels_per_area P.sqrt P.encoding
              (P.RenderFaceIdFromCamera reference_view image_width image_height focal_y)
              ic.1 ic.2) } := by
  unfold Planner.Initialize
  rw [if_neg hfaces, hcs]

theorem mesh_with_flat_face_corners (α : Type) [Field α] :
    (mesh_with_flat_face α).all_corners (mesh_with_flat_face α).faces =
      some [(⟨0, 0, 0⟩, ⟨1, 0, 0⟩, ⟨0, 1, 0⟩), (⟨0, 0, 0⟩, ⟨1, 0, 0⟩, ⟨2, 0, 0⟩)] := by
  simp [Mesh.all_corners, Mesh.corners, mesh_with_flat_face]

/-- The condition on the cross product cannot be dropped: on a mesh whose
second face has its three corners on one line, `Initialize` succeeds and caches
two normals, and what it caches for that face, where the cross product is zero
and has no normalization, is not a unit vector. -/
theorem flat_face_normal_not_unit :
    ∃ Q, (one_face_planner ℝ Real.sqrt Real.arccos).Initialize (mesh_with_flat_face ℝ)
        ⟨0, 0, 5⟩ 640 480 500 = .ok Q ∧
      Q.face_normals_.length = 2 ∧
      ∃ normal, Q.face_normals_[1]? = some normal ∧ Vec3.dot normal normal ≠ 1 := by
  refine ⟨_, Planner.Initialize_ok _ (mesh_with_flat_face ℝ) ⟨0, 0, 5⟩ 640 480 500
    (by simp [mesh_with_flat_face]) _ (mesh_with_flat_face_corners ℝ), by simp, ?_⟩
  refine ⟨face_normal Real.sqrt (⟨0, 0, 0⟩, ⟨1, 0, 0⟩, ⟨2, 0, 0⟩), by simp [one_face_planner], ?_⟩
  simp [face_normal, face_cross, Vec3.normalize, Vec3.cross, Vec3.sub, Vec3.dot]

theorem NextBestViewMember.reachable_by_caller_iff (m : NextBestViewMember) :
    m.reachable_by_caller ↔ m = .mvs_scene_ ∨ m = .ppa_ := by
  unfold NextBestViewMember.reachable_by_caller
  constructor
  · rintro (⟨hd, ha⟩ | ⟨f, _, _, hm⟩)
    · cases m <;> simp_all [NextBestViewMember.is_data, NextBestViewMember.access]
    · cases f <;> simp_all [NextBestViewMember.exposes]
  · rintro (h | h)
    · subst h
      exact Or.inl ⟨rfl, rfl⟩
    · subst h
      exact Or.inr ⟨.PixelsPerArea, rfl, rfl, by simp [NextBestViewMember.exposes]⟩

/-- C14, as stated, fails: `downscale_factor_` is a private data member and no
public member of `NextBestView` takes or hands out a downscale factor, so a
caller cannot change it. -/
theorem downscale_factor_not_reachable :
    NextBestViewMember.downscale_factor_.access = Access.is_private ∧
    ¬ NextBestViewMember.downscale_factor_.reachable_by_caller := by
  refine ⟨rfl, ?_⟩
  rw [NextBestViewMember.reachable_by_caller_iff]
  simp

/-- C14, amended: a freshly constructed `NextBestView` has
`downscale_factor_ = 4`; the member is private, and the data members a caller
can reach through the public interface are `mvs_scene_` and `ppa_` only, so the
factor is a fixed default, not a configuration. -/
theorem downscale_factor_default (mvs_scene : Scene) :
    (NextBestView.construct mvs_scene).downscale_factor_ = 4 ∧
    NextBestViewMember.downscale_factor_.access = Access.is_private ∧
    (∀ m : NextBestViewMember, m.reachable_by_caller ↔ m = .mvs_scene_ ∨ m = .ppa_) := by
  refine ⟨?_, rfl, NextBestViewMember.reachable_by_caller_iff⟩
  simp only [NextBestView.construct]
  norm_num

/-- C15, as stated, fails: both coverage targets are private data members and
no public member of `NextBestView` takes or hands out either of them, so they
can be neither read nor set through the public interface. -/
theorem coverage_targets_not_reachable :
    NextBestViewMember.visible_faces_target_.access = Access.is_private ∧
    NextBestViewMember.visibility_ratio_target_.access = Access.is_private ∧
    ¬ NextBestViewMember.visible_faces_target_.reachable_by_caller ∧
    ¬ NextBestViewMember.visibility_ratio_target_.reachable_by_caller := by
  refine ⟨rfl, rfl, ?_, ?_⟩
  · rw [NextBestViewMember.reachable_by_caller_iff]
    simp
  · rw [NextBestViewMember.reachable_by_caller_iff]
    simp

/-- C15, amended: both coverage targets exist as private data members of a
freshly constructed `NextBestView`, `visible_faces_target_ = 20` and
`visibility_ratio_target_ = 0.8`; the data members a caller can reach through the
public interface are `mvs_scene_` and `ppa_` only. -/
theorem coverage_targets_default (mvs_scene : Scene) :
    (NextBestView.construct mvs_scene).visible_faces_target_ = 20 ∧
    (NextBestView.construct mvs_scene).visibility_ratio_target_ = 4 / 5 ∧
    NextBestViewMember.visible_faces_target_.access = Access.is_private ∧
    NextBestViewMember.visibility_ratio_target_.access = Access.is_private ∧
    (∀ m : NextBestViewMember, m.reachable_by_caller ↔ m = .mvs_scene_ ∨ m = .ppa_) := by
  refine ⟨rfl, ?_, rfl, rfl, NextBestViewMember.reachable_by_caller_iff⟩
  simp only [NextBestView.construct]
  norm_num

/-! ## The render plugin: pose forms -/

theorem RenderPlugin.view_matrix_set_camera_pose (E : RenderEnv) (s : RenderPlugin) (V : Mat4) :
    (s.set_camera_pose E V).view_matrix E = pose_view E V := by
  simp only [RenderPlugin.view_matrix, RenderPlugin.set_camera_pose, pose_view]
  norm_num

theorem translation_of_translation_matrix (t : Vec3 ℚ) :
    translation_of (translation_matrix t) = t := by
  cases t
  simp [translation_of, translation_matrix]

/-- The view matrix right after `set_camera_pose(V)` when the library
round-trips at `V`. -/
theorem RenderPlugin.view_matrix_of_round_trip (E : RenderEnv) (s : RenderPlugin) (V : Mat4)
    (hinverse : E.inverse (E.inverse V) = V)
    (hcomponents : E.RecomposeMatrixFromComponents
      (E.DecomposeMatrixToComponents (E.inverse V)).1
      (E.DecomposeMatrixToComponents (E.inverse V)).2.1 ⟨1, 1, 1⟩ = E.inverse V) :
    (s.set_camera_pose E V).view_matrix E = V := by
  rw [RenderPlugin.view_matrix_set_camera_pose, pose_view, hcomponents, hinverse]

theorem pose_matrix_of_last_row (M : Mat4) (h0 : M 3 0 = 0) (h1 : M 3 1 = 0) (h2 : M 3 2 = 0)
    (h3 : M 3 3 = 1) : pose_matrix (rotation_block M) (translation_of M) = M := by
  ext i j
  fin_cases i <;> fin_cases j <;> simp [pose_matrix, rotation_block, translation_of, h0, h1, h2, h3]

theorem rotation_block_pose_matrix (R : Matrix (Fin 3) (Fin 3) ℚ) (t : Vec3 ℚ) :
    rotation_block (pose_matrix R t) = R := by
  ext i j
  fin_cases i <;> fin_cases j <;> simp [pose_matrix, rotation_block]

theorem translation_of_pose_matrix (R : Matrix (Fin 3) (Fin 3) ℚ) (t : Vec3 ℚ) :
    translation_of (pose_matrix R t) = t := by
  cases t
  simp [pose_matrix, translation_of]

theorem pose_matrix_mul (R S : Matrix (Fin 3) (Fin 3) ℚ) (t u : Vec3 ℚ) :
    pose_matrix R t * pose_matrix S u =
      pose_matrix (R * S) ⟨(rotate R u).x + t.x, (rotate R u).y + t.y, (rotate R u).z + t.z⟩ := by
  ext i j
  fin_cases i <;> fin_cases j <;>
    simp [pose_matrix, rotate, Matrix.mul_apply, Fin.sum_univ_four, Fin.sum_univ_three]

theorem pose_matrix_one : pose_matrix 1 ⟨0, 0, 0⟩ = 1 := by
  ext i j
  fin_cases i <;> fin_cases j <;> simp [pose_matrix, Matrix.vecHead, Matrix.vecTail]

theorem rotate_mul (R S : Matrix (Fin 3) (Fin 3) ℚ) (v : Vec3 ℚ) :
    rotate R (rotate S v) = rotate (R * S) v := by
  simp only [rotate, Matrix.mul_apply, Fin.sum_univ_three, Vec3.mk.injEq]
  refine ⟨by ring, by ring, by ring⟩

theorem rotate_one (v : Vec3 ℚ) : rotate 1 v = v := by
  cases v
  simp [rotate]

theorem rotate_neg (R : Matrix (Fin 3) (Fin 3) ℚ) (v : Vec3 ℚ) :
    rotate R ⟨-v.x, -v.y, -v.z⟩ = ⟨-(rotate R v).x, -(rotate R v).y, -(rotate R v).z⟩ := by
  simp only [rotate, Vec3.mk.injEq]
  refine ⟨by ring, by ring, by ring⟩

theorem is_rigid_mul_rigid_inverse (M : Mat4) (h : is_rigid M) :
    M * rigid_inverse M = 1 ∧ rigid_inverse M * M = 1 ∧ is_rigid (rigid_inverse M) := by
  obtain ⟨h0, h1, h2, h3, horth, hdet⟩ := h
  have horth2 : rotation_block M * Matrix.transpose (rotation_block M) = 1 :=
    Matrix.mul_eq_one_comm.mp horth
  have hM := pose_matrix_of_last_row M h0 h1 h2 h3
  refine ⟨?_, ?_, ?_⟩
  · have e : M * rigid_inverse M =
        pose_matrix (rotation_block M) (translation_of M) * rigid_inverse M := by rw [hM]
    rw [e, rigid_inverse, pose_matrix_mul, horth2, rotate_mul, horth2, rotate_one]
    simp only [neg_add_cancel]
    exact pose_matrix_one
  · have e : rigid_inverse M * M =
        rigid_inverse M * pose_matrix (rotation_block M) (translation_of M) := by rw [hM]
    rw [e, rigid_inverse, pose_matrix_mul, horth, rotate_neg]
    simp only [add_neg_cancel]
    exact pose_matrix_one
  · unfold rigid_inverse
    refine ⟨by simp [pose_matrix], by simp [pose_matrix], by simp [pose_matrix],
      by simp [pose_matrix], ?_, ?_⟩
    · rw [rotation_block_pose_matrix, Matrix.transpose_transpose]
      exact horth2
    · rw [rotation_block_pose_matrix, Matrix.det_transpose]
      exact hdet

theorem unpack_row_pack_row (a b c : ℚ) : unpack_row (pack_row a b c) = (a, b, c) := by
  simp [unpack_row, pack_row]

theorem matrix_inverse_eq (M N : Mat4) (h : M * N = 1) : matrix_inverse M = N := by
  have hinv : M⁻¹ = N := Matrix.inv_eq_right_inv h
  rw [← hinv, Matrix.inv_def, Ring.inverse_eq_inv']
  rfl

theorem rows_env_components (M : Mat4) (h : is_rigid M) :
    rows_env.RecomposeMatrixFromComponents (rows_env.DecomposeMatrixToComponents M).1
      (rows_env.DecomposeMatrixToComponents M).2.1
      (rows_env.DecomposeMatrixToComponents M).2.2 = M := by
  obtain ⟨h0, h1, h2, h3, -, -⟩ := h
  ext i j
  fin_cases i <;> fin_cases j <;>
    simp [rows_env, unpack_row_pack_row, translation_of, h0, h1, h2, h3]

theorem is_rigid_quarter_turn_pose : is_rigid quarter_turn_pose := by
  refine ⟨by simp [quarter_turn_pose, pose_matrix, Matrix.vecHead, Matrix.vecTail],
    by simp [quarter_turn_pose, pose_matrix, Matrix.vecHead, Matrix.vecTail],
    by simp [quarter_turn_pose, pose_matrix, Matrix.vecHead, Matrix.vecTail],
    by simp [quarter_turn_pose, pose_matrix, Matrix.vecHead, Matrix.vecTail], ?_, ?_⟩
  · rw [quarter_turn_pose, rotation_block_pose_matrix]
    ext i j
    fin_cases i <;> fin_cases j <;>
      simp [Matrix.mul_apply, Fin.sum_univ_three, Matrix.transpose_apply, Matrix.vecHead,
        Matrix.vecTail]
  · rw [quarter_turn_pose, rotation_block_pose_matrix]
    simp [Matrix.det_fin_three]

theorem quarter_turn_pose_mul_inverse :
    quarter_turn_pose * pose_matrix !![0, 1, 0; -1, 0, 0; 0, 0, 1] ⟨-2, 1, -3⟩ = 1 := by
  rw [quarter_turn_pose, pose_matrix_mul]
  have hR : (!![0, -1, 0; 1, 0, 0; 0, 0, 1] : Matrix (Fin 3) (Fin 3) ℚ) *
      !![0, 1, 0; -1, 0, 0; 0, 0, 1] = 1 := by
    ext i j
    fin_cases i <;> fin_cases j <;>
      simp [Matrix.mul_apply, Fin.sum_univ_three, Matrix.vecHead, Matrix.vecTail]
  rw [hR]
  have ht : (⟨(rotate !![0, -1, 0; 1, 0, 0; 0, 0, 1] ⟨-2, 1, -3⟩).x + (1 : ℚ),
      (rotate !![0, -1, 0; 1, 0, 0; 0, 0, 1] ⟨-2, 1, -3⟩).y + 2,
      (rotate !![0, -1, 0; 1, 0, 0; 0, 0, 1] ⟨-2, 1, -3⟩).z + 3⟩ : Vec3 ℚ) = ⟨0, 0, 0⟩ := by
    simp [rotate, Matrix.vecHead, Matrix.vecTail]
  rw [ht]
  exact pose_matrix_one

/-- C16: for a pose library in which `inverse` returns the inverse of a rigid
matrix and the decomposition of a rigid matrix has unit scale and recomposes to
that matrix, and for every rigid view matrix `V`: `set_camera_pose(V)` stores
the translation and rotation of the inverse of `V`, which is rigid; recomposed
with unit scale they give that inverse back; and the view matrix that
`render_callback` and `save_render_callback` compute from them equals `V`: it
is what `render_callback` renders from and what `save_render_callback`
records. -/
theorem pose_forms_equivalent (E : RenderEnv) (s : RenderPlugin)
    (hinverse : ∀ M N : Mat4, is_rigid M → M * N = 1 → E.inverse M = N)
    (hcomponents : ∀ M : Mat4, is_rigid M →
      E.RecomposeMatrixFromComponents (E.DecomposeMatrixToComponents M).1
        (E.DecomposeMatrixToComponents M).2.1 (E.DecomposeMatrixToComponents M).2.2 = M)
    (hscale : ∀ M : Mat4, is_rigid M → (E.DecomposeMatrixToComponents M).2.2 = ⟨1, 1, 1⟩)
    (V : Mat4) (hrigid : is_rigid V) :
    (s.set_camera_pose E V).view_matrix E = V ∧
    ((s.set_camera_pose E V).render_callback E).events = [RenderEvent.RenderFromCamera V 0] ∧
    ((s.set_camera_pose E V).save_render_callback E).state.rendered_poses_ =
      s.rendered_poses_ ++ [V] ∧
    is_rigid (E.inverse V) ∧ V * E.inverse V = 1 ∧
    (s.set_camera_pose E V).camera_pos_ = (E.DecomposeMatrixToComponents (E.inverse V)).1 ∧
    (s.set_camera_pose E V).camera_rot_ = (E.DecomposeMatrixToComponents (E.inverse V)).2.1 ∧
    E.RecomposeMatrixFromComponents (s.set_camera_pose E V).camera_pos_
      (s.set_camera_pose E V).camera_rot_ ⟨1, 1, 1⟩ = E.inverse V := by
  obtain ⟨hright, hleft, hrigid_inverse⟩ := is_rigid_mul_rigid_inverse V hrigid
  have hV : E.inverse V = rigid_inverse V := hinverse V _ hrigid hright
  have hback : E.inverse (E.inverse V) = V := by
    rw [hV]
    exact hinverse _ V hrigid_inverse hleft
  have hrecompose : E.RecomposeMatrixFromComponents
      (E.DecomposeMatrixToComponents (E.inverse V)).1
      (E.DecomposeMatrixToComponents (E.inverse V)).2.1 ⟨1, 1, 1⟩ = E.inverse V := by
    have h := hcomponents (E.inverse V) (by rw [hV]; exact hrigid_inverse)
    rw [hscale (E.inverse V) (by rw [hV]; exact hrigid_inverse)] at h
    exact h
  have hview : (s.set_camera_pose E V).view_matrix E = V :=
    s.view_matrix_of_round_trip E V hback hrecompose
  refine ⟨hview, ?_, ?_, ?_, ?_, rfl, rfl, hrecompose⟩
  · simp only [RenderPlugin.render_callback, hview]
  · simp only [RenderPlugin.save_render_callback, hview]
    rfl
  · rw [hV]
    exact hrigid_inverse
  · rw [hV]
    exact hright

/-- The hypotheses of C16 hold for the test library with rotation, at the
quarter turn about the z axis followed by the translation by `(1, 2, 3)`. -/
theorem pose_forms_equivalent_witness :
    (∀ M N : Mat4, is_rigid M → M * N = 1 → rows_env.inverse M = N) ∧
    (∀ M : Mat4, is_rigid M →
      rows_env.RecomposeMatrixFromComponents (rows_env.DecomposeMatrixToComponents M).1
        (rows_env.DecomposeMatrixToComponents M).2.1
        (rows_env.DecomposeMatrixToComponents M).2.2 = M) ∧
    (∀ M : Mat4, is_rigid M → (rows_env.DecomposeMatrixToComponents M).2.2 = ⟨1, 1, 1⟩) ∧
    is_rigid quarter_turn_pose ∧
    rows_env.inverse quarter_turn_pose =
      pose_matrix !![0, 1, 0; -1, 0, 0; 0, 0, 1] ⟨-2, 1, -3⟩ ∧
    (test_render_plugin.set_camera_pose rows_env quarter_turn_pose).view_matrix rows_env =
      quarter_turn_pose ∧
    ((test_render_plugin.set_camera_pose rows_env quarter_turn_pose).render_callback
      rows_env).events = [RenderEvent.RenderFromCamera quarter_turn_pose 0] ∧
    ((test_render_plugin.set_camera_pose rows_env
      quarter_turn_pose).save_render_callback rows_env).state.rendered_poses_ =
      test_render_plugin.rendered_poses_ ++ [quarter_turn_pose] :=
  have hinverse : ∀ M N : Mat4, is_rigid M → M * N = 1 → rows_env.inverse M = N :=
    fun M N _ h => matrix_inverse_eq M N h
  have hscale : ∀ M : Mat4, is_rigid M →
      (rows_env.DecomposeMatrixToComponents M).2.2 = ⟨1, 1, 1⟩ := fun _ _ => rfl
  ⟨hinverse, rows_env_components, hscale, is_rigid_quarter_turn_pose,
    hinverse _ _ is_rigid_quarter_turn_pose quarter_turn_pose_mul_inverse,
    (pose_forms_equivalent rows_env test_render_plugin hinverse rows_env_components hscale
      quarter_turn_pose is_rigid_quarter_turn_pose).1,
    (pose_forms_equivalent rows_env test_render_plugin hinverse rows_env_components hscale
      quarter_turn_pose is_rigid_quarter_turn_pose).2.1,
    (pose_forms_equivalent rows_env test_render_plugin hinverse rows_env_components hscale
      quarter_turn_pose is_rigid_quarter_turn_pose).2.2.1⟩

/-! ## The render plugin: generated poses -/

theorem to_size_t_of_nonneg (x : Int) (h0 : 0 ≤ x) (hint : is_int32 x) :
    to_size_t x = x.toNat := by
  unfold to_size_t
  unfold is_int32 at hint
  rw [Int.emod_eq_of_lt h0 (by omega)]

theorem to_size_t_lt_iff (x : Int) (n : Nat) (h0 : 0 ≤ x) (hint : is_int32 x) :
    to_size_t x < n ↔ x < (n : Int) := by
  rw [to_size_t_of_nonneg x h0 hint]
  omega

/-- The callback when the index is in range. -/
theorem RenderPlugin.set_generated_pose_callback_in_range (E : RenderEnv) (s : RenderPlugin)
    (hint : is_int32 s.selected_pose_) (h0 : 0 ≤ s.selected_pose_)
    (hlt : s.selected_pose_ < (s.generated_poses_.length : Int)) :
    ∃ V, s.generated_poses_[s.selected_pose_.toNat]? = some V ∧
      s.set_generated_pose_callback E = some { state := s.set_camera_pose E V } := by
  have hsz := to_size_t_of_nonneg s.selected_pose_ h0 hint
  have hlt2 : s.selected_pose_.toNat < s.generated_poses_.length := by omega
  refine ⟨s.generated_poses_[s.selected_pose_.toNat], List.getElem?_eq_getElem hlt2, ?_⟩
  unfold RenderPlugin.set_generated_pose_callback
  rw [hsz, if_pos ⟨h0, hlt2⟩, List.getElem?_eq_getElem hlt2]

/-- The callback when the index is out of range. -/
theorem RenderPlugin.set_generated_pose_callback_out_of_range (E : RenderEnv) (s : RenderPlugin)
    (hint : is_int32 s.selected_pose_)
    (hout : ¬ (0 ≤ s.selected_pose_ ∧ s.selected_pose_ < (s.generated_poses_.length : Int))) :
    s.set_generated_pose_callback E = some { state := s } := by
  unfold RenderPlugin.set_generated_pose_callback
  rw [if_neg]
  rintro ⟨h0, hlt⟩
  exact hout ⟨h0, (to_size_t_lt_iff _ _ h0 hint).mp hlt⟩

/-- C19: for every `int` value of `selected_pose_`, `set_generated_pose_callback`
never reads past the end of `generated_poses_`; when `0 <= selected_pose_ <
size` it sets the pose from the element at that index, and for every other
value it leaves the whole state, so `camera_pos_` and `camera_rot_`,
unchanged. -/
theorem set_generated_pose_guarded (E : RenderEnv) (s : RenderPlugin)
    (hint : is_int32 s.selected_pose_) :
    ∃ o, s.set_generated_pose_callback E = some o ∧ o.events = [] ∧
      (0 ≤ s.selected_pose_ ∧ s.selected_pose_ < (s.generated_poses_.length : Int) →
        ∃ V, s.generated_poses_[s.selected_pose_.toNat]? = some V ∧
          o.state = s.set_camera_pose E V) ∧
      (¬ (0 ≤ s.selected_pose_ ∧ s.selected_pose_ < (s.generated_poses_.length : Int)) →
        o.state = s ∧ o.state.camera_pos_ = s.camera_pos_ ∧
          o.state.camera_rot_ = s.camera_rot_) := by
  by_cases hin : 0 ≤ s.selected_pose_ ∧ s.selected_pose_ < (s.generated_poses_.length : Int)
  · obtain ⟨V, hV, hcall⟩ := s.set_generated_pose_callback_in_range E hint hin.1 hin.2
    exact ⟨_, hcall, rfl, fun _ => ⟨V, hV, rfl⟩, fun hout => absurd hin hout⟩
  · exact ⟨_, s.set_generated_pose_callback_out_of_range E hint hin, rfl,
      fun h => absurd h hin, fun _ => ⟨rfl, rfl, rfl⟩⟩

/-- The hypothesis of C19 holds for the test plugin with the index one past
the end of its three generated poses, where the pose stays as it was. -/
theorem set_generated_pose_guarded_witness :
    is_int32 past_end_render_plugin.selected_pose_ ∧
    ∃ o, past_end_render_plugin.set_generated_pose_callback (translation_env []) = some o ∧
      o.events = [] ∧
      (0 ≤ past_end_render_plugin.selected_pose_ ∧
        past_end_render_plugin.selected_pose_ <
          (past_end_render_plugin.generated_poses_.length : Int) →
        ∃ V, past_end_render_plugin.generated_poses_[
            past_end_render_plugin.selected_pose_.toNat]? = some V ∧
          o.state = past_end_render_plugin.set_camera_pose (translation_env []) V) ∧
      (¬ (0 ≤ past_end_render_plugin.selected_pose_ ∧
        past_end_render_plugin.selected_pose_ <
          (past_end_render_plugin.generated_poses_.length : Int)) →
        o.state = past_end_render_plugin ∧
          o.state.camera_pos_ = past_end_render_plugin.camera_pos_ ∧
          o.state.camera_rot_ = past_end_render_plugin.camera_rot_) :=
  ⟨by decide, set_generated_pose_guarded (translation_env []) past_end_render_plugin (by decide)⟩

/-! ## The render plugin: recording renders -/

theorem wrap_int32_of_is_int32 (x : Int) (h : is_int32 x) : wrap_int32 x = x := by
  unfold wrap_int32
  unfold is_int32 at h
  omega

/-- One render and one save after the pose was set from `V`. -/
theorem RenderPlugin.render_and_save_after_pose (E : RenderEnv) (s : RenderPlugin) (V : Mat4)
    (events : List RenderEvent)
    (hidx : is_int32 (s.next_image_idx_ + 1)) (hsel : is_int32 (s.selected_pose_ + 1)) :
    ((({ state := s.set_camera_pose E V, events := events } : RenderOutcome).next
        (render_callback E)).next (save_render_callback E)) =
      { state := { s.set_camera_pose E V with
                    render_data_ := .rendered (pose_view E V) 0
                    image_names_ := s.image_names_ ++ [frame_filename s.next_image_idx_]
                    rendered_poses_ := s.rendered_poses_ ++ [pose_view E V]
                    next_image_idx_ := s.next_image_idx_ + 1
                    selected_pose_ := s.selected_pose_ + 1 }
        events := events ++
          [.RenderFromCamera (pose_view E V) 0,
           .SaveRender (s.images_path_ ++ frame_filename s.next_image_idx_) 0
             (.rendered (pose_view E V) 0),
           .pushed (frame_filename s.next_image_idx_) (pose_view E V),
           .log ("Render: Image saved to: \n\t" ++
             (s.images_path_ ++ frame_filename s.next_image_idx_))] } := by
  have hv : (s.set_camera_pose E V).view_matrix E = pose_view E V :=
    s.view_matrix_set_camera_pose E V
  have hv2 : ({ s.set_camera_pose E V with
      render_data_ := RenderData.rendered (pose_view E V) 0 } : RenderPlugin).view_matrix E =
      pose_view E V := hv
  simp only [RenderOutcome.next, RenderPlugin.render_callback, RenderPlugin.save_render_callback,
    hv, hv2, List.append_assoc, List.cons_append, List.nil_append]
  have h1 : (s.set_camera_pose E V).next_image_idx_ = s.next_image_idx_ := rfl
  have h2 : (s.set_camera_pose E V).selected_pose_ = s.selected_pose_ := rfl
  have h3 : (s.set_camera_pose E V).image_names_ = s.image_names_ := rfl
  have h4 : (s.set_camera_pose E V).rendered_poses_ = s.rendered_poses_ := rfl
  have h5 : (s.set_camera_pose E V).images_path_ = s.images_path_ := rfl
  simp only [h1, h2, h3, h4, h5, wrap_int32_of_is_int32 _ hidx, wrap_int32_of_is_int32 _ hsel]

/-- C20: with `reconstruction_plugin_` set, `selected_pose_ = k`,
`next_image_idx_ = n`, `0 <= k`, `k + 1 < generated_poses_.size()` and both
counters two below the largest `int`, `initialize_reconstruction_callback`
renders and saves twice, first from generated pose `k` under the name for `n`,
then from generated pose `k + 1` under the name for `n + 1`, ends with
`selected_pose_ = k + 2` and `next_image_idx_ = n + 2`, and calls the
reconstruction plugin's `initialize_callback` last. -/
theorem initialize_reconstruction_two_renders (E : RenderEnv) (s : RenderPlugin)
    (hlink : s.reconstruction_plugin_ = true)
    (hk0 : 0 ≤ s.selected_pose_)
    (hk1 : s.selected_pose_ + 1 < (s.generated_poses_.length : Int))
    (hk2 : s.selected_pose_ + 2 < 2 ^ 31)
    (hn : is_int32 s.next_image_idx_) (hn2 : s.next_image_idx_ + 2 < 2 ^ 31) :
    ∃ o Gk Gk1,
      s.initialize_reconstruction_callback E = some o ∧
      s.generated_poses_[s.selected_pose_.toNat]? = some Gk ∧
      s.generated_poses_[s.selected_pose_.toNat + 1]? = some Gk1 ∧
      o.state.image_names_ = s.image_names_ ++
        [frame_filename s.next_image_idx_, frame_filename (s.next_image_idx_ + 1)] ∧
      o.state.rendered_poses_ = s.rendered_poses_ ++ [pose_view E Gk, pose_view E Gk1] ∧
      o.state.selected_pose_ = s.selected_pose_ + 2 ∧
      o.state.next_image_idx_ = s.next_image_idx_ + 2 ∧
      o.events =
        [.RenderFromCamera (pose_view E Gk) 0,
         .SaveRender (s.images_path_ ++ frame_filename s.next_image_idx_) 0
           (.rendered (pose_view E Gk) 0),
         .pushed (frame_filename s.next_image_idx_) (pose_view E Gk),
         .log ("Render: Image saved to: \n\t" ++
           (s.images_path_ ++ frame_filename s.next_image_idx_)),
         .RenderFromCamera (pose_view E Gk1) 0,
         .SaveRender (s.images_path_ ++ frame_filename (s.next_image_idx_ + 1)) 0
           (.rendered (pose_view E Gk1) 0),
         .pushed (frame_filename (s.next_image_idx_ + 1)) (pose_view E Gk1),
         .log ("Render: Image saved to: \n\t" ++
           (s.images_path_ ++ frame_filename (s.next_image_idx_ + 1))),
         .reconstruction_initialize_callback] := by
  have hkint : is_int32 s.selected_pose_ := by
    unfold is_int32
    omega
  have hk1int : is_int32 (s.selected_pose_ + 1) := by
    unfold is_int32
    omega
  have hk2int : is_int32 (s.selected_pose_ + 1 + 1) := by
    unfold is_int32
    omega
  have hn1int : is_int32 (s.next_image_idx_ + 1) := by
    unfold is_int32 at hn ⊢
    omega
  have hn2int : is_int32 (s.next_image_idx_ + 1 + 1) := by
    unfold is_int32 at hn ⊢
    omega
  obtain ⟨Gk, hGk, hcall1⟩ :=
    s.set_generated_pose_callback_in_range E hkint hk0 (by omega)
  -- the state after the first render and save
  have hstep1 := s.render_and_save_after_pose E Gk [] hn1int hk1int
  obtain ⟨Gk1, hGk1, hcall2⟩ := RenderPlugin.set_generated_pose_callback_in_range E
    ({ s.set_camera_pose E Gk with
        render_data_ := .rendered (pose_view E Gk) 0
        image_names_ := s.image_names_ ++ [frame_filename s.next_image_idx_]
        rendered_poses_ := s.rendered_poses_ ++ [pose_view E Gk]
        next_image_idx_ := s.next_image_idx_ + 1
        selected_pose_ := s.selected_pose_ + 1 } : RenderPlugin)
    hk1int (by show 0 ≤ s.selected_pose_ + 1; omega)
    (by show s.selected_pose_ + 1 < (s.generated_poses_.length : Int); exact hk1)
  have hidx : (s.selected_pose_ + 1).toNat = s.selected_pose_.toNat + 1 := by omega
  unfold RenderPlugin.initialize_reconstruction_callback
  rw [hcall1]
  simp only [Option.bind]
  rw [hstep1]
  simp only [RenderOutcome.andThen, hcall2, List.nil_append]
  rw [RenderPlugin.render_and_save_after_pose E _ Gk1 _ hn2int hk2int]
  simp only [RenderPlugin.set_camera_pose, hlink, if_true]
  refine ⟨_, Gk, Gk1, rfl, hGk, ?_, ?_⟩
  · have h := hGk1
    simp only [RenderPlugin.set_camera_pose] at h
    rw [← hidx]
    exact h
  · refine ⟨?_, ?_, ?_, ?_, ?_⟩
    · simp [RenderPlugin.set_camera_pose]
    · simp [RenderPlugin.set_camera_pose]
    · simp only [RenderPlugin.set_camera_pose]
      omega
    · simp only [RenderPlugin.set_camera_pose]
      omega
    · simp [RenderPlugin.set_camera_pose, add_assoc]

/-- The hypotheses of C20 hold for the test plugin: linked, `k = 0`, `n = 0`,
three generated poses. -/
theorem initialize_reconstruction_two_renders_witness :
    test_render_plugin.reconstruction_plugin_ = true ∧
    0 ≤ test_render_plugin.selected_pose_ ∧
    test_render_plugin.selected_pose_ + 1 < (test_render_plugin.generated_poses_.length : Int) ∧
    test_render_plugin.selected_pose_ + 2 < 2 ^ 31 ∧
    is_int32 test_render_plugin.next_image_idx_ ∧
    test_render_plugin.next_image_idx_ + 2 < 2 ^ 31 ∧
    ∃ o Gk Gk1,
      test_render_plugin.initialize_reconstruction_callback (translation_env []) = some o ∧
      test_render_plugin.generated_poses_[test_render_plugin.selected_pose_.toNat]? = some Gk ∧
      test_render_plugin.generated_poses_[test_render_plugin.selected_pose_.toNat + 1]? =
        some Gk1 ∧
      o.state.image_names_ = test_render_plugin.image_names_ ++
        [frame_filename test_render_plugin.next_image_idx_,
         frame_filename (test_render_plugin.next_image_idx_ + 1)] ∧
      o.state.rendered_poses_ = test_render_plugin.rendered_poses_ ++
        [pose_view (translation_env []) Gk, pose_view (translation_env []) Gk1] ∧
      o.state.selected_pose_ = test_render_plugin.selected_pose_ + 2 ∧
      o.state.next_image_idx_ = test_render_plugin.next_image_idx_ + 2 ∧
      o.events =
        [.RenderFromCamera (pose_view (translation_env []) Gk) 0,
         .SaveRender (test_render_plugin.images_path_ ++
             frame_filename test_render_plugin.next_image_idx_) 0
           (.rendered (pose_view (translation_env []) Gk) 0),
         .pushed (frame_filename test_render_plugin.next_image_idx_)
           (pose_view (translation_env []) Gk),
         .log ("Render: Image saved to: \n\t" ++
           (test_render_plugin.images_path_ ++
             frame_filename test_render_plugin.next_image_idx_)),
         .RenderFromCamera (pose_view (translation_env []) Gk1) 0,
         .SaveRender (test_render_plugin.images_path_ ++
             frame_filename (test_render_plugin.next_image_idx_ + 1)) 0
           (.rendered (pose_view (translation_env []) Gk1) 0),
         .pushed (frame_filename (test_render_plugin.next_image_idx_ + 1))
           (pose_view (translation_env []) Gk1),
         .log ("Render: Image saved to: \n\t" ++
           (test_render_plugin.images_path_ ++
             frame_filename (test_render_plugin.next_image_idx_ + 1))),
         .reconstruction_initialize_callback] :=
  ⟨rfl, by decide, by decide, by decide, by decide, by decide,
    initialize_reconstruction_two_renders (translation_env []) test_render_plugin rfl
      (by decide) (by decide) (by decide) (by decide) (by decide)⟩

/-! ## The render plugin: extending the reconstruction -/

/-- `extend_reconstruction_callback` with a linked next-best-view plugin that
returns a non-empty list of best views: the pose is set from the first
element, then one render is made and saved. -/
theorem RenderPlugin.extend_reconstruction_callback_nonempty (E : RenderEnv) (s : RenderPlugin)
    (nbv : NextBestViewPlugin) (V : Mat4) (rest : List Mat4)
    (hnbv : s.nbv_plugin_ = some nbv)
    (hviews : E.get_initial_best_views (E.nbv_initialize_callback nbv) = V :: rest)
    (hidx : is_int32 (s.next_image_idx_ + 1)) (hsel : is_int32 (s.selected_pose_ + 1)) :
    ∃ o, s.extend_reconstruction_callback E = some o ∧
      o.state.camera_pos_ = (E.DecomposeMatrixToComponents (E.inverse V)).1 ∧
      o.state.camera_rot_ = (E.DecomposeMatrixToComponents (E.inverse V)).2.1 ∧
      o.state.image_names_ = s.image_names_ ++ [frame_filename s.next_image_idx_] ∧
      o.state.rendered_poses_ = s.rendered_poses_ ++ [pose_view E V] ∧
      o.state.next_image_idx_ = s.next_image_idx_ + 1 ∧
      pushed_pairs o.events = [(frame_filename s.next_image_idx_, pose_view E V)] := by
  unfold RenderPlugin.extend_reconstruction_callback
  simp only [hnbv, hviews, List.head?_cons]
  rw [RenderPlugin.render_and_save_after_pose E
    { s with nbv_plugin_ := some (E.nbv_initialize_callback nbv) } V _ hidx hsel]
  exact ⟨_, rfl, rfl, rfl, rfl, rfl, rfl, rfl⟩

/-- C17 at the failing input: the test plugin is linked to a next-best-view
plugin whose list of best views is empty; `extend_reconstruction_callback`
then reads `front()` of the empty list, and so does a frame in which "Compute
NBV and extend" is clicked. -/
theorem extend_reconstruction_reads_empty_list :
    test_render_plugin.nbv_plugin_ = some fresh_plugin ∧
    (translation_env []).get_initial_best_views
      ((translation_env []).nbv_initialize_callback fresh_plugin) = [] ∧
    test_render_plugin.extend_reconstruction_callback (translation_env []) = none ∧
    test_render_plugin.post_draw (translation_env []) { compute_nbv_and_extend := true } =
      none := by
  refine ⟨rfl, rfl, rfl, ?_⟩
  rfl

/-! ## The render plugin: the name list and the pose list -/

theorem pushed_pairs_append (a b : List RenderEvent) :
    pushed_pairs (a ++ b) = pushed_pairs a ++ pushed_pairs b := by
  induction a with
  | nil => rfl
  | cons e rest ih =>
    cases e <;> simp [pushed_pairs, ih]

theorem RenderOutcome.Paired.start (s : RenderPlugin) :
    ({ state := s } : RenderOutcome).Paired s.image_names_ s.rendered_poses_ := by
  simp [RenderOutcome.Paired, pushed_pairs]

theorem RenderOutcome.Paired.thenState {names : List String} {poses : List Mat4}
    {o : RenderOutcome} (h : o.Paired names poses) {f : RenderPlugin → RenderPlugin}
    (hf : KeepsLists f) : (o.thenState f).Paired names poses := by
  unfold RenderOutcome.Paired RenderOutcome.thenState
  exact ⟨(hf o.state).1.trans h.1, (hf o.state).2.trans h.2⟩

theorem RenderOutcome.Paired.next {names : List String} {poses : List Mat4}
    {o : RenderOutcome} (h : o.Paired names poses) {f : RenderPlugin → RenderOutcome}
    (hf : ∀ s, (f s).Paired s.image_names_ s.rendered_poses_) :
    (o.next f).Paired names poses := by
  unfold RenderOutcome.Paired RenderOutcome.next
  simp only [pushed_pairs_append, List.map_append]
  rw [(hf o.state).1, (hf o.state).2, h.1, h.2]
  simp

theorem RenderOutcome.Paired.andThen {names : List String} {poses : List Mat4}
    {o o2 : RenderOutcome} (h : o.Paired names poses) {f : RenderPlugin → Option RenderOutcome}
    (hf : ∀ s r, f s = some r → r.Paired s.image_names_ s.rendered_poses_)
    (ho : o.andThen f = some o2) : o2.Paired names poses := by
  unfold RenderOutcome.andThen at ho
  split at ho
  · exact absurd ho (by simp)
  · rename_i r hr
    simp only [Option.some.injEq] at ho
    subst ho
    have hr2 := hf o.state r hr
    unfold RenderOutcome.Paired at hr2 h ⊢
    simp only [pushed_pairs_append, List.map_append]
    rw [hr2.1, hr2.2, h.1, h.2]
    simp

theorem RenderOutcome.Paired.onInput {α : Type} {names : List String} {poses : List Mat4}
    {o : RenderOutcome} (h : o.Paired names poses) (input : Option α)
    {f : α → RenderPlugin → RenderPlugin} (hf : ∀ v, KeepsLists (f v)) :
    (o.onInput input f).Paired names poses := by
  unfold RenderOutcome.onInput
  cases input with
  | none => exact h
  | some v => exact h.thenState (hf v)

theorem RenderOutcome.Paired.onClick {names : List String} {poses : List Mat4}
    {o : RenderOutcome} (h : o.Paired names poses) (clicked : Bool)
    {f : RenderPlugin → RenderOutcome}
    (hf : ∀ s, (f s).Paired s.image_names_ s.rendered_poses_) :
    (o.onClick clicked f).Paired names poses := by
  unfold RenderOutcome.onClick
  cases clicked with
  | false => exact h
  | true => exact h.next hf

theorem RenderOutcome.Paired.onClickOpt {names : List String} {poses : List Mat4}
    {o o2 : RenderOutcome} (h : o.Paired names poses) (clicked : Bool)
    {f : RenderPlugin → Option RenderOutcome}
    (hf : ∀ s r, f s = some r → r.Paired s.image_names_ s.rendered_poses_)
    (ho : o.onClickOpt clicked f = some o2) : o2.Paired names poses := by
  unfold RenderOutcome.onClickOpt at ho
  cases clicked with
  | false =>
    simp only [Bool.false_eq_true, if_false, Option.some.injEq] at ho
    subst ho
    exact h
  | true =>
    simp only [if_true] at ho
    exact h.andThen hf ho

theorem KeepsLists.set_camera_pose (E : RenderEnv) (V : Mat4) :
    KeepsLists (fun s => s.set_camera_pose E V) := fun _ => ⟨rfl, rfl⟩

theorem KeepsLists.show_camera (E : RenderEnv) : KeepsLists (RenderPlugin.show_camera E) := by
  intro s
  unfold RenderPlugin.show_camera
  split <;> exact ⟨rfl, rfl⟩

theorem KeepsLists.show_render_mesh (visible : Bool) :
    KeepsLists (fun s => s.show_render_mesh visible) := fun _ => ⟨rfl, rfl⟩

theorem KeepsLists.show_render_cameras (visible : Bool) :
    KeepsLists (fun s => s.show_render_cameras visible) := fun _ => ⟨rfl, rfl⟩

theorem KeepsLists.center_object (E : RenderEnv) : KeepsLists (RenderPlugin.center_object E) := by
  intro s
  unfold RenderPlugin.center_object
  constructor <;> (dsimp only; split <;> rfl)

theorem KeepsLists.set_render_mesh (E : RenderEnv) (mvs_scene : Scene) :
    KeepsLists (fun s => s.set_render_mesh E mvs_scene) := by
  intro s
  exact ⟨(KeepsLists.center_object E _).1, (KeepsLists.center_object E _).2⟩

theorem KeepsLists.set_render_cameras (E : RenderEnv) :
    KeepsLists (RenderPlugin.set_render_cameras E) := fun _ => ⟨rfl, rfl⟩

theorem KeepsLists.gizmo_widgets (ui : RenderFrame) :
    KeepsLists (RenderPlugin.gizmo_widgets ui) := by
  intro s
  unfold RenderPlugin.gizmo_widgets
  split
  · split <;> split <;> exact ⟨rfl, rfl⟩
  · exact ⟨rfl, rfl⟩

theorem KeepsLists.sync_gizmo (E : RenderEnv) : KeepsLists (RenderPlugin.sync_gizmo E) := by
  intro s
  unfold RenderPlugin.sync_gizmo
  split <;> exact ⟨rfl, rfl⟩

theorem KeepsLists.init (reconstruction : Bool) (nbv : Option NextBestViewPlugin) :
    KeepsLists (fun s => s.init reconstruction nbv) := by
  intro s
  simp only [RenderPlugin.init]
  by_cases h1 : s.reconstruction_plugin_ = true <;> by_cases h2 : s.nbv_plugin_.isSome = true <;>
    simp [h1, h2]

theorem RenderPlugin.render_callback_paired (E : RenderEnv) (s : RenderPlugin) :
    (s.render_callback E).Paired s.image_names_ s.rendered_poses_ := by
  simp [RenderOutcome.Paired, RenderPlugin.render_callback, pushed_pairs]

theorem RenderPlugin.save_render_callback_paired (E : RenderEnv) (s : RenderPlugin) :
    (s.save_render_callback E).Paired s.image_names_ s.rendered_poses_ := by
  simp [RenderOutcome.Paired, RenderPlugin.save_render_callback, pushed_pairs]

theorem RenderPlugin.initialize_scene_callback_paired (E : RenderEnv) (s : RenderPlugin) :
    (s.initialize_scene_callback E).Paired s.image_names_ s.rendered_poses_ := by
  unfold RenderOutcome.Paired RenderPlugin.initialize_scene_callback
  simp only [pushed_pairs, List.map_nil, List.append_nil]
  have h1 := KeepsLists.show_render_cameras true
  have h2 := KeepsLists.set_render_cameras E
  have h3 := KeepsLists.show_render_mesh true
  have h4 := KeepsLists.set_render_mesh E (E.Load (s.reconstruction_path_ ++ s.scene_name_ ++ ".mvs"))
  constructor
  · rw [(h1 _).1, (h2 _).1]
    exact ((h3 _).1.trans (h4 s).1)
  · rw [(h1 _).2, (h2 _).2]
    exact ((h3 _).2.trans (h4 s).2)

theorem RenderPlugin.set_generated_pose_callback_paired (E : RenderEnv) (s : RenderPlugin)
    (r : RenderOutcome) (h : s.set_generated_pose_callback E = some r) :
    r.Paired s.image_names_ s.rendered_poses_ := by
  unfold RenderPlugin.set_generated_pose_callback at h
  split at h
  · split at h
    · simp only [Option.some.injEq] at h
      subst h
      exact (RenderOutcome.Paired.start s).thenState (KeepsLists.set_camera_pose E _)
    · exact absurd h (by simp)
  · simp only [Option.some.injEq] at h
    subst h
    exact RenderOutcome.Paired.start s

theorem RenderPlugin.initialize_reconstruction_callback_paired (E : RenderEnv)
    (s : RenderPlugin) (r : RenderOutcome)
    (h : s.initialize_reconstruction_callback E = some r) :
    r.Paired s.image_names_ s.rendered_poses_ := by
  unfold RenderPlugin.initialize_reconstruction_callback at h
  obtain ⟨o1, h1, h⟩ := Option.bind_eq_some.mp h
  obtain ⟨o2, h2, h⟩ := Option.bind_eq_some.mp h
  have p1 := s.set_generated_pose_callback_paired E o1 h1
  have p2 := (p1.next (RenderPlugin.render_callback_paired E)).next
    (RenderPlugin.save_render_callback_paired E)
  have p3 := p2.andThen (RenderPlugin.set_generated_pose_callback_paired E) h2
  have p4 := (p3.next (RenderPlugin.render_callback_paired E)).next
    (RenderPlugin.save_render_callback_paired E)
  dsimp only at h
  split at h
  · simp only [Option.some.injEq] at h
    subst h
    unfold RenderOutcome.Paired at p4 ⊢
    simp only [pushed_pairs_append, List.map_append]
    simpa [pushed_pairs] using p4
  · exact absurd h (by simp)

theorem RenderPlugin.extend_reconstruction_callback_paired (E : RenderEnv)
    (s : RenderPlugin) (r : RenderOutcome)
    (h : s.extend_reconstruction_callback E = some r) :
    r.Paired s.image_names_ s.rendered_poses_ := by
  unfold RenderPlugin.extend_reconstruction_callback at h
  split at h
  · exact absurd h (by simp)
  · dsimp only at h
    split at h
    · exact absurd h (by simp)
    · simp only [Option.some.injEq] at h
      subst h
      refine RenderOutcome.Paired.next (RenderOutcome.Paired.next ?_
        (RenderPlugin.render_callback_paired E)) (RenderPlugin.save_render_callback_paired E)
      simp [RenderOutcome.Paired, pushed_pairs, RenderPlugin.set_camera_pose]

theorem RenderPlugin.post_draw_paired (E : RenderEnv) (s : RenderPlugin) (ui : RenderFrame)
    (r : RenderOutcome) (h : s.post_draw E ui = some r) :
    r.Paired s.image_names_ s.rendered_poses_ := by
  unfold RenderPlugin.post_draw at h
  obtain ⟨o1, h1, h⟩ := Option.bind_eq_some.mp h
  obtain ⟨o2, h2, h⟩ := Option.bind_eq_some.mp h
  simp only [Option.some.injEq] at h
  subst h
  have p0 : (RenderPlugin.post_draw_inputs E s ui).Paired s.image_names_ s.rendered_poses_ := by
    unfold RenderPlugin.post_draw_inputs
    refine RenderOutcome.Paired.thenState ?_ (KeepsLists.show_camera E)
    refine RenderOutcome.Paired.thenState ?_ (KeepsLists.gizmo_widgets ui)
    refine RenderOutcome.Paired.onInput ?_ _ ?hf
    case hf => intro v t; exact ⟨rfl, rfl⟩
    refine RenderOutcome.Paired.onInput ?_ _ ?hf
    case hf => intro v t; exact ⟨rfl, rfl⟩
    refine RenderOutcome.Paired.onInput ?_ _ ?hf
    case hf => intro v t; exact ⟨rfl, rfl⟩
    refine RenderOutcome.Paired.onInput ?_ _ ?hf
    case hf => intro v t; exact ⟨rfl, rfl⟩
    refine RenderOutcome.Paired.onInput ?_ _ ?hf
    case hf => intro v t; exact ⟨rfl, rfl⟩
    refine RenderOutcome.Paired.onInput ?_ _ ?hf
    case hf => intro v t; exact ⟨rfl, rfl⟩
    refine RenderOutcome.Paired.onClick ?_ _ (RenderPlugin.initialize_scene_callback_paired E)
    refine RenderOutcome.Paired.onInput ?_ _ ?hf
    case hf => intro v t; exact ⟨rfl, rfl⟩
    exact RenderOutcome.Paired.start s
  have p1 : o1.Paired s.image_names_ s.rendered_poses_ := by
    unfold RenderPlugin.post_draw_slider at h1
    refine RenderOutcome.Paired.onClickOpt ?_ _
      (RenderPlugin.set_generated_pose_callback_paired E) h1
    refine RenderOutcome.Paired.onInput ?_ _ ?hf
    case hf => intro v t; exact ⟨rfl, rfl⟩
    exact p0
  have p2 : (RenderPlugin.post_draw_render E o1 ui).Paired s.image_names_ s.rendered_poses_ := by
    unfold RenderPlugin.post_draw_render
    refine RenderOutcome.Paired.onInput ?_ _ ?hf
    case hf => intro v t; exact ⟨rfl, rfl⟩
    refine RenderOutcome.Paired.onClick ?_ _ (RenderPlugin.save_render_callback_paired E)
    exact RenderOutcome.Paired.onClick p1 _ (RenderPlugin.render_callback_paired E)
  have p3 : o2.Paired s.image_names_ s.rendered_poses_ := by
    unfold RenderPlugin.post_draw_link at h2
    split at h2
    · obtain ⟨o3, h3, h2⟩ := Option.bind_eq_some.mp h2
      exact RenderOutcome.Paired.onClickOpt
        (RenderOutcome.Paired.onClickOpt p2 _
          (RenderPlugin.initialize_reconstruction_callback_paired E) h3) _
        (RenderPlugin.extend_reconstruction_callback_paired E) h2
    · simp only [Option.some.injEq] at h2
      subst h2
      exact p2
  unfold RenderPlugin.post_draw_finish
  refine RenderOutcome.Paired.thenState ?_ (KeepsLists.sync_gizmo E)
  refine RenderOutcome.Paired.onClick p3 _ ?hf
  case hf => intro t; simp [RenderOutcome.Paired, pushed_pairs]

theorem RenderOp.apply_paired (E : RenderEnv) (s : RenderPlugin) (op : RenderOp)
    (r : RenderOutcome) (h : op.apply E s = some r) :
    r.Paired s.image_names_ s.rendered_poses_ := by
  cases op with
  | post_draw ui => exact s.post_draw_paired E ui r h
  | set_generated_pose_callback => exact s.set_generated_pose_callback_paired E r h
  | initialize_reconstruction_callback =>
    exact s.initialize_reconstruction_callback_paired E r h
  | extend_reconstruction_callback => exact s.extend_reconstruction_callback_paired E r h
  | initialize_scene_callback =>
    simp only [RenderOp.apply, Option.some.injEq] at h
    subst h
    exact s.initialize_scene_callback_paired E
  | render_callback =>
    simp only [RenderOp.apply, Option.some.injEq] at h
    subst h
    exact s.render_callback_paired E
  | save_render_callback =>
    simp only [RenderOp.apply, Option.some.injEq] at h
    subst h
    exact s.save_render_callback_paired E
  | init reconstruction nbv =>
    simp only [RenderOp.apply, Option.some.injEq] at h
    subst h
    exact (RenderOutcome.Paired.start s).thenState (KeepsLists.init reconstruction nbv)
  | show_camera =>
    simp only [RenderOp.apply, Option.some.injEq] at h
    subst h
    exact (RenderOutcome.Paired.start s).thenState (KeepsLists.show_camera E)
  | set_camera_pose V =>
    simp only [RenderOp.apply, Option.some.injEq] at h
    subst h
    exact (RenderOutcome.Paired.start s).thenState (KeepsLists.set_camera_pose E V)
  | set_render_mesh mvs_scene =>
    simp only [RenderOp.apply, Option.some.injEq] at h
    subst h
    exact (RenderOutcome.Paired.start s).thenState (KeepsLists.set_render_mesh E mvs_scene)
  | show_render_mesh visible =>
    simp only [RenderOp.apply, Option.some.injEq] at h
    subst h
    exact (RenderOutcome.Paired.start s).thenState (KeepsLists.show_render_mesh visible)
  | center_object =>
    simp only [RenderOp.apply, Option.some.injEq] at h
    subst h
    exact (RenderOutcome.Paired.start s).thenState (KeepsLists.center_object E)
  | set_render_cameras =>
    simp only [RenderOp.apply, Option.some.injEq] at h
    subst h
    exact (RenderOutcome.Paired.start s).thenState (KeepsLists.set_render_cameras E)
  | show_render_cameras visible =>
    simp only [RenderOp.apply, Option.some.injEq] at h
    subst h
    exact (RenderOutcome.Paired.start s).thenState (KeepsLists.show_render_cameras visible)
  | pre_draw | get_rendered_image_names | mouse_down | mouse_up | mouse_move | mouse_scroll
  | key_pressed | key_down | key_up =>
    simp only [RenderOp.apply, Option.some.injEq] at h
    subst h
    exact RenderOutcome.Paired.start s

theorem RenderOp.run_paired (E : RenderEnv) (ops : List RenderOp) (o r : RenderOutcome)
    (names : List String) (poses : List Mat4) (ho : o.Paired names poses)
    (h : RenderOp.run E o ops = some r) : r.Paired names poses := by
  induction ops generalizing o with
  | nil =>
    simp only [RenderOp.run, Option.some.injEq] at h
    subst h
    exact ho
  | cons op rest ih =>
    unfold RenderOp.run at h
    split at h
    · exact absurd h (by simp)
    · rename_i o2 ho2
      exact ih o2 (ho.andThen (fun s r hr => RenderOp.apply_paired E s op r hr) ho2) h

theorem zip_map_fst_snd {α β : Type} (l : List (α × β)) :
    List.zip (l.map Prod.fst) (l.map Prod.snd) = l := by
  induction l with
  | nil => rfl
  | cons a rest ih => simp [ih]

theorem RenderOutcome.Unchanged.thenState_same {names : List String} {poses : List Mat4}
    {o : RenderOutcome} (h : o.Unchanged names poses) {f : RenderPlugin → RenderPlugin}
    (hf : KeepsLists f) : (o.thenState f).Unchanged names poses :=
  ⟨(hf o.state).1.trans h.1, (hf o.state).2.trans h.2⟩

theorem RenderOutcome.Unchanged.next_same {names : List String} {poses : List Mat4}
    {o : RenderOutcome} (h : o.Unchanged names poses) {f : RenderPlugin → RenderOutcome}
    (hf : ∀ s, (f s).Unchanged s.image_names_ s.rendered_poses_) :
    (o.next f).Unchanged names poses :=
  ⟨(hf o.state).1.trans h.1, (hf o.state).2.trans h.2⟩

theorem RenderOutcome.Unchanged.andThen_same {names : List String} {poses : List Mat4}
    {o o2 : RenderOutcome} (h : o.Unchanged names poses) {f : RenderPlugin → Option RenderOutcome}
    (hf : ∀ s r, f s = some r → r.Unchanged s.image_names_ s.rendered_poses_)
    (ho : o.andThen f = some o2) : o2.Unchanged names poses := by
  unfold RenderOutcome.andThen at ho
  split at ho
  · exact absurd ho (by simp)
  · rename_i r hr
    simp only [Option.some.injEq] at ho
    subst ho
    exact ⟨(hf o.state r hr).1.trans h.1, (hf o.state r hr).2.trans h.2⟩

theorem RenderOutcome.Unchanged.onInput_same {α : Type} {names : List String} {poses : List Mat4}
    {o : RenderOutcome} (h : o.Unchanged names poses) (input : Option α)
    {f : α → RenderPlugin → RenderPlugin} (hf : ∀ v, KeepsLists (f v)) :
    (o.onInput input f).Unchanged names poses := by
  unfold RenderOutcome.onInput
  cases input with
  | none => exact h
  | some v => exact h.thenState_same (hf v)

theorem RenderOutcome.Unchanged.onClick_same {names : List String} {poses : List Mat4}
    {o : RenderOutcome} (h : o.Unchanged names poses) (clicked : Bool)
    {f : RenderPlugin → RenderOutcome}
    (hf : ∀ s, (f s).Unchanged s.image_names_ s.rendered_poses_) :
    (o.onClick clicked f).Unchanged names poses := by
  unfold RenderOutcome.onClick
  cases clicked with
  | false => exact h
  | true => exact h.next_same hf

theorem RenderOutcome.Unchanged.onClickOpt_same {names : List String} {poses : List Mat4}
    {o o2 : RenderOutcome} (h : o.Unchanged names poses) (clicked : Bool)
    {f : RenderPlugin → Option RenderOutcome}
    (hf : ∀ s r, f s = some r → r.Unchanged s.image_names_ s.rendered_poses_)
    (ho : o.onClickOpt clicked f = some o2) : o2.Unchanged names poses := by
  unfold RenderOutcome.onClickOpt at ho
  cases clicked with
  | false =>
    simp only [Bool.false_eq_true, if_false, Option.some.injEq] at ho
    subst ho
    exact h
  | true =>
    simp only [if_true] at ho
    exact h.andThen_same hf ho

theorem RenderPlugin.set_generated_pose_callback_unchanged (E : RenderEnv) (s : RenderPlugin)
    (r : RenderOutcome) (h : s.set_generated_pose_callback E = some r) :
    r.Unchanged s.image_names_ s.rendered_poses_ := by
  unfold RenderPlugin.set_generated_pose_callback at h
  split at h
  · split at h
    · simp only [Option.some.injEq] at h
      subst h
      exact ⟨rfl, rfl⟩
    · exact absurd h (by simp)
  · simp only [Option.some.injEq] at h
    subst h
    exact ⟨rfl, rfl⟩

theorem RenderPlugin.initialize_scene_callback_unchanged (E : RenderEnv) (s : RenderPlugin) :
    (s.initialize_scene_callback E).Unchanged s.image_names_ s.rendered_poses_ := by
  have hp := s.initialize_scene_callback_paired E
  unfold RenderOutcome.Paired at hp
  have hq : pushed_pairs (s.initialize_scene_callback E).events = [] := rfl
  rw [hq] at hp
  simpa [RenderOutcome.Unchanged] using hp

/-- A frame in which none of the three buttons that lead to a save is clicked
leaves the name list and the pose list as they were. -/
theorem RenderPlugin.post_draw_unchanged (E : RenderEnv) (s : RenderPlugin) (ui : RenderFrame)
    (hsave : ui.save_current_render = false) (hinit : ui.initialize_reconstruction = false)
    (hextend : ui.compute_nbv_and_extend = false)
    (r : RenderOutcome) (h : s.post_draw E ui = some r) :
    r.Unchanged s.image_names_ s.rendered_poses_ := by
  unfold RenderPlugin.post_draw at h
  obtain ⟨o1, h1, h⟩ := Option.bind_eq_some.mp h
  obtain ⟨o2, h2, h⟩ := Option.bind_eq_some.mp h
  simp only [Option.some.injEq] at h
  subst h
  have p0 : (RenderPlugin.post_draw_inputs E s ui).Unchanged s.image_names_ s.rendered_poses_ := by
    unfold RenderPlugin.post_draw_inputs
    refine RenderOutcome.Unchanged.thenState_same ?_ (KeepsLists.show_camera E)
    refine RenderOutcome.Unchanged.thenState_same ?_ (KeepsLists.gizmo_widgets ui)
    refine RenderOutcome.Unchanged.onInput_same ?_ _ ?hf
    case hf => intro v t; exact ⟨rfl, rfl⟩
    refine RenderOutcome.Unchanged.onInput_same ?_ _ ?hf
    case hf => intro v t; exact ⟨rfl, rfl⟩
    refine RenderOutcome.Unchanged.onInput_same ?_ _ ?hf
    case hf => intro v t; exact ⟨rfl, rfl⟩
    refine RenderOutcome.Unchanged.onInput_same ?_ _ ?hf
    case hf => intro v t; exact ⟨rfl, rfl⟩
    refine RenderOutcome.Unchanged.onInput_same ?_ _ ?hf
    case hf => intro v t; exact ⟨rfl, rfl⟩
    refine RenderOutcome.Unchanged.onInput_same ?_ _ ?hf
    case hf => intro v t; exact ⟨rfl, rfl⟩
    refine RenderOutcome.Unchanged.onClick_same ?_ _ (RenderPlugin.initialize_scene_callback_unchanged E)
    refine RenderOutcome.Unchanged.onInput_same ?_ _ ?hf
    case hf => intro v t; exact ⟨rfl, rfl⟩
    exact ⟨rfl, rfl⟩
  have p1 : o1.Unchanged s.image_names_ s.rendered_poses_ := by
    unfold RenderPlugin.post_draw_slider at h1
    refine RenderOutcome.Unchanged.onClickOpt_same ?_ _
      (RenderPlugin.set_generated_pose_callback_unchanged E) h1
    refine RenderOutcome.Unchanged.onInput_same ?_ _ ?hf
    case hf => intro v t; exact ⟨rfl, rfl⟩
    exact p0
  have p2 : (RenderPlugin.post_draw_render E o1 ui).Unchanged s.image_names_ s.rendered_poses_ := by
    unfold RenderPlugin.post_draw_render
    refine RenderOutcome.Unchanged.onInput_same ?_ _ ?hf
    case hf => intro v t; exact ⟨rfl, rfl⟩
    rw [hsave]
    show ((o1.onClick ui.render_current_pose (RenderPlugin.render_callback E))).Unchanged _ _
    refine RenderOutcome.Unchanged.onClick_same p1 _ ?hf
    case hf => intro t; exact ⟨rfl, rfl⟩
  have p3 : o2.Unchanged s.image_names_ s.rendered_poses_ := by
    unfold RenderPlugin.post_draw_link at h2
    rw [hinit, hextend] at h2
    simp only [RenderOutcome.onClickOpt, Bool.false_eq_true, if_false, Option.some_bind,
      ite_self, Option.some.injEq] at h2
    subst h2
    exact p2
  unfold RenderPlugin.post_draw_finish
  refine RenderOutcome.Unchanged.thenState_same ?_ (KeepsLists.sync_gizmo E)
  refine RenderOutcome.Unchanged.onClick_same p3 _ ?hf
  case hf => intro t; exact ⟨rfl, rfl⟩

theorem RenderOp.apply_unchanged (E : RenderEnv) (s : RenderPlugin) (op : RenderOp)
    (hop : op.saves = false) (r : RenderOutcome) (h : op.apply E s = some r) :
    r.Unchanged s.image_names_ s.rendered_poses_ := by
  cases op with
  | post_draw ui =>
    simp only [RenderOp.saves, Bool.or_eq_false_iff] at hop
    exact s.post_draw_unchanged E ui hop.1.1 hop.1.2 hop.2 r h
  | set_generated_pose_callback => exact s.set_generated_pose_callback_unchanged E r h
  | save_render_callback => exact absurd hop (by simp [RenderOp.saves])
  | initialize_reconstruction_callback => exact absurd hop (by simp [RenderOp.saves])
  | extend_reconstruction_callback => exact absurd hop (by simp [RenderOp.saves])
  | initialize_scene_callback =>
    simp only [RenderOp.apply, Option.some.injEq] at h
    subst h
    exact s.initialize_scene_callback_unchanged E
  | render_callback =>
    simp only [RenderOp.apply, Option.some.injEq] at h
    subst h
    exact ⟨rfl, rfl⟩
  | init reconstruction nbv =>
    simp only [RenderOp.apply, Option.some.injEq] at h
    subst h
    exact KeepsLists.init reconstruction nbv s
  | show_camera =>
    simp only [RenderOp.apply, Option.some.injEq] at h
    subst h
    exact KeepsLists.show_camera E s
  | set_camera_pose V =>
    simp only [RenderOp.apply, Option.some.injEq] at h
    subst h
    exact ⟨rfl, rfl⟩
  | set_render_mesh mvs_scene =>
    simp only [RenderOp.apply, Option.some.injEq] at h
    subst h
    exact KeepsLists.set_render_mesh E mvs_scene s
  | show_render_mesh visible =>
    simp only [RenderOp.apply, Option.some.injEq] at h
    subst h
    exact ⟨rfl, rfl⟩
  | center_object =>
    simp only [RenderOp.apply, Option.some.injEq] at h
    subst h
    exact KeepsLists.center_object E s
  | set_render_cameras =>
    simp only [RenderOp.apply, Option.some.injEq] at h
    subst h
    exact ⟨rfl, rfl⟩
  | show_render_cameras visible =>
    simp only [RenderOp.apply, Option.some.injEq] at h
    subst h
    exact ⟨rfl, rfl⟩
  | pre_draw | get_rendered_image_names | mouse_down | mouse_up | mouse_move | mouse_scroll
  | key_pressed | key_down | key_up =>
    simp only [RenderOp.apply, Option.some.injEq] at h
    subst h
    exact ⟨rfl, rfl⟩

/-- C18: `save_render_callback` appends exactly one name, the one built from
`next_image_idx_`, and exactly one pose, the current view matrix, and raises
`next_image_idx_` and `selected_pose_` by 1 (below the largest `int`); an
operation that cannot reach `save_render_callback` leaves both lists as they
were; every operation extends both lists by the pairs it pushed; so after any
sequence of operations that starts with empty lists, as the constructor leaves
them, the two lists have equal length and the i-th name was pushed together
with the i-th pose. -/
theorem save_render_keeps_lists_paired (E : RenderEnv) :
    (∀ s : RenderPlugin,
      (s.save_render_callback E).state.image_names_ =
        s.image_names_ ++ [frame_filename s.next_image_idx_] ∧
      (s.save_render_callback E).state.rendered_poses_ =
        s.rendered_poses_ ++ [s.view_matrix E] ∧
      (is_int32 (s.next_image_idx_ + 1) →
        (s.save_render_callback E).state.next_image_idx_ = s.next_image_idx_ + 1) ∧
      (is_int32 (s.selected_pose_ + 1) →
        (s.save_render_callback E).state.selected_pose_ = s.selected_pose_ + 1)) ∧
    (∀ (s : RenderPlugin) (op : RenderOp) (r : RenderOutcome),
      op.saves = false → op.apply E s = some r →
        r.state.image_names_ = s.image_names_ ∧ r.state.rendered_poses_ = s.rendered_poses_) ∧
    (∀ (s : RenderPlugin) (op : RenderOp) (r : RenderOutcome),
      op.apply E s = some r →
        r.state.image_names_ = s.image_names_ ++ (pushed_pairs r.events).map Prod.fst ∧
        r.state.rendered_poses_ = s.rendered_poses_ ++ (pushed_pairs r.events).map Prod.snd) ∧
    (∀ (s : RenderPlugin) (ops : List RenderOp) (r : RenderOutcome),
      s.image_names_ = [] → s.rendered_poses_ = [] →
      RenderOp.run E { state := s } ops = some r →
        r.state.image_names_.length = r.state.rendered_poses_.length ∧
        List.zip r.state.image_names_ r.state.rendered_poses_ = pushed_pairs r.events) ∧
    (∀ (images_path reconstruction_path : String) (declared : RenderPlugin),
      (RenderPlugin.construct images_path reconstruction_path declared).image_names_ = [] ∧
      (RenderPlugin.construct images_path reconstruction_path declared).rendered_poses_ = []) := by
  refine ⟨?_, ?_, ?_, ?_, fun _ _ _ => ⟨rfl, rfl⟩⟩
  · intro s
    refine ⟨rfl, rfl, ?_, ?_⟩
    · intro h
      exact wrap_int32_of_is_int32 _ h
    · intro h
      exact wrap_int32_of_is_int32 _ h
  · intro s op r hop h
    exact RenderOp.apply_unchanged E s op hop r h
  · intro s op r h
    exact RenderOp.apply_paired E s op r h
  · intro s ops r hnames hposes h
    have hp := RenderOp.run_paired E ops { state := s } r s.image_names_ s.rendered_poses_
      (RenderOutcome.Paired.start s) h
    unfold RenderOutcome.Paired at hp
    rw [hnames, hposes, List.nil_append, List.nil_append] at hp
    rw [hp.1, hp.2]
    exact ⟨by simp, zip_map_fst_snd _⟩

/-- A run of C18 on the test plugin: a frame that sets the pose index to 1 and
saves, a render, and a second save; the lists start empty and end with two
names and two poses. -/
theorem save_render_keeps_lists_paired_witness :
    test_render_plugin.image_names_ = [] ∧ test_render_plugin.rendered_poses_ = [] ∧
    ∃ r, RenderOp.run (translation_env []) { state := test_render_plugin }
        [.post_draw { pose_index_slider := some 1, save_current_render := true },
         .render_callback, .save_render_callback] = some r ∧
      r.state.image_names_ = [frame_filename 0, frame_filename 1] ∧
      (r.state.image_names_.length = r.state.rendered_poses_.length ∧
        List.zip r.state.image_names_ r.state.rendered_poses_ = pushed_pairs r.events) :=
  ⟨rfl, rfl, _, rfl, rfl,
    (save_render_keeps_lists_paired (translation_env [])).2.2.2.1 test_render_plugin
      [.post_draw { pose_index_slider := some 1, save_current_render := true },
       .render_callback, .save_render_callback] _ rfl rfl rfl⟩

/-! ## File names of saved frames: the index can be read back -/

theorem digit_value_digitChar : ∀ d : Fin 10, digit_value (Nat.digitChar d.val) = d.val := by
  decide

theorem digitChar_ne_minus : ∀ d : Fin 10, Nat.digitChar d.val ≠ '-' := by decide

theorem digitChar_ne_zero : ∀ d : Fin 10, d.val ≠ 0 → Nat.digitChar d.val ≠ '0' := by decide

theorem map_digit_value (l : List Nat) (h : ∀ d ∈ l, d < 10) :
    (l.map Nat.digitChar).map digit_value = l := by
  induction l with
  | nil => rfl
  | cons d rest ih =>
    simp only [List.map_cons]
    rw [ih (fun x hx => h x (List.mem_cons_of_mem _ hx))]
    have hd := digit_value_digitChar ⟨d, h d (List.mem_cons_self _ _)⟩
    simp only at hd
    rw [hd]

theorem decimal_value_decimal_digits (n : Nat) : decimal_value (decimal_digits n) = n := by
  unfold decimal_value decimal_digits
  split
  · next h => subst h; decide
  · rw [map_digit_value _ (fun d hd => Nat.digits_lt_base (by norm_num) (List.mem_reverse.mp hd)),
      List.reverse_reverse, Nat.ofDigits_digits]

/-- The first character of the decimal text of a positive number is a digit
other than zero. -/
theorem decimal_digits_head (n : Nat) (hn : n ≠ 0) :
    ∃ c rest, decimal_digits n = c :: rest ∧ c ≠ '0' ∧ c ≠ '-' := by
  unfold decimal_digits
  rw [if_neg hn]
  have hne : Nat.digits 10 n ≠ [] := Nat.digits_ne_nil_iff_ne_zero.mpr hn
  have hlast := Nat.getLast_digit_ne_zero 10 hn
  have hlt : (Nat.digits 10 n).getLast hne < 10 :=
    Nat.digits_lt_base (by norm_num) (List.getLast_mem hne)
  obtain ⟨init, hinit⟩ : ∃ init, Nat.digits 10 n = init ++ [(Nat.digits 10 n).getLast hne] :=
    ⟨_, (List.dropLast_append_getLast hne).symm⟩
  refine ⟨Nat.digitChar ((Nat.digits 10 n).getLast hne), init.reverse.map Nat.digitChar, ?_, ?_, ?_⟩
  · conv_lhs => rw [hinit]
    simp
  · exact digitChar_ne_zero ⟨_, hlt⟩ hlast
  · exact digitChar_ne_minus ⟨_, hlt⟩

theorem decimal_digits_zero : decimal_digits 0 = ['0'] := rfl

theorem int_value_to_string_int (i : Int) : int_value (to_string_int i) = i := by
  unfold to_string_int
  split
  · next h =>
    simp only [int_value, decimal_value_decimal_digits]
    omega
  · next h =>
    by_cases h0 : i.natAbs = 0
    · rw [h0, decimal_digits_zero]
      have : i = 0 := Int.natAbs_eq_zero.mp h0
      subst this
      decide
    · obtain ⟨c, rest, hc, -, hminus⟩ := decimal_digits_head i.natAbs h0
      have hv := decimal_value_decimal_digits i.natAbs
      rw [hc] at hv ⊢
      unfold int_value
      split
      · next heq => 
        simp only [List.cons.injEq] at heq
        exact absurd heq.1 hminus
      · rw [hv]; omega

theorem dropWhile_zero_replicate (k : Nat) (text : List Char) :
    (List.replicate k '0' ++ text).dropWhile (fun c => c == '0') =
      text.dropWhile (fun c => c == '0') := by
  induction k with
  | zero => rfl
  | succ k ih => simp [List.replicate_succ, ih]

theorem int_value_padded (width : Nat) (i : Int) :
    int_value ((setw_setfill width '0' (to_string_int i)).dropWhile (fun c => c == '0')) = i := by
  unfold setw_setfill
  rw [dropWhile_zero_replicate]
  by_cases h0 : i = 0
  · subst h0; decide
  · have hfirst : ∃ c rest, to_string_int i = c :: rest ∧ c ≠ '0' := by
      unfold to_string_int
      split
      · exact ⟨'-', _, rfl, by decide⟩
      · obtain ⟨c, rest, hc, hz, -⟩ := decimal_digits_head i.natAbs (by omega)
        exact ⟨c, rest, hc, hz⟩
    obtain ⟨c, rest, hc, hz⟩ := hfirst
    have hdrop : (to_string_int i).dropWhile (fun c => c == '0') = to_string_int i := by
      rw [hc, List.dropWhile_cons_of_neg]
      simpa using hz
    rw [hdrop, int_value_to_string_int]

theorem frame_index_frame_filename (i : Int) : frame_index (frame_filename i) = i := by
  unfold frame_index frame_filename
  have h5 : "frame".data = ['f', 'r', 'a', 'm', 'e'] := rfl
  have h4 : ".png".data = ['.', 'p', 'n', 'g'] := rfl
  simp only [h5, h4, List.cons_append, List.nil_append, List.drop_succ_cons, List.drop_zero,
    List.length_cons, List.length_append, List.length_nil]
  have hlen : (setw_setfill 3 '0' (to_string_int i)).length + (0 + 1 + 1 + 1 + 1) + 1 + 1 + 1 + 1 + 1 - 9
      = (setw_setfill 3 '0' (to_string_int i)).length := by omega
  rw [hlen, List.take_left']
  · exact int_value_padded 3 i
  · rfl

theorem capture_filename_eq (output_path : String) (i : Int) :
    output_path ++ "frame" ++ String.mk (setw_setfill 3 '0' (to_string_int i)) ++ ".png" =
      output_path ++ frame_filename i := by
  apply String.ext
  simp [frame_filename, String.data_append, List.append_assoc]

theorem String.append_left_cancel (path a b : String) (h : path ++ a = path ++ b) : a = b := by
  apply String.ext
  have hd := congrArg String.data h
  simp only [String.data_append] at hd
  exact List.append_cancel_left hd

/-- C21: the name built for index `i` is "frame", then the decimal text of `i`
(which reads back as `i`) with zeros in front up to three characters, then
".png"; 7 gives frame007.png and 1000 gives frame1000.png; the index can be
read back from the name, so the map from index to name is injective;
`save_render_callback` saves under this name behind `images_path_`, and the
captures of `CameraPlugin` and of `bak/main_bak_3.cpp` write to this name behind
the output path, so two saves behind the same path with different indices go to
different files. -/
theorem frame_filename_padded_injective :
    (∀ i : Int,
      frame_filename i = String.mk ("frame".data ++
        (List.replicate (3 - (to_string_int i).length) '0' ++ to_string_int i) ++ ".png".data) ∧
      (List.replicate (3 - (to_string_int i).length) '0' ++ to_string_int i).length =
        max 3 (to_string_int i).length ∧
      int_value (to_string_int i) = i ∧
      frame_index (frame_filename i) = i) ∧
    frame_filename 7 = "frame007.png" ∧
    frame_filename 1000 = "frame1000.png" ∧
    Function.Injective frame_filename ∧
    (∀ (path : String) (i j : Int),
      path ++ frame_filename i = path ++ frame_filename j → i = j) ∧
    (∀ (E : RenderEnv) (s : RenderPlugin),
      (s.save_render_callback E).events =
        [.SaveRender (s.images_path_ ++ frame_filename s.next_image_idx_) 0 s.render_data_,
         .pushed (frame_filename s.next_image_idx_) (s.view_matrix E),
         .log ("Render: Image saved to: \n\t" ++
           (s.images_path_ ++ frame_filename s.next_image_idx_))]) ∧
    (∀ s : CameraPlugin,
      (s.post_draw true).writePNG = [s.output_path_ ++ frame_filename s.saved_frames_count_]) ∧
    (∀ (output_path : String) (saved_frames_count : Int),
      (callback_draw_custom_window output_path saved_frames_count true).2 =
        [output_path ++ frame_filename saved_frames_count]) := by
  have hinj : Function.Injective frame_filename :=
    Function.LeftInverse.injective frame_index_frame_filename
  refine ⟨?_, ?_, ?_, hinj, ?_, ?_, ?_, ?_⟩
  · intro i
    refine ⟨rfl, ?_, int_value_to_string_int i, frame_index_frame_filename i⟩
    simp only [List.length_append, List.length_replicate]
    omega
  · simp [frame_filename, setw_setfill, to_string_int, decimal_digits]
    decide
  · simp [frame_filename, setw_setfill, to_string_int, decimal_digits]
    decide
  · intro path i j h
    exact hinj (String.append_left_cancel path _ _ h)
  · intro E s
    rfl
  · intro s
    simp only [CameraPlugin.post_draw, if_true, capture_filename_eq]
  · intro output_path saved_frames_count
    simp only [callback_draw_custom_window, if_true, capture_filename_eq]

/-! ## The render plugin: the mesh of the generated cameras -/

theorem getD_modifyNth {α : Type} (f : α → α) (d : α) :
    ∀ (n : Nat) (l : List α), n < l.length → (modifyNth f n l).getD n d = f (l.getD n d) := by
  intro n l
  induction l generalizing n with
  | nil => intro h; exact absurd h (Nat.not_lt_zero _)
  | cons a rest ih =>
    intro h
    cases n with
    | zero => rfl
    | succ n =>
      simp only [modifyNth, List.getD_cons_succ]
      exact ih n (Nat.lt_of_succ_lt_succ h)

theorem Viewer.data_onData (v : Viewer) (f : ViewerData → ViewerData)
    (h : v.selected_data_index < v.data_list.length) : (v.onData f).data = f v.data := by
  unfold Viewer.data Viewer.onData
  exact getD_modifyNth f _ _ _ h

theorem flatten_length_of_length {α : Type} (k : Nat) (L : List (List α))
    (h : ∀ l ∈ L, l.length = k) : L.flatten.length = k * L.length := by
  induction L with
  | nil => rfl
  | cons l rest ih =>
    rw [List.flatten_cons, List.length_append, h l (List.mem_cons_self _ _),
      ih (fun x hx => h x (List.mem_cons_of_mem _ hx)), List.length_cons]
    ring

theorem flatten_getElem?_of_length {α : Type} (k : Nat) (L : List (List α))
    (h : ∀ l ∈ L, l.length = k) (i j : Nat) (hj : j < k) :
    L.flatten[k * i + j]? = (L[i]?).bind (fun l => l[j]?) := by
  induction L generalizing i with
  | nil => rfl
  | cons l rest ih =>
    have hl : l.length = k := h l (List.mem_cons_self _ _)
    cases i with
    | zero =>
      simp only [Nat.mul_zero, Nat.zero_add, List.flatten_cons, List.getElem?_cons_zero,
        Option.some_bind]
      exact List.getElem?_append_left (by omega)
    | succ i =>
      simp only [List.flatten_cons, List.getElem?_cons_succ]
      rw [List.getElem?_append_right (by rw [hl, Nat.mul_succ]; omega)]
      rw [← ih (fun x hx => h x (List.mem_cons_of_mem _ hx)) i]
      congr 1
      rw [hl, Nat.mul_succ]
      omega

theorem RenderPlugin.set_render_cameras_data (E : RenderEnv) (s : RenderPlugin)
    (hslot : s.VIEWER_DATA_RENDER_CAMERAS < s.viewer.data_list.length) :
    (s.set_render_cameras E).viewer.data.V =
      (s.generated_poses_.enum.map (fun iv =>
        frustum_V.map (apply_transformation (E.affine_inverse iv.2 * scaling (1.0 / 2.5))))).flatten ∧
    (s.set_render_cameras E).viewer.data.F =
      (s.generated_poses_.enum.map (fun iv =>
        frustum_F.map (fun f => (f.1 + iv.1 * 5, f.2.1 + iv.1 * 5, f.2.2 + iv.1 * 5)))).flatten := by
  unfold RenderPlugin.set_render_cameras
  simp only
  rw [Viewer.data_onData _ _ hslot]
  simp only [List.map_map]
  exact ⟨rfl, rfl⟩

theorem frustum_F_index_lt : ∀ f ∈ frustum_F, f.1 < 5 ∧ f.2.1 < 5 ∧ f.2.2 < 5 := by decide

/-- C22: when the slot of the render cameras exists, `set_render_cameras` on `n`
generated poses leaves a mesh with `5 n` vertices and `6 n` faces; face `j` of
camera `i` is base face `j` with every index raised by `5 i`, vertex `k` of
camera `i` is base vertex `k` mapped by the inverse of pose `i` times the
scaling by `1 / 2.5`; so the indices of a face of camera `i` lie in
`[5 i, 5 i + 5)`, every index of every face is below the number of vertices,
and with no pose the mesh is empty. -/
theorem render_cameras_mesh_indices (E : RenderEnv) (s : RenderPlugin)
    (hslot : s.VIEWER_DATA_RENDER_CAMERAS < s.viewer.data_list.length) :
    (s.set_render_cameras E).viewer.data.V.length = 5 * s.generated_poses_.length ∧
    (s.set_render_cameras E).viewer.data.F.length = 6 * s.generated_poses_.length ∧
    (∀ i j : Nat, i < s.generated_poses_.length → j < 6 →
      (s.set_render_cameras E).viewer.data.F[6 * i + j]? =
        (frustum_F[j]?).map (fun f => (f.1 + 5 * i, f.2.1 + 5 * i, f.2.2 + 5 * i))) ∧
    (∀ (i k : Nat) (G : Mat4), s.generated_poses_[i]? = some G → k < 5 →
      (s.set_render_cameras E).viewer.data.V[5 * i + k]? =
        (frustum_V[k]?).map (apply_transformation (E.affine_inverse G * scaling (1.0 / 2.5)))) ∧
    (∀ (i j : Nat) (f : Nat × Nat × Nat), i < s.generated_poses_.length → j < 6 →
      (s.set_render_cameras E).viewer.data.F[6 * i + j]? = some f →
        (5 * i ≤ f.1 ∧ f.1 < 5 * i + 5) ∧ (5 * i ≤ f.2.1 ∧ f.2.1 < 5 * i + 5) ∧
        (5 * i ≤ f.2.2 ∧ f.2.2 < 5 * i + 5)) ∧
    (∀ f ∈ (s.set_render_cameras E).viewer.data.F,
      f.1 < (s.set_render_cameras E).viewer.data.V.length ∧
      f.2.1 < (s.set_render_cameras E).viewer.data.V.length ∧
      f.2.2 < (s.set_render_cameras E).viewer.data.V.length) ∧
    (s.generated_poses_.length = 0 →
      (s.set_render_cameras E).viewer.data.V = [] ∧
      (s.set_render_cameras E).viewer.data.F = []) := by
  obtain ⟨hV, hF⟩ := s.set_render_cameras_data E hslot
  have hlenV : (s.set_render_cameras E).viewer.data.V.length = 5 * s.generated_poses_.length := by
    rw [hV, flatten_length_of_length 5]
    · simp
    · intro l hl
      obtain ⟨iv, -, rfl⟩ := List.mem_map.mp hl
      rfl
  have hlenF : (s.set_render_cameras E).viewer.data.F.length = 6 * s.generated_poses_.length := by
    rw [hF, flatten_length_of_length 6]
    · simp
    · intro l hl
      obtain ⟨iv, -, rfl⟩ := List.mem_map.mp hl
      rfl
  have hface : ∀ i j : Nat, i < s.generated_poses_.length → j < 6 →
      (s.set_render_cameras E).viewer.data.F[6 * i + j]? =
        (frustum_F[j]?).map (fun f => (f.1 + 5 * i, f.2.1 + 5 * i, f.2.2 + 5 * i)) := by
    intro i j hi hj
    rw [hF, flatten_getElem?_of_length 6 _ _ i j hj]
    · rw [List.getElem?_map, List.getElem?_enum, List.getElem?_eq_getElem hi]
      simp only [Option.map_some', Option.some_bind, List.getElem?_map]
      congr 1
      funext f
      simp only [Nat.mul_comm]
    · intro l hl
      obtain ⟨iv, -, rfl⟩ := List.mem_map.mp hl
      rfl
  have hrange : ∀ (i j : Nat) (f : Nat × Nat × Nat), i < s.generated_poses_.length → j < 6 →
      (s.set_render_cameras E).viewer.data.F[6 * i + j]? = some f →
        (5 * i ≤ f.1 ∧ f.1 < 5 * i + 5) ∧ (5 * i ≤ f.2.1 ∧ f.2.1 < 5 * i + 5) ∧
        (5 * i ≤ f.2.2 ∧ f.2.2 < 5 * i + 5) := by
    intro i j f hi hj hf
    rw [hface i j hi hj] at hf
    obtain ⟨g, hg, rfl⟩ := Option.map_eq_some'.mp hf
    have hb := frustum_F_index_lt g (List.getElem?_mem hg)
    simp only
    omega
  refine ⟨hlenV, hlenF, hface, ?_, hrange, ?_, ?_⟩
  · intro i k G hG hk
    rw [hV, flatten_getElem?_of_length 5 _ _ i k hk]
    · rw [List.getElem?_map, List.getElem?_enum, hG]
      simp only [Option.map_some', Option.some_bind, List.getElem?_map]
    · intro l hl
      obtain ⟨iv, -, rfl⟩ := List.mem_map.mp hl
      rfl
  · intro f hf
    obtain ⟨m, hm, hfm⟩ := List.getElem_of_mem hf
    have hm6 : m < 6 * s.generated_poses_.length := by rw [← hlenF]; exact hm
    have hi : m / 6 < s.generated_poses_.length := by omega
    have hsplit : 6 * (m / 6) + m % 6 = m := Nat.div_add_mod m 6
    have hget : (s.set_render_cameras E).viewer.data.F[6 * (m / 6) + m % 6]? = some f := by
      rw [hsplit, List.getElem?_eq_getElem hm, hfm]
    have hb := hrange (m / 6) (m % 6) f hi (Nat.mod_lt _ (by norm_num)) hget
    rw [hlenV]
    omega
  · intro h0
    have hnil : s.generated_poses_ = [] := List.length_eq_zero.mp h0
    rw [hV, hF, hnil]
    exact ⟨rfl, rfl⟩

/-- The hypothesis of C22 holds for the test plugin, which has three generated
poses: 15 vertices, 18 faces, and face 4 of camera 2 is base face 4 raised by
10. -/
theorem render_cameras_mesh_indices_witness :
    test_render_plugin.VIEWER_DATA_RENDER_CAMERAS < test_render_plugin.viewer.data_list.length ∧
    test_render_plugin.generated_poses_.length = 3 ∧
    (test_render_plugin.set_render_cameras (translation_env [])).viewer.data.V.length =
      5 * test_render_plugin.generated_poses_.length ∧
    (test_render_plugin.set_render_cameras (translation_env [])).viewer.data.F.length =
      6 * test_render_plugin.generated_poses_.length ∧
    (test_render_plugin.set_render_cameras (translation_env [])).viewer.data.F[6 * 2 + 4]? =
      (frustum_F[4]?).map (fun f => (f.1 + 5 * 2, f.2.1 + 5 * 2, f.2.2 + 5 * 2)) ∧
    (frustum_F[4]?).map (fun f => (f.1 + 5 * 2, f.2.1 + 5 * 2, f.2.2 + 5 * 2)) =
      some (11, 13, 12) :=
  ⟨by decide, rfl,
    (render_cameras_mesh_indices (translation_env []) test_render_plugin (by decide)).1,
    (render_cameras_mesh_indices (translation_env []) test_render_plugin (by decide)).2.1,
    (render_cameras_mesh_indices (translation_env []) test_render_plugin (by decide)).2.2.1 2 4
      (by decide) (by decide),
    by decide⟩

/-! ## The next-best-view plugin: where the camera model is displayed -/

theorem mulVec_translation_matrix (t : Vec3 ℚ) (a b c d : ℚ) :
    Matrix.mulVec (translation_matrix t) ![a, b, c, d] =
      ![a + t.x * d, b + t.y * d, c + t.z * d, d] := by
  funext i
  fin_cases i <;>
    simp [translation_matrix, Matrix.mulVec, Matrix.dotProduct, Fin.sum_univ_four]

theorem mulVec_rotation_x (E : Env) (r a b c d : ℚ) :
    Matrix.mulVec (rotation_x E r) ![a, b, c, d] =
      ![a, E.cos r * b - E.sin r * c, E.sin r * b + E.cos r * c, d] := by
  funext i
  fin_cases i <;>
    simp [rotation_x, Matrix.mulVec, Matrix.dotProduct, Fin.sum_univ_four]
  all_goals ring

theorem mulVec_rotation_y (E : Env) (r a b c d : ℚ) :
    Matrix.mulVec (rotation_y E r) ![a, b, c, d] =
      ![E.cos r * a + E.sin r * c, b, -(E.sin r * a) + E.cos r * c, d] := by
  funext i
  fin_cases i <;>
    simp [rotation_y, Matrix.mulVec, Matrix.dotProduct, Fin.sum_univ_four]

theorem mulVec_rotation_z (E : Env) (r a b c d : ℚ) :
    Matrix.mulVec (rotation_z E r) ![a, b, c, d] =
      ![E.cos r * a - E.sin r * b, E.sin r * a + E.cos r * b, c, d] := by
  funext i
  fin_cases i <;>
    simp [rotation_z, Matrix.mulVec, Matrix.dotProduct, Fin.sum_univ_four]
  all_goals ring

theorem mulVec_scaling (k a b c d : ℚ) :
    Matrix.mulVec (scaling k) ![a, b, c, d] = ![k * a, k * b, k * c, d] := by
  funext i
  fin_cases i <;>
    simp [scaling, Matrix.mulVec, Matrix.dotProduct, Fin.sum_univ_four, Matrix.diagonal]

/-- The map `camera_transformation_` applies to a vertex is the matrix of line
200 applied to the homogeneous vertex. -/
theorem camera_transformation_matrix_apply (E : Env) (pos rot v : Vec3 ℚ) :
    apply_transformation (camera_transformation_matrix E pos rot) v =
      camera_transformation_ E pos rot v := by
  simp only [apply_transformation, camera_transformation_matrix, Matrix.mul_one,
    ← Matrix.mulVec_mulVec, mulVec_scaling, mulVec_rotation_z, mulVec_rotation_x,
    mulVec_rotation_y, mulVec_translation_matrix]
  simp [camera_transformation_, rotX, rotY, rotZ, Vec3.add, Vec3.smul]
  refine ⟨by ring, by ring, by ring⟩

theorem length_modifyNth {α : Type} (f : α → α) :
    ∀ (n : Nat) (l : List α), (modifyNth f n l).length = l.length := by
  intro n l
  induction l generalizing n with
  | nil => cases n <;> rfl
  | cons a rest ih =>
    cases n with
    | zero => rfl
    | succ n => simp only [modifyNth, List.length_cons, ih n]

theorem transform_camera_data (E : Env) (s : NextBestViewPlugin)
    (hslot : s.VIEWER_DATA_NBV < s.viewer.data_list.length)
    (hrows : s.camera_vertices_.length > 0) :
    (transform_camera E s).viewer.data.V =
      s.camera_vertices_.map (camera_transformation_ E s.camera_pos_ s.camera_rot_) := by
  unfold transform_camera
  rw [if_pos hrows]
  simp only
  rw [Viewer.data_onData _ _ hslot]

theorem transform_camera_camera_vertices (E : Env) (s : NextBestViewPlugin) :
    (transform_camera E s).camera_vertices_ = s.camera_vertices_ := by
  unfold transform_camera
  split <;> rfl

theorem transform_camera_slot (E : Env) (s : NextBestViewPlugin) :
    (transform_camera E s).VIEWER_DATA_NBV = s.VIEWER_DATA_NBV ∧
    (transform_camera E s).viewer.data_list.length = s.viewer.data_list.length := by
  unfold transform_camera
  split
  · exact ⟨rfl, length_modifyNth _ _ _⟩
  · exact ⟨rfl, rfl⟩

/-- The map `camera_transformation_` in the order of its factors: translation,
yaw, pitch, roll, applied to half the vertex. -/
theorem camera_transformation_factors (E : Env) (pos rot v : Vec3 ℚ) :
    camera_transformation_ E pos rot v =
      apply_transformation (translation_matrix pos * rotation_y E rot.y *
        rotation_x E rot.x * rotation_z E rot.z) (Vec3.smul (1 / 2) v) := by
  simp only [apply_transformation, Vec3.smul,
    ← Matrix.mulVec_mulVec, mulVec_rotation_z, mulVec_rotation_x,
    mulVec_rotation_y, mulVec_translation_matrix]
  simp [camera_transformation_, rotX, rotY, rotZ, Vec3.add, Vec3.smul]
  refine ⟨by ring, by ring, by ring⟩

theorem camera_transformation_apex (E : Env) (pos rot : Vec3 ℚ) :
    camera_transformation_ E pos rot ⟨0, 0, 0⟩ = pos := by
  cases pos
  simp [camera_transformation_, rotX, rotY, rotZ, Vec3.add, Vec3.smul]

theorem NextBestViewPlugin.init_slot (s : NextBestViewPlugin) :
    s.init.camera_vertices_ = frustum_V ∧
    s.init.VIEWER_DATA_NBV < s.init.viewer.data_list.length := by
  refine ⟨rfl, ?_⟩
  simp [NextBestViewPlugin.init, set_camera, show_camera, Viewer.onData, length_modifyNth,
    RenderPlugin.append_mesh]

/-- C23: on a plugin whose viewer slot exists and whose base vertices are the
ones `set_camera` stores (both hold after `init`), `transform_camera` displays
base vertex `v` at `T(camera_pos_) * Ry(rot[1]) * Rx(rot[0]) * Rz(rot[2])`
applied to `v / 2`, which is the matrix of line 200 applied to `v`; the apex is
displayed at `camera_pos_` whatever the angles and whatever `cos` and `sin`
are; `camera_vertices_` stays the base frustum, and a second call with any
pose displays what a first call with that pose displays. -/
theorem transform_camera_places_frustum (E : Env) (s : NextBestViewPlugin)
    (hslot : s.VIEWER_DATA_NBV < s.viewer.data_list.length)
    (hset : s.camera_vertices_ = frustum_V) :
    (transform_camera E s).viewer.data.V =
      frustum_V.map (fun v => apply_transformation
        (translation_matrix s.camera_pos_ * rotation_y E s.camera_rot_.y *
          rotation_x E s.camera_rot_.x * rotation_z E s.camera_rot_.z) (Vec3.smul (1 / 2) v)) ∧
    (transform_camera E s).viewer.data.V =
      frustum_V.map
        (apply_transformation (camera_transformation_matrix E s.camera_pos_ s.camera_rot_)) ∧
    (transform_camera E s).viewer.data.V[0]? = some s.camera_pos_ ∧
    (transform_camera E s).camera_vertices_ = frustum_V ∧
    (∀ pos rot : Vec3 ℚ,
      (transform_camera E
        { transform_camera E s with camera_pos_ := pos, camera_rot_ := rot }).viewer.data.V =
      (transform_camera E { s with camera_pos_ := pos, camera_rot_ := rot }).viewer.data.V) ∧
    (∀ s0 : NextBestViewPlugin, s0.init.camera_vertices_ = frustum_V ∧
      s0.init.VIEWER_DATA_NBV < s0.init.viewer.data_list.length) := by
  have hrows : s.camera_vertices_.length > 0 := by rw [hset]; decide
  have hdata := transform_camera_data E s hslot hrows
  rw [hset] at hdata
  refine ⟨?_, ?_, ?_, ?_, ?_, NextBestViewPlugin.init_slot⟩
  · rw [hdata]
    exact List.map_congr_left (fun v _ => camera_transformation_factors E _ _ v)
  · rw [hdata]
    exact List.map_congr_left (fun v _ => (camera_transformation_matrix_apply E _ _ v).symm)
  · rw [hdata]
    simp only [frustum_V, List.map_cons, List.getElem?_cons_zero]
    rw [camera_transformation_apex]
  · rw [transform_camera_camera_vertices, hset]
  · intro pos rot
    have hv := transform_camera_camera_vertices E s
    have hs := transform_camera_slot E s
    rw [transform_camera_data E { transform_camera E s with camera_pos_ := pos, camera_rot_ := rot }
        (by show (transform_camera E s).VIEWER_DATA_NBV < (transform_camera E s).viewer.data_list.length
            rw [hs.1, hs.2]; exact hslot)
        (by show (transform_camera E s).camera_vertices_.length > 0
            rw [hv]; exact hrows),
      transform_camera_data E { s with camera_pos_ := pos, camera_rot_ := rot } hslot hrows]
    show List.map _ (transform_camera E s).camera_vertices_ = List.map _ s.camera_vertices_
    rw [hv]

/-- The hypotheses of C23 hold for the test plugin after `init`, here with the
candidate pose at `(1, 2, 3)`. -/
theorem transform_camera_places_frustum_witness :
    ({ fresh_plugin.init with camera_pos_ := ⟨1, 2, 3⟩ } : NextBestViewPlugin).VIEWER_DATA_NBV <
      ({ fresh_plugin.init with camera_pos_ := ⟨1, 2, 3⟩ } :
        NextBestViewPlugin).viewer.data_list.length ∧
    ({ fresh_plugin.init with camera_pos_ := ⟨1, 2, 3⟩ } : NextBestViewPlugin).camera_vertices_ =
      frustum_V ∧
    (transform_camera (stepping_env true)
      { fresh_plugin.init with camera_pos_ := ⟨1, 2, 3⟩ }).viewer.data.V[0]? =
      some (⟨1, 2, 3⟩ : Vec3 ℚ) ∧
    (transform_camera (stepping_env true)
      { fresh_plugin.init with camera_pos_ := ⟨1, 2, 3⟩ }).camera_vertices_ = frustum_V :=
  ⟨by decide, rfl,
    (transform_camera_places_frustum (stepping_env true)
      { fresh_plugin.init with camera_pos_ := ⟨1, 2, 3⟩ } (by decide) rfl).2.2.1,
    (transform_camera_places_frustum (stepping_env true)
      { fresh_plugin.init with camera_pos_ := ⟨1, 2, 3⟩ } (by decide) rfl).2.2.2.1⟩

/-! ## The render plugin: centring the render mesh -/

theorem foldl_min_le_foldl_max (c : Vec3 ℚ → ℚ) (rest : List (Vec3 ℚ)) :
    ∀ a b : ℚ, a ≤ b →
      rest.foldl (fun m q => min m (c q)) a ≤ rest.foldl (fun m q => max m (c q)) b := by
  induction rest with
  | nil => intro a b h; exact h
  | cons q rest ih =>
    intro a b _
    simp only [List.foldl_cons]
    exact ih _ _ (le_trans (min_le_right _ _) (le_max_right _ _))

theorem min_coeff_le_max_coeff (c : Vec3 ℚ → ℚ) (points : List (Vec3 ℚ)) :
    min_coeff c points ≤ max_coeff c points := by
  cases points with
  | nil => exact le_refl _
  | cons p rest => exact foldl_min_le_foldl_max c rest _ _ (le_refl _)

theorem min_coeff_replicate (c : Vec3 ℚ → ℚ) (p : Vec3 ℚ) (k : Nat) :
    min_coeff c (List.replicate (k + 1) p) = c p := by
  simp only [List.replicate_succ, min_coeff]
  induction k with
  | zero => rfl
  | succ k ih => simp only [List.replicate_succ, List.foldl_cons, min_self, ih]

theorem max_coeff_replicate (c : Vec3 ℚ → ℚ) (p : Vec3 ℚ) (k : Nat) :
    max_coeff c (List.replicate (k + 1) p) = c p := by
  simp only [List.replicate_succ, max_coeff]
  induction k with
  | zero => rfl
  | succ k ih => simp only [List.replicate_succ, List.foldl_cons, max_self, ih]

theorem largest_extent_nonneg (points : List (Vec3 ℚ)) : 0 ≤ largest_extent points := by
  unfold largest_extent
  exact le_max_of_le_right (sub_nonneg.mpr (min_coeff_le_max_coeff _ _))

theorem largest_extent_replicate (p : Vec3 ℚ) (k : Nat) :
    largest_extent (List.replicate (k + 1) p) = 0 := by
  simp [largest_extent, min_coeff_replicate, max_coeff_replicate]

theorem vector_sum_coordinates (points : List (Vec3 ℚ)) :
    (vector_sum points).x = (points.map Vec3.x).sum ∧
    (vector_sum points).y = (points.map Vec3.y).sum ∧
    (vector_sum points).z = (points.map Vec3.z).sum := by
  induction points with
  | nil => exact ⟨rfl, rfl, rfl⟩
  | cons p rest ih =>
    simp only [vector_sum, Vec3.add, List.map_cons, List.sum_cons, ih.1, ih.2.1, ih.2.2,
      and_self]

theorem centroid_eq_mean_coeff (points : List (Vec3 ℚ)) :
    centroid points =
      ⟨mean_coeff Vec3.x points, mean_coeff Vec3.y points, mean_coeff Vec3.z points⟩ := by
  obtain ⟨hx, hy, hz⟩ := vector_sum_coordinates points
  simp only [centroid, Vec3.smul, mean_coeff, hx, hy, hz, Vec3.mk.injEq]
  refine ⟨by ring, by ring, by ring⟩

theorem foldl_max_ge (c : Vec3 ℚ → ℚ) (rest : List (Vec3 ℚ)) :
    ∀ a : ℚ, a ≤ rest.foldl (fun m q => max m (c q)) a ∧
      ∀ q ∈ rest, c q ≤ rest.foldl (fun m q => max m (c q)) a := by
  induction rest with
  | nil => intro a; exact ⟨le_refl _, fun q hq => absurd hq (List.not_mem_nil q)⟩
  | cons r rest ih =>
    intro a
    simp only [List.foldl_cons]
    refine ⟨le_trans (le_max_left _ _) (ih _).1, ?_⟩
    intro q hq
    rcases List.mem_cons.mp hq with h | h
    · rw [h]; exact le_trans (le_max_right _ _) (ih _).1
    · exact (ih _).2 q h

theorem foldl_max_attained (c : Vec3 ℚ → ℚ) (rest : List (Vec3 ℚ)) :
    ∀ a : ℚ, rest.foldl (fun m q => max m (c q)) a = a ∨
      ∃ q ∈ rest, c q = rest.foldl (fun m q => max m (c q)) a := by
  induction rest with
  | nil => intro a; exact Or.inl rfl
  | cons r rest ih =>
    intro a
    simp only [List.foldl_cons]
    rcases ih (max a (c r)) with h | ⟨q, hq, h⟩
    · rcases max_choice a (c r) with hm | hm
      · left; rw [h, hm]
      · right; exact ⟨r, List.mem_cons_self _ _, by rw [h, hm]⟩
    · right; exact ⟨q, List.mem_cons_of_mem _ hq, h⟩

theorem foldl_min_le (c : Vec3 ℚ → ℚ) (rest : List (Vec3 ℚ)) :
    ∀ a : ℚ, rest.foldl (fun m q => min m (c q)) a ≤ a ∧
      ∀ q ∈ rest, rest.foldl (fun m q => min m (c q)) a ≤ c q := by
  induction rest with
  | nil => intro a; exact ⟨le_refl _, fun q hq => absurd hq (List.not_mem_nil q)⟩
  | cons r rest ih =>
    intro a
    simp only [List.foldl_cons]
    refine ⟨le_trans (ih _).1 (min_le_left _ _), ?_⟩
    intro q hq
    rcases List.mem_cons.mp hq with h | h
    · rw [h]; exact le_trans (ih _).1 (min_le_right _ _)
    · exact (ih _).2 q h

theorem foldl_min_attained (c : Vec3 ℚ → ℚ) (rest : List (Vec3 ℚ)) :
    ∀ a : ℚ, rest.foldl (fun m q => min m (c q)) a = a ∨
      ∃ q ∈ rest, c q = rest.foldl (fun m q => min m (c q)) a := by
  induction rest with
  | nil => intro a; exact Or.inl rfl
  | cons r rest ih =>
    intro a
    simp only [List.foldl_cons]
    rcases ih (min a (c r)) with h | ⟨q, hq, h⟩
    · rcases min_choice a (c r) with hm | hm
      · left; rw [h, hm]
      · right; exact ⟨r, List.mem_cons_self _ _, by rw [h, hm]⟩
    · right; exact ⟨q, List.mem_cons_of_mem _ hq, h⟩

/-- On a non-empty list `max_coeff` is the largest value of the coordinate and
is taken at one of the points. -/
theorem max_coeff_spec (c : Vec3 ℚ → ℚ) (points : List (Vec3 ℚ)) (h : points ≠ []) :
    (∀ q ∈ points, c q ≤ max_coeff c points) ∧ ∃ q ∈ points, c q = max_coeff c points := by
  cases points with
  | nil => exact absurd rfl h
  | cons p rest =>
    simp only [max_coeff]
    constructor
    · intro q hq
      rcases List.mem_cons.mp hq with hqp | hqr
      · rw [hqp]; exact (foldl_max_ge c rest (c p)).1
      · exact (foldl_max_ge c rest (c p)).2 q hqr
    · rcases foldl_max_attained c rest (c p) with hm | ⟨q, hq, hm⟩
      · exact ⟨p, List.mem_cons_self _ _, hm.symm⟩
      · exact ⟨q, List.mem_cons_of_mem _ hq, hm⟩

/-- On a non-empty list `min_coeff` is the smallest value of the coordinate and
is taken at one of the points. -/
theorem min_coeff_spec (c : Vec3 ℚ → ℚ) (points : List (Vec3 ℚ)) (h : points ≠ []) :
    (∀ q ∈ points, min_coeff c points ≤ c q) ∧ ∃ q ∈ points, c q = min_coeff c points := by
  cases points with
  | nil => exact absurd rfl h
  | cons p rest =>
    simp only [min_coeff]
    constructor
    · intro q hq
      rcases List.mem_cons.mp hq with hqp | hqr
      · rw [hqp]; exact (foldl_min_le c rest (c p)).1
      · exact (foldl_min_le c rest (c p)).2 q hqr
    · rcases foldl_min_attained c rest (c p) with hm | ⟨q, hq, hm⟩
      · exact ⟨p, List.mem_cons_self _ _, hm.symm⟩
      · exact ⟨q, List.mem_cons_of_mem _ hq, hm⟩

/-- The value `center_object` divides by is the largest bounding-box extent. -/
theorem largest_extent_spec (points : List (Vec3 ℚ)) (h : points ≠ []) :
    is_largest_extent points (largest_extent points) := by
  obtain ⟨hxmax, px, hpx, hpxe⟩ := max_coeff_spec Vec3.x points h
  obtain ⟨hymax, py, hpy, hpye⟩ := max_coeff_spec Vec3.y points h
  obtain ⟨hzmax, pz, hpz, hpze⟩ := max_coeff_spec Vec3.z points h
  obtain ⟨hxmin, qx, hqx, hqxe⟩ := min_coeff_spec Vec3.x points h
  obtain ⟨hymin, qy, hqy, hqye⟩ := min_coeff_spec Vec3.y points h
  obtain ⟨hzmin, qz, hqz, hqze⟩ := min_coeff_spec Vec3.z points h
  constructor
  · intro p hp q hq
    unfold largest_extent
    refine ⟨?_, ?_, ?_⟩
    · exact le_trans (sub_le_sub (hxmax p hp) (hxmin q hq))
        (le_trans (le_max_left _ _) (le_max_left _ _))
    · exact le_trans (sub_le_sub (hymax p hp) (hymin q hq))
        (le_trans (le_max_right _ _) (le_max_left _ _))
    · exact le_trans (sub_le_sub (hzmax p hp) (hzmin q hq)) (le_max_right _ _)
  · unfold largest_extent
    rcases max_choice (max (max_coeff Vec3.x points - min_coeff Vec3.x points)
        (max_coeff Vec3.y points - min_coeff Vec3.y points))
        (max_coeff Vec3.z points - min_coeff Vec3.z points) with h1 | h1
    · rcases max_choice (max_coeff Vec3.x points - min_coeff Vec3.x points)
          (max_coeff Vec3.y points - min_coeff Vec3.y points) with h2 | h2
      · exact ⟨px, hpx, qx, hqx, Or.inl (by rw [h1, h2, hpxe, hqxe])⟩
      · exact ⟨py, hpy, qy, hqy, Or.inr (Or.inl (by rw [h1, h2, hpye, hqye]))⟩
    · exact ⟨pz, hpz, qz, hqz, Or.inr (Or.inr (by rw [h1, hpze, hqze]))⟩

theorem RenderPlugin.center_object_empty (E : RenderEnv) (s : RenderPlugin)
    (h : s.render_mesh_points = []) :
    (s.center_object E).viewer_core = s.viewer_core := by
  unfold RenderPlugin.center_object
  unfold RenderPlugin.render_mesh_points at h
  dsimp only
  rw [h]
  rfl

theorem RenderPlugin.center_object_core (E : RenderEnv) (s : RenderPlugin)
    (h : s.render_mesh_points ≠ []) :
    (s.center_object E).viewer_core =
      { camera_base_translation :=
          Vec3.map E.toFloat ⟨-(centroid s.render_mesh_points).x,
            -(centroid s.render_mesh_points).y, -(centroid s.render_mesh_points).z⟩
        camera_translation := ⟨0, 0, 0⟩
        camera_base_zoom := (double_div 2 (largest_extent s.render_mesh_points)).map E.toFloat
        camera_zoom := 1 } := by
  unfold RenderPlugin.center_object
  unfold RenderPlugin.render_mesh_points at h ⊢
  dsimp only
  rw [if_neg (fun h0 => h (List.length_eq_zero.mp h0))]
  have hx := min_coeff_le_max_coeff Vec3.x
    ({ s.viewer with selected_data_index := s.VIEWER_DATA_RENDER_MESH } : Viewer).data.V
  have hy := min_coeff_le_max_coeff Vec3.y
    ({ s.viewer with selected_data_index := s.VIEWER_DATA_RENDER_MESH } : Viewer).data.V
  have hz := min_coeff_le_max_coeff Vec3.z
    ({ s.viewer with selected_data_index := s.VIEWER_DATA_RENDER_MESH } : Viewer).data.V
  simp only [Vec3.map, Vec3.sub, Vec3.smul, centroid_eq_mean_coeff, largest_extent, neg_one_mul,
    abs_of_nonneg (sub_nonneg.mpr hx), abs_of_nonneg (sub_nonneg.mpr hy),
    abs_of_nonneg (sub_nonneg.mpr hz)]
  norm_num

theorem is_largest_extent_unique (points : List (Vec3 ℚ)) (e1 e2 : ℚ)
    (h1 : is_largest_extent points e1) (h2 : is_largest_extent points e2) : e1 = e2 := by
  have hle : ∀ a b : ℚ, is_largest_extent points a → is_largest_extent points b → a ≤ b := by
    intro a b ha hb
    obtain ⟨p, hp, q, hq, hpq⟩ := ha.2
    have hbound := hb.1 p hp q hq
    rcases hpq with h | h | h
    · rw [← h]; exact hbound.1
    · rw [← h]; exact hbound.2.1
    · rw [← h]; exact hbound.2.2
  exact le_antisymm (hle e1 e2 h1 h2) (hle e2 e1 h2 h1)

/-- C24: `center_object` leaves the viewer camera as it was when the render
mesh has no vertices; otherwise the base translation is minus the centroid
(the sum of the vertices divided by their number, converted to `float`), the
camera translation is zero, the zoom is 1 and the base zoom is 2 divided by
the largest bounding-box extent (converted to `float`), the one number that
bounds every coordinate difference of two vertices and is such a difference;
when that extent is positive and the conversion of the quotient is exact, the
extent times the base zoom is 2; when all vertices coincide the extent is zero
and the division is still carried out, leaving a base zoom that is not a
finite number. -/
theorem center_object_frames_mesh (E : RenderEnv) (s : RenderPlugin) :
    (s.render_mesh_points = [] → (s.center_object E).viewer_core = s.viewer_core) ∧
    (s.render_mesh_points ≠ [] →
      (s.center_object E).viewer_core.camera_base_translation =
        Vec3.map E.toFloat ⟨-(centroid s.render_mesh_points).x,
          -(centroid s.render_mesh_points).y, -(centroid s.render_mesh_points).z⟩ ∧
      (s.center_object E).viewer_core.camera_translation = ⟨0, 0, 0⟩ ∧
      (s.center_object E).viewer_core.camera_zoom = 1 ∧
      (s.center_object E).viewer_core.camera_base_zoom =
        (double_div 2 (largest_extent s.render_mesh_points)).map E.toFloat ∧
      is_largest_extent s.render_mesh_points (largest_extent s.render_mesh_points) ∧
      (∀ e, is_largest_extent s.render_mesh_points e →
        e = largest_extent s.render_mesh_points)) ∧
    (s.render_mesh_points ≠ [] → 0 < largest_extent s.render_mesh_points →
      E.toFloat (2 / largest_extent s.render_mesh_points) =
        2 / largest_extent s.render_mesh_points →
      ∃ zoom, (s.center_object E).viewer_core.camera_base_zoom = some zoom ∧
        largest_extent s.render_mesh_points * zoom = 2) ∧
    (∀ (p : Vec3 ℚ) (k : Nat), s.render_mesh_points = List.replicate (k + 1) p →
      largest_extent s.render_mesh_points = 0 ∧
      (s.center_object E).viewer_core.camera_base_zoom = none) := by
  refine ⟨s.center_object_empty E, ?_, ?_, ?_⟩
  · intro h
    rw [s.center_object_core E h]
    exact ⟨rfl, rfl, rfl, rfl, largest_extent_spec _ h,
      fun e he => is_largest_extent_unique _ _ _ he (largest_extent_spec _ h)⟩
  · intro h hpos hexact
    rw [s.center_object_core E h]
    refine ⟨2 / largest_extent s.render_mesh_points, ?_, ?_⟩
    · simp only [double_div, if_neg (ne_of_gt hpos), Option.map_some', hexact]
    · exact mul_div_cancel₀ 2 (ne_of_gt hpos)
  · intro p k h
    have hne : s.render_mesh_points ≠ [] := by
      rw [h]
      exact fun h0 => absurd (congrArg List.length h0) (by simp)
    have hzero : largest_extent s.render_mesh_points = 0 := by
      rw [h]
      exact largest_extent_replicate p k
    refine ⟨hzero, ?_⟩
    rw [s.center_object_core E hne]
    simp only [double_div, hzero, if_true, Option.map_none']

/-- C24 on the test plugin with the two vertices `(0, 0, 0)` and `(4, 2, 0)`:
the centroid is `(2, 1, 0)` and the largest extent is 4; `center_object` leaves
the base translation `(-2, -1, 0)`, the translation zero, the zoom 1 and the
base zoom `1 / 2`, whose product with the extent is 2. -/
theorem center_object_frames_mesh_witness :
    two_vertex_render_plugin.render_mesh_points = [⟨0, 0, 0⟩, ⟨4, 2, 0⟩] ∧
    centroid two_vertex_render_plugin.render_mesh_points = ⟨2, 1, 0⟩ ∧
    largest_extent two_vertex_render_plugin.render_mesh_points = 4 ∧
    (two_vertex_render_plugin.center_object
      (translation_env [])).viewer_core.camera_base_translation = ⟨-2, -1, 0⟩ ∧
    (two_vertex_render_plugin.center_object
      (translation_env [])).viewer_core.camera_translation = ⟨0, 0, 0⟩ ∧
    (two_vertex_render_plugin.center_object
      (translation_env [])).viewer_core.camera_zoom = 1 ∧
    (two_vertex_render_plugin.center_object
      (translation_env [])).viewer_core.camera_base_zoom = some (1 / 2) ∧
    ∃ zoom, (two_vertex_render_plugin.center_object
        (translation_env [])).viewer_core.camera_base_zoom = some zoom ∧
      largest_extent two_vertex_render_plugin.render_mesh_points * zoom = 2 := by
  have hpoints : two_vertex_render_plugin.render_mesh_points = [⟨0, 0, 0⟩, ⟨4, 2, 0⟩] := by
    decide
  have hne : two_vertex_render_plugin.render_mesh_points ≠ [] := by
    rw [hpoints]
    exact List.cons_ne_nil _ _
  have hcentroid : centroid two_vertex_render_plugin.render_mesh_points = ⟨2, 1, 0⟩ := by
    rw [hpoints]
    simp [centroid, vector_sum, Vec3.add, Vec3.smul]
    norm_num
  have hextent : largest_extent two_vertex_render_plugin.render_mesh_points = 4 := by
    rw [hpoints]
    simp [largest_extent, max_coeff, min_coeff]
    norm_num
  obtain ⟨htranslation, hzero, hzoom, hbase, -, -⟩ :=
    (center_object_frames_mesh (translation_env []) two_vertex_render_plugin).2.1 hne
  refine ⟨hpoints, hcentroid, hextent, ?_, hzero, hzoom, ?_, ?_⟩
  · rw [htranslation, hcentroid]
    rfl
  · rw [hbase, hextent]
    simp [double_div, translation_env]
    norm_num
  · exact (center_object_frames_mesh (translation_env []) two_vertex_render_plugin).2.2.1
      hne (by rw [hextent]; norm_num) rfl

end NBV
